import Mathlib

/-!
Verification of the Steps language front end (tree-sitter generated parser).

The file embeds, from src/tree-sitter-steps/src/parser.c:
the lexer DFA (function ts_lex), the keyword lexer (ts_lex_keywords),
the per-state lex modes (ts_lex_modes), the LR parse tables
(ts_parse_table, ts_small_parse_table, ts_parse_actions), and a driver
implementing the deterministic LR loop of the tree-sitter runtime
(lex with the lex mode of the current state, keyword substitution for
identifier tokens, shift and reduce over an explicit stack, goto on the
reduced symbol, accept).  Characters are Nat code points; end of input
is modelled as the C lexer models it (a distinct eof condition).
-/

namespace Steps

/-- One guard of a lexer DFA transition: end of input, an exact code,
an inclusive code range, or a conjunction of inequalities. -/
inductive Atom where
  | aEof : Atom
  | aEq : Nat → Atom
  | aRg : Nat → Nat → Atom
  | aNe : List Nat → Atom
deriving DecidableEq

/-- A lexer DFA transition: guard, target state, and whether the
consumed character is excluded from the token (SKIP in ts_lex). -/
structure LC where
  atom : Atom
  tgt : Nat
  skip : Bool
deriving DecidableEq

def tE (c t : Nat) : LC := ⟨Atom.aEq c, t, false⟩

def tK (c t : Nat) : LC := ⟨Atom.aEq c, t, true⟩

def tR (lo hi t : Nat) : LC := ⟨Atom.aRg lo hi, t, false⟩

def tQ (cs : List Nat) (t : Nat) : LC := ⟨Atom.aNe cs, t, false⟩

def tF (t : Nat) : LC := ⟨Atom.aEof, t, false⟩

/-- Guard evaluation; lookahead none is end of input, mirroring the
C code where eof is tested first and lookahead is 0 at eof. -/
def amatch : Atom → Option Nat → Bool
  | Atom.aEof, none => true
  | Atom.aEof, some _ => false
  | Atom.aEq c, some d => c == d
  | Atom.aEq _, none => false
  | Atom.aRg lo hi, some d => decide (lo ≤ d) && decide (d ≤ hi)
  | Atom.aRg _ _, none => false
  | Atom.aNe cs, some d => !(cs.contains d)
  | Atom.aNe _, none => false

/-- First transition whose guard matches, in source order
(the generated C tests its conditions sequentially). -/
def firstCase : List LC → Option Nat → Option (Nat × Bool)
  | [], _ => none
  | c :: rest, look =>
    if amatch c.atom look then some (c.tgt, c.skip) else firstCase rest look

/-- The lexer loop (START_LEXER / ADVANCE / SKIP / ACCEPT_TOKEN /
END_STATE).  State entry with an ACCEPT_TOKEN marks the current
position as the token end (best); a dead end returns the last marked
token, mirroring mark_end backtracking.  Returns the token symbol, the
reversed token text, and the remaining input at the marked end. -/
def lexGo (tbl : List (Option Nat × List LC)) :
    Nat → Nat → List Nat → List Nat →
    Option (Nat × List Nat × List Nat) → Option (Nat × List Nat × List Nat)
  | 0, _, _, _, _ => none
  | Nat.succ fuel, st, inp, accRev, best =>
    let row := tbl.getD st (none, [])
    let best2 := match row.1 with
      | some tok => some (tok, accRev, inp)
      | none => best
    match firstCase row.2 inp.head? with
    | none => best2
    | some (tgt, skip) =>
      match inp with
      | [] => lexGo tbl fuel tgt [] accRev best2
      | c :: rest =>
        if skip then lexGo tbl fuel tgt rest [] best2
        else lexGo tbl fuel tgt rest (c :: accRev) best2

/-- Lex one token from the given DFA start state: symbol, token text,
remaining input. -/
def lexTokT (tbl : List (Option Nat × List LC)) (st : Nat) (inp : List Nat) :
    Option (Nat × List Nat × List Nat) :=
  match lexGo tbl (inp.length + 8) st inp [] none with
  | some (t, a, r) => some (t, a.reverse, r)
  | none => none

/-- A parse-table cell: an index into the action table, or a goto
target state (STATE entries, used for nonterminals). -/
inductive Cell where
  | A : Nat → Cell
  | S : Nat → Cell
deriving DecidableEq

/-- A parse action (ts_parse_actions): shift, shift after a repeat
reduce, reduce (symbol, child count), accept, recover. -/
inductive PAct where
  | sh : Nat → PAct
  | shr : Nat → PAct
  | re : Nat → Nat → PAct
  | acc : PAct
  | rcv : PAct
deriving DecidableEq
def lexTblP0 : List (Option Nat × List LC) := [
  (none, [tF 267, tE 10 611, tE 34 441, tE 40 462, tE 41 463, tE 42 449, tE 43 447, tE 44 389, tE 45 448, tE 47 450, tE 61 390, tE 91 445, tE 92 253, tE 93 446, tE 97 493, tE 98 503, tE 99 485, tE 100 504, tE 101 554, tE 102 545, tE 105 526, tE 108 505, tE 110 565, tE 111 595, tE 114 506, tE 115 518, tE 116 535, tE 119 536, tK 9 0, tK 32 0, tR 65 90 610, tE 95 610, tR 103 122 610]),
  (none, [tE 32 3, tQ [0] 371]),
  (none, [tE 32 61]),
  (none, [tE 32 141, tE 110 167]),
  (none, [tE 32 47, tE 58 272]),
  (none, [tE 32 50]),
  (none, [tE 32 183]),
  (none, [tE 32 89]),
  (none, [tE 32 217]),
  (none, [tE 32 155]),
  (none, [tE 32 221]),
  (none, [tE 32 112]),
  (none, [tE 32 222]),
  (none, [tE 32 225]),
  (none, [tE 32 228]),
  (none, [tE 32 229]),
  (none, [tE 32 231]),
  (none, [tE 32 90]),
  (none, [tE 32 91]),
  (none, [tE 34 441, tE 40 462, tE 45 254, tE 91 445, tE 93 446, tE 99 485, tE 108 505, tK 9 19, tK 32 19, tR 48 57 439, tR 65 90 610, tE 95 610, tR 97 122 610]),
  (none, [tE 34 441, tE 92 253, tE 9 442, tE 32 442, tQ [0] 443]),
  (none, [tE 41 463, tE 42 449, tE 43 447, tE 45 448, tE 47 450, tE 91 445, tE 93 446, tE 97 499, tE 101 562, tE 105 582, tE 115 601, tK 9 21, tK 32 21, tR 65 90 610, tE 95 610, tR 98 122 610]),
  (none, [tE 58 268]),
  (none, [tE 58 382]),
  (none, [tE 58 380]),
  (none, [tE 58 384]),
  (none, [tE 58 428]),
  (none, [tE 58 270]),
  (none, [tE 58 387]),
  (none, [tE 58 388]),
  (none, [tE 58 378]),
  (none, [tE 58 386]),
  (none, [tE 58 361]),
  (none, [tE 58 431]),
  (none, [tE 58 430]),
  (none, [tE 97 251]),
  (none, [tE 97 48]),
  (none, [tE 97 122]),
  (none, [tE 97 142]),
  (none, [tE 97 220]),
  (none, [tE 97 128]),
  (none, [tE 97 143]),
  (none, [tE 97 212]),
  (none, [tE 97 189]),
  (none, [tE 97 133]),
  (none, [tE 97 134]),
  (none, [tE 97 135]),
  (none, [tE 98 125]),
  (none, [tE 99 100]),
  (none, [tE 99 120]),
  (none, [tE 99 166]),
  (none, [tE 99 54]),
  (none, [tE 99 126]),
  (none, [tE 99 223]),
  (none, [tE 99 85]),
  (none, [tE 100 56, tE 116 224]),
  (none, [tE 100 432]),
  (none, [tE 100 1, tQ [0] 369]),
  (none, [tE 100 9]),
  (none, [tE 100 116]),
  (none, [tE 101 179, tE 103 190, tE 105 140, tE 108 70, tE 110 156]),
  (none, [tE 101 36]),
  (none, [tE 101 363]),
  (none, [tE 101 137, tE 105 203]),
  (none, [tE 101 136]),
  (none, [tE 101 4]),
  (none, [tE 101 425]),
  (none, [tE 101 436]),
  (none, [tE 101 418]),
  (none, [tE 101 148, tE 9 364, tE 32 364, tQ [0] 365]),
  (none, [tE 101 199]),
  (none, [tE 101 193]),
  (none, [tE 101 39]),
  (none, [tE 101 33]),
  (none, [tE 101 175]),
  (none, [tE 101 175, tE 111 192]),
  (none, [tE 101 52, tE 105 197, tE 111 22]),
  (none, [tE 101 53]),
  (none, [tE 101 154]),
  (none, [tE 101 191])
]

def lexTblP1 : List (Option Nat × List LC) := [
  (none, [tE 101 27]),
  (none, [tE 101 209, tE 116 75]),
  (none, [tE 101 209, tE 116 74]),
  (none, [tE 101 201]),
  (none, [tE 101 132, tE 117 111]),
  (none, [tE 101 202]),
  (none, [tE 101 42]),
  (none, [tE 101 186]),
  (none, [tE 101 138, tE 105 203]),
  (none, [tE 101 180]),
  (none, [tE 101 181]),
  (none, [tE 101 182]),
  (none, [tE 102 461]),
  (none, [tE 102 417]),
  (none, [tE 102 412, tE 110 176]),
  (none, [tE 102 413, tE 110 176]),
  (none, [tE 102 237]),
  (none, [tE 103 206]),
  (none, [tE 103 6]),
  (none, [tE 103 30]),
  (none, [tE 104 423]),
  (none, [tE 104 459]),
  (none, [tE 104 458]),
  (none, [tE 104 38]),
  (none, [tE 104 78]),
  (none, [tE 104 79]),
  (none, [tE 104 41]),
  (none, [tE 104 114]),
  (none, [tE 105 93]),
  (none, [tE 105 152]),
  (none, [tE 105 214]),
  (none, [tE 105 123]),
  (none, [tE 105 144]),
  (none, [tE 105 219]),
  (none, [tE 105 130]),
  (none, [tE 105 146]),
  (none, [tE 105 150]),
  (none, [tE 105 210]),
  (none, [tE 105 210, tE 112 77]),
  (none, [tE 105 205]),
  (none, [tE 107 32]),
  (none, [tE 108 394]),
  (none, [tE 108 12]),
  (none, [tE 108 59]),
  (none, [tE 108 34]),
  (none, [tE 108 169]),
  (none, [tE 108 43]),
  (none, [tE 108 35]),
  (none, [tE 108 121]),
  (none, [tE 108 173, tE 111 184]),
  (none, [tE 108 66]),
  (none, [tE 108 218]),
  (none, [tE 108 172]),
  (none, [tE 108 13]),
  (none, [tE 108 14]),
  (none, [tE 108 15]),
  (none, [tE 109 178]),
  (none, [tE 109 165, tE 112 86, tE 116 239]),
  (none, [tE 109 165, tE 112 86, tE 116 241]),
  (none, [tE 110 198]),
  (none, [tE 110 460]),
  (none, [tE 110 157, tQ [0] 374]),
  (none, [tE 110 453]),
  (none, [tE 110 454]),
  (none, [tE 110 397]),
  (none, [tE 110 404]),
  (none, [tE 110 98]),
  (none, [tE 110 406]),
  (none, [tE 110 57, tQ [0] 366]),
  (none, [tE 110 58, tE 120 117]),
  (none, [tE 110 99]),
  (none, [tE 110 97]),
  (none, [tE 110 238]),
  (none, [tE 110 213]),
  (none, [tE 110 5]),
  (none, [tE 110 167]),
  (none, [tE 111 207]),
  (none, [tE 111 208, tQ [0] 375]),
  (none, [tE 111 457]),
  (none, [tE 111 92])
]

def lexTblP2 : List (Option Nat × List LC) := [
  (none, [tE 111 31]),
  (none, [tE 111 451]),
  (none, [tE 111 452]),
  (none, [tE 111 455]),
  (none, [tE 111 456]),
  (none, [tE 111 245]),
  (none, [tE 111 153]),
  (none, [tE 111 215]),
  (none, [tE 111 194]),
  (none, [tE 111 49]),
  (none, [tE 111 185]),
  (none, [tE 111 227]),
  (none, [tE 111 151]),
  (none, [tE 111 170]),
  (none, [tE 111 195]),
  (none, [tE 112 23]),
  (none, [tE 112 240]),
  (none, [tE 112 127]),
  (none, [tE 112 226]),
  (none, [tE 113 233]),
  (none, [tE 113 242]),
  (none, [tE 113 243]),
  (none, [tE 113 244]),
  (none, [tE 114 83]),
  (none, [tE 114 2]),
  (none, [tE 114 24]),
  (none, [tE 114 25]),
  (none, [tE 114 145]),
  (none, [tE 114 147]),
  (none, [tE 114 80]),
  (none, [tE 114 72]),
  (none, [tE 114 247]),
  (none, [tE 114 115]),
  (none, [tE 114 16]),
  (none, [tE 114 17]),
  (none, [tE 114 18]),
  (none, [tE 115 8]),
  (none, [tE 115 177]),
  (none, [tE 115 234]),
  (none, [tE 115 196]),
  (none, [tE 115 96]),
  (none, [tE 115 235]),
  (none, [tE 115 200]),
  (none, [tE 115 87]),
  (none, [tE 115 28]),
  (none, [tE 115 68]),
  (none, [tE 115 10]),
  (none, [tE 116 7]),
  (none, [tE 116 256, tQ [0] 376]),
  (none, [tE 116 391]),
  (none, [tE 116 409]),
  (none, [tE 116 401]),
  (none, [tE 116 420]),
  (none, [tE 116 109]),
  (none, [tE 116 101]),
  (none, [tE 116 62]),
  (none, [tE 116 158]),
  (none, [tE 116 103]),
  (none, [tE 116 11]),
  (none, [tE 116 102]),
  (none, [tE 116 71]),
  (none, [tE 116 160]),
  (none, [tE 116 161]),
  (none, [tE 116 204]),
  (none, [tE 116 64]),
  (none, [tE 116 162]),
  (none, [tE 116 26]),
  (none, [tE 116 65]),
  (none, [tE 116 163]),
  (none, [tE 116 164]),
  (none, [tE 116 105]),
  (none, [tE 116 106]),
  (none, [tE 117 139]),
  (none, [tE 117 37]),
  (none, [tE 117 51]),
  (none, [tE 117 131]),
  (none, [tE 117 111]),
  (none, [tE 117 124]),
  (none, [tE 117 73]),
  (none, [tE 117 187])
]

def lexTblP3 : List (Option Nat × List LC) := [
  (none, [tE 117 211]),
  (none, [tE 117 188]),
  (none, [tE 117 44]),
  (none, [tE 117 45]),
  (none, [tE 117 46]),
  (none, [tE 118 67]),
  (none, [tE 119 110]),
  (none, [tE 119 119]),
  (none, [tE 119 113]),
  (none, [tE 120 118]),
  (none, [tE 120 117]),
  (none, [tE 121 398]),
  (none, [tK 9 252, tK 32 252, tR 65 90 610, tE 95 610, tR 97 122 610]),
  (none, [tE 34 444, tE 92 444, tE 110 444, tE 114 444, tE 116 444]),
  (none, [tR 48 57 439]),
  (none, [tR 48 57 440]),
  (none, [tQ [0, 101] 377]),
  (none, [tF 267, tE 10 611, tE 34 441, tE 40 462, tE 45 254, tE 91 445, tE 97 498, tE 98 602, tE 99 485, tE 100 504, tE 101 608, tE 102 545, tE 105 528, tE 108 505, tE 110 565, tE 114 525, tE 115 521, tE 119 536, tK 9 257, tK 32 257, tR 48 57 439, tR 65 90 610, tE 95 610, tR 103 122 610]),
  (none, [tF 267, tE 10 611, tE 41 463, tE 42 449, tE 43 447, tE 44 389, tE 45 448, tE 47 450, tE 91 445, tE 93 446, tE 97 493, tE 98 602, tE 99 485, tE 100 504, tE 101 561, tE 102 545, tE 105 527, tE 110 565, tE 111 595, tE 114 525, tE 115 518, tE 119 536, tK 9 258, tK 32 258, tR 65 90 610, tE 95 610, tR 103 122 610]),
  (none, [tF 267, tE 10 611, tE 41 463, tE 42 449, tE 43 447, tE 44 389, tE 45 448, tE 47 450, tE 91 445, tE 93 446, tE 97 493, tE 98 602, tE 99 485, tE 100 504, tE 101 561, tE 102 545, tE 105 527, tE 110 565, tE 111 595, tE 114 525, tE 115 519, tE 119 536, tK 9 259, tK 32 259, tR 65 90 610, tE 95 610, tR 103 122 610]),
  (none, [tF 267, tE 10 611, tE 42 449, tE 43 447, tE 44 389, tE 45 448, tE 47 450, tE 91 445, tE 93 446, tE 97 493, tE 98 602, tE 99 485, tE 100 504, tE 101 561, tE 102 545, tE 105 527, tE 110 565, tE 114 525, tE 115 518, tE 119 536, tK 9 260, tK 32 260, tR 65 90 610, tE 95 610, tR 103 122 610]),
  (none, [tF 267, tE 10 611, tE 42 449, tE 43 447, tE 45 448, tE 47 450, tE 91 445, tE 97 493, tE 98 602, tE 99 485, tE 100 504, tE 101 561, tE 102 545, tE 105 527, tE 110 565, tE 114 525, tE 115 519, tE 119 536, tK 9 261, tK 32 261, tR 65 90 610, tE 95 610, tR 103 122 610]),
  (none, [tF 267, tE 10 611, tE 44 389, tE 61 390, tE 93 446, tE 97 55, tE 98 236, tE 99 40, tE 100 76, tE 101 149, tE 102 129, tE 105 94, tE 110 171, tE 111 230, tE 114 63, tE 115 81, tE 116 104, tE 119 107, tK 9 262, tK 32 262]),
  (none, [tF 267, tE 10 611, tE 44 389, tE 97 55, tE 98 84, tE 99 40, tE 100 76, tE 101 249, tE 102 129, tE 105 94, tE 110 171, tE 114 88, tE 115 82, tE 119 107, tK 9 263, tK 32 263]),
  (none, [tF 267, tE 10 611, tE 97 55, tE 98 236, tE 99 40, tE 100 76, tE 101 250, tE 102 129, tE 105 95, tE 110 171, tE 114 63, tE 115 82, tE 116 104, tE 119 107, tK 9 264, tK 32 264]),
  (none, [tF 267, tE 10 611, tE 97 498, tE 98 602, tE 99 485, tE 100 504, tE 101 608, tE 102 545, tE 105 528, tE 110 565, tE 114 525, tE 115 521, tE 119 536, tK 9 265, tK 32 265, tR 65 90 610, tE 95 610, tR 103 122 610]),
  (none, [tF 267, tE 10 611, tE 97 498, tE 98 602, tE 99 485, tE 100 504, tE 101 608, tE 102 545, tE 105 528, tE 110 565, tE 114 525, tE 115 520, tE 119 536, tK 9 266, tK 32 266, tR 65 90 610, tE 95 610, tR 103 122 610]),
  (some 0, []),
  (some 2, []),
  (some 2, [tQ [0, 10] 359]),
  (some 3, []),
  (some 3, [tQ [0, 10] 359]),
  (some 4, []),
  (some 4, [tQ [0, 10] 359]),
  (some 5, [tE 32 290, tE 58 273, tQ [0, 10] 359]),
  (some 5, [tE 32 306, tQ [0, 10] 359]),
  (some 5, [tE 58 269, tQ [0, 10] 359]),
  (some 5, [tE 58 383, tQ [0, 10] 359]),
  (some 5, [tE 58 381, tQ [0, 10] 359]),
  (some 5, [tE 58 385, tQ [0, 10] 359]),
  (some 5, [tE 58 429, tQ [0, 10] 359]),
  (some 5, [tE 58 271, tQ [0, 10] 359]),
  (some 5, [tE 58 379, tQ [0, 10] 359]),
  (some 5, [tE 58 362, tQ [0, 10] 359]),
  (some 5, [tE 97 294, tE 98 353, tE 99 285, tE 100 297, tE 101 357, tE 102 320, tE 105 309, tE 110 334, tE 114 298, tE 115 303, tE 119 312, tE 9 284, tE 32 284, tQ [0, 10] 359]),
  (some 5, [tE 97 322, tQ [0, 10] 359]),
  (some 5, [tE 97 358, tQ [0, 10] 359]),
  (some 5, [tE 97 292, tQ [0, 10] 359]),
  (some 5, [tE 97 343, tQ [0, 10] 359]),
  (some 5, [tE 97 349, tQ [0, 10] 359]),
  (some 5, [tE 98 324, tQ [0, 10] 359]),
  (some 5, [tE 99 317, tQ [0, 10] 359]),
  (some 5, [tE 99 311, tQ [0, 10] 359]),
  (some 5, [tE 99 319, tQ [0, 10] 359]),
  (some 5, [tE 100 295, tE 116 350, tQ [0, 10] 359]),
  (some 5, [tE 100 435, tQ [0, 10] 359]),
  (some 5, [tE 100 314, tQ [0, 10] 359]),
  (some 5, [tE 101 293, tE 105 344, tE 111 276, tQ [0, 10] 359]),
  (some 5, [tE 101 326, tE 105 345, tQ [0, 10] 359]),
  (some 5, [tE 101 327, tQ [0, 10] 359]),
  (some 5, [tE 101 274, tQ [0, 10] 359]),
  (some 5, [tE 101 427, tQ [0, 10] 359]),
  (some 5, [tE 101 438, tQ [0, 10] 359]),
  (some 5, [tE 101 346, tE 116 305, tQ [0, 10] 359]),
  (some 5, [tE 101 289, tQ [0, 10] 359]),
  (some 5, [tE 101 336, tQ [0, 10] 359]),
  (some 5, [tE 101 287, tQ [0, 10] 359]),
  (some 5, [tE 101 281, tQ [0, 10] 359]),
  (some 5, [tE 101 342, tQ [0, 10] 359]),
  (some 5, [tE 102 416, tE 110 335, tQ [0, 10] 359]),
  (some 5, [tE 103 282, tQ [0, 10] 359]),
  (some 5, [tE 104 424, tQ [0, 10] 359]),
  (some 5, [tE 104 316, tQ [0, 10] 359]),
  (some 5, [tE 105 321, tQ [0, 10] 359]),
  (some 5, [tE 105 329, tQ [0, 10] 359]),
  (some 5, [tE 105 347, tQ [0, 10] 359]),
  (some 5, [tE 105 325, tQ [0, 10] 359]),
  (some 5, [tE 107 283, tQ [0, 10] 359]),
  (some 5, [tE 108 396, tQ [0, 10] 359]),
  (some 5, [tE 108 288, tQ [0, 10] 359])
]

def lexTblP4 : List (Option Nat × List LC) := [
  (some 5, [tE 108 332, tE 111 339, tQ [0, 10] 359]),
  (some 5, [tE 108 296, tQ [0, 10] 359]),
  (some 5, [tE 108 318, tQ [0, 10] 359]),
  (some 5, [tE 108 286, tQ [0, 10] 359]),
  (some 5, [tE 108 333, tQ [0, 10] 359]),
  (some 5, [tE 108 301, tQ [0, 10] 359]),
  (some 5, [tE 109 330, tE 112 304, tE 116 354, tQ [0, 10] 359]),
  (some 5, [tE 109 337, tQ [0, 10] 359]),
  (some 5, [tE 110 408, tQ [0, 10] 359]),
  (some 5, [tE 110 310, tQ [0, 10] 359]),
  (some 5, [tE 111 356, tQ [0, 10] 359]),
  (some 5, [tE 111 341, tQ [0, 10] 359]),
  (some 5, [tE 111 331, tQ [0, 10] 359]),
  (some 5, [tE 111 291, tQ [0, 10] 359]),
  (some 5, [tE 111 351, tQ [0, 10] 359]),
  (some 5, [tE 112 355, tQ [0, 10] 359]),
  (some 5, [tE 112 277, tQ [0, 10] 359]),
  (some 5, [tE 112 352, tQ [0, 10] 359]),
  (some 5, [tE 112 323, tQ [0, 10] 359]),
  (some 5, [tE 114 275, tQ [0, 10] 359]),
  (some 5, [tE 114 328, tQ [0, 10] 359]),
  (some 5, [tE 114 278, tQ [0, 10] 359]),
  (some 5, [tE 114 279, tQ [0, 10] 359]),
  (some 5, [tE 114 307, tQ [0, 10] 359]),
  (some 5, [tE 115 338, tQ [0, 10] 359]),
  (some 5, [tE 115 308, tQ [0, 10] 359]),
  (some 5, [tE 116 393, tQ [0, 10] 359]),
  (some 5, [tE 116 411, tQ [0, 10] 359]),
  (some 5, [tE 116 403, tQ [0, 10] 359]),
  (some 5, [tE 116 422, tQ [0, 10] 359]),
  (some 5, [tE 116 299, tQ [0, 10] 359]),
  (some 5, [tE 116 300, tQ [0, 10] 359]),
  (some 5, [tE 116 280, tQ [0, 10] 359]),
  (some 5, [tE 117 313, tQ [0, 10] 359]),
  (some 5, [tE 117 340, tQ [0, 10] 359]),
  (some 5, [tE 117 348, tQ [0, 10] 359]),
  (some 5, [tE 118 302, tQ [0, 10] 359]),
  (some 5, [tE 120 315, tQ [0, 10] 359]),
  (some 5, [tE 121 400, tQ [0, 10] 359]),
  (some 5, [tQ [0, 10] 359]),
  (some 5, [tF 267, tE 97 294, tE 98 353, tE 99 285, tE 100 297, tE 101 357, tE 102 320, tE 105 309, tE 110 334, tE 114 298, tE 115 303, tE 119 312, tE 9 284, tE 32 284, tQ [0, 10] 359]),
  (some 6, []),
  (some 6, [tQ [0, 10] 359]),
  (some 7, []),
  (some 8, [tE 9 364, tE 32 364, tQ [0, 101] 365]),
  (some 8, [tQ [0, 101] 365]),
  (some 9, []),
  (some 9, [tE 105 591, tE 112 513, tR 48 57 610, tR 65 90 610, tE 95 610, tR 97 122 610]),
  (some 9, [tR 48 57 610, tR 65 90 610, tE 95 610, tR 97 122 610]),
  (some 10, []),
  (some 10, [tR 48 57 610, tR 65 90 610, tE 95 610, tR 97 122 610]),
  (some 11, []),
  (some 11, [tE 32 246, tR 48 57 610, tR 65 90 610, tE 95 610, tR 97 122 610]),
  (some 11, [tR 48 57 610, tR 65 90 610, tE 95 610, tR 97 122 610]),
  (some 12, []),
  (some 13, []),
  (some 14, []),
  (some 15, []),
  (some 16, []),
  (some 16, [tQ [0, 10] 359]),
  (some 17, []),
  (some 17, [tQ [0, 10] 359]),
  (some 18, []),
  (some 18, [tQ [0, 10] 359]),
  (some 19, []),
  (some 19, [tQ [0, 10] 359]),
  (some 20, []),
  (some 21, []),
  (some 22, []),
  (some 23, []),
  (some 31, []),
  (some 32, []),
  (some 32, [tR 48 57 610, tR 65 90 610, tE 95 610, tR 97 122 610]),
  (some 32, [tQ [0, 10] 359]),
  (some 34, []),
  (some 34, [tR 48 57 610, tR 65 90 610, tE 95 610, tR 97 122 610]),
  (some 34, [tQ [0, 10] 359]),
  (some 36, []),
  (some 37, []),
  (some 37, [tR 48 57 610, tR 65 90 610, tE 95 610, tR 97 122 610])
]

def lexTblP5 : List (Option Nat × List LC) := [
  (some 37, [tQ [0, 10] 359]),
  (some 38, []),
  (some 38, [tR 48 57 610, tR 65 90 610, tE 95 610, tR 97 122 610]),
  (some 38, [tQ [0, 10] 359]),
  (some 39, []),
  (some 39, [tE 115 482, tR 48 57 610, tR 65 90 610, tE 95 610, tR 97 122 610]),
  (some 39, [tE 115 29]),
  (some 39, [tR 48 57 610, tR 65 90 610, tE 95 610, tR 97 122 610]),
  (some 39, [tQ [0, 10] 359]),
  (some 40, []),
  (some 40, [tR 48 57 610, tR 65 90 610, tE 95 610, tR 97 122 610]),
  (some 40, [tQ [0, 10] 359]),
  (some 41, []),
  (some 41, [tE 32 232]),
  (some 41, [tE 32 232, tR 48 57 610, tR 65 90 610, tE 95 610, tR 97 122 610]),
  (some 41, [tR 48 57 610, tR 65 90 610, tE 95 610, tR 97 122 610]),
  (some 41, [tQ [0, 10] 359]),
  (some 42, []),
  (some 43, [tE 32 108]),
  (some 43, [tE 32 108, tR 48 57 610, tR 65 90 610, tE 95 610, tR 97 122 610]),
  (some 44, []),
  (some 44, [tR 48 57 610, tR 65 90 610, tE 95 610, tR 97 122 610]),
  (some 44, [tQ [0, 10] 359]),
  (some 46, []),
  (some 46, [tQ [0, 10] 359]),
  (some 48, []),
  (some 48, [tR 48 57 610, tR 65 90 610, tE 95 610, tR 97 122 610]),
  (some 48, [tQ [0, 10] 359]),
  (some 49, []),
  (some 49, [tQ [0, 10] 359]),
  (some 50, []),
  (some 51, []),
  (some 52, []),
  (some 52, [tE 101 497, tR 48 57 610, tR 65 90 610, tE 95 610, tR 97 122 610]),
  (some 52, [tR 48 57 610, tR 65 90 610, tE 95 610, tR 97 122 610]),
  (some 52, [tQ [0, 10] 359]),
  (some 53, []),
  (some 53, [tR 48 57 610, tR 65 90 610, tE 95 610, tR 97 122 610]),
  (some 53, [tQ [0, 10] 359]),
  (some 55, [tE 46 255, tR 48 57 439]),
  (some 55, [tR 48 57 440]),
  (some 56, []),
  (some 57, [tE 9 442, tE 32 442, tQ [0, 34, 92] 443]),
  (some 57, [tQ [0, 34, 92] 443]),
  (some 58, []),
  (some 62, []),
  (some 63, []),
  (some 64, []),
  (some 65, []),
  (some 66, []),
  (some 67, []),
  (some 68, []),
  (some 70, []),
  (some 71, [tE 32 168]),
  (some 72, [tE 32 174]),
  (some 73, []),
  (some 74, []),
  (some 77, []),
  (some 79, []),
  (some 80, []),
  (some 81, []),
  (some 83, []),
  (some 84, []),
  (some 85, []),
  (some 1, [tE 32 60, tR 48 57 610, tR 65 90 610, tE 95 610, tR 97 122 610]),
  (some 1, [tE 32 3, tE 115 372, tR 48 57 373, tR 65 90 373, tE 95 373, tR 97 122 373, tQ [0] 371]),
  (some 1, [tE 32 61, tR 48 57 610, tR 65 90 610, tE 95 610, tR 97 122 610]),
  (some 1, [tE 32 246, tR 48 57 610, tR 65 90 610, tE 95 610, tR 97 122 610]),
  (some 1, [tE 32 47, tE 58 272, tR 48 57 610, tR 65 90 610, tE 95 610, tR 97 122 610]),
  (some 1, [tE 32 50, tR 48 57 610, tR 65 90 610, tE 95 610, tR 97 122 610]),
  (some 1, [tE 32 183, tR 48 57 610, tR 65 90 610, tE 95 610, tR 97 122 610]),
  (some 1, [tE 32 216, tR 48 57 610, tR 65 90 610, tE 95 610, tR 97 122 610]),
  (some 1, [tE 32 159, tR 48 57 610, tR 65 90 610, tE 95 610, tR 97 122 610]),
  (some 1, [tE 32 221, tR 48 57 610, tR 65 90 610, tE 95 610, tR 97 122 610]),
  (some 1, [tE 32 248, tR 48 57 610, tR 65 90 610, tE 95 610, tR 97 122 610]),
  (some 1, [tE 58 268, tR 48 57 610, tR 65 90 610, tE 95 610, tR 97 122 610]),
  (some 1, [tE 58 382, tR 48 57 610, tR 65 90 610, tE 95 610, tR 97 122 610]),
  (some 1, [tE 58 380, tR 48 57 610, tR 65 90 610, tE 95 610, tR 97 122 610]),
  (some 1, [tE 58 384, tR 48 57 610, tR 65 90 610, tE 95 610, tR 97 122 610]),
  (some 1, [tE 58 428, tR 48 57 610, tR 65 90 610, tE 95 610, tR 97 122 610])
]

def lexTblP6 : List (Option Nat × List LC) := [
  (some 1, [tE 58 270, tR 48 57 610, tR 65 90 610, tE 95 610, tR 97 122 610]),
  (some 1, [tE 58 387, tR 48 57 610, tR 65 90 610, tE 95 610, tR 97 122 610]),
  (some 1, [tE 58 388, tR 48 57 610, tR 65 90 610, tE 95 610, tR 97 122 610]),
  (some 1, [tE 58 378, tR 48 57 610, tR 65 90 610, tE 95 610, tR 97 122 610]),
  (some 1, [tE 97 609, tR 48 57 610, tR 65 90 610, tE 95 610, tR 98 122 610]),
  (some 1, [tE 97 549, tR 48 57 610, tR 65 90 610, tE 95 610, tR 98 122 610]),
  (some 1, [tE 97 580, tE 101 569, tE 111 574, tR 48 57 610, tR 65 90 610, tE 95 610, tR 98 122 610]),
  (some 1, [tE 97 580, tE 101 569, tR 48 57 610, tR 65 90 610, tE 95 610, tR 98 122 610]),
  (some 1, [tE 97 580, tR 48 57 610, tR 65 90 610, tE 95 610, tR 98 122 610]),
  (some 1, [tE 97 592, tR 48 57 610, tR 65 90 610, tE 95 610, tR 98 122 610]),
  (some 1, [tE 97 581, tR 48 57 610, tR 65 90 610, tE 95 610, tR 98 122 610]),
  (some 1, [tE 99 544, tR 48 57 610, tR 65 90 610, tE 95 610, tR 97 122 610]),
  (some 1, [tE 99 599, tR 48 57 610, tR 65 90 610, tE 95 610, tR 97 122 610]),
  (some 1, [tE 100 494, tE 116 594, tR 48 57 610, tR 65 90 610, tE 95 610, tR 97 122 610]),
  (some 1, [tE 100 433, tR 48 57 610, tR 65 90 610, tE 95 610, tR 97 122 610]),
  (some 1, [tE 100 465, tR 48 57 370, tR 65 90 370, tE 95 370, tR 97 122 370, tQ [0] 369]),
  (some 1, [tE 100 434, tR 48 57 610, tR 65 90 610, tE 95 610, tR 97 122 610]),
  (some 1, [tE 100 471, tR 48 57 610, tR 65 90 610, tE 95 610, tR 97 122 610]),
  (some 1, [tE 100 496, tE 116 594, tR 48 57 610, tR 65 90 610, tE 95 610, tR 97 122 610]),
  (some 1, [tE 100 500, tR 48 57 610, tR 65 90 610, tE 95 610, tR 97 122 610]),
  (some 1, [tE 100 512, tR 48 57 610, tR 65 90 610, tE 95 610, tR 97 122 610]),
  (some 1, [tE 100 542, tR 48 57 610, tR 65 90 610, tE 95 610, tR 97 122 610]),
  (some 1, [tE 100 589, tR 48 57 610, tR 65 90 610, tE 95 610, tR 97 122 610]),
  (some 1, [tE 101 546, tE 117 537, tR 48 57 610, tR 65 90 610, tE 95 610, tR 97 122 610]),
  (some 1, [tE 101 491, tE 105 583, tE 111 475, tR 48 57 610, tR 65 90 610, tE 95 610, tR 97 122 610]),
  (some 1, [tE 101 555, tR 48 57 610, tR 65 90 610, tE 95 610, tR 97 122 610]),
  (some 1, [tE 101 552, tE 105 588, tR 48 57 610, tR 65 90 610, tE 95 610, tR 97 122 610]),
  (some 1, [tE 101 551, tR 48 57 610, tR 65 90 610, tE 95 610, tR 97 122 610]),
  (some 1, [tE 101 468, tR 48 57 610, tR 65 90 610, tE 95 610, tR 97 122 610]),
  (some 1, [tE 101 426, tR 48 57 610, tR 65 90 610, tE 95 610, tR 97 122 610]),
  (some 1, [tE 101 437, tR 48 57 610, tR 65 90 610, tE 95 610, tR 97 122 610]),
  (some 1, [tE 101 419, tR 48 57 610, tR 65 90 610, tE 95 610, tR 97 122 610]),
  (some 1, [tE 101 497, tR 48 57 610, tR 65 90 610, tE 95 610, tR 97 122 610]),
  (some 1, [tE 101 492, tR 48 57 610, tR 65 90 610, tE 95 610, tR 97 122 610]),
  (some 1, [tE 101 559, tR 48 57 610, tR 65 90 610, tE 95 610, tR 97 122 610]),
  (some 1, [tE 101 569, tE 111 574, tR 48 57 610, tR 65 90 610, tE 95 610, tR 97 122 610]),
  (some 1, [tE 101 569, tR 48 57 610, tR 65 90 610, tE 95 610, tR 97 122 610]),
  (some 1, [tE 101 489, tR 48 57 610, tR 65 90 610, tE 95 610, tR 97 122 610]),
  (some 1, [tE 101 590, tE 116 486, tR 48 57 610, tR 65 90 610, tE 95 610, tR 97 122 610]),
  (some 1, [tE 101 590, tE 116 487, tR 48 57 610, tR 65 90 610, tE 95 610, tR 97 122 610]),
  (some 1, [tE 101 590, tE 116 515, tR 48 57 610, tR 65 90 610, tE 95 610, tR 97 122 610]),
  (some 1, [tE 101 590, tE 116 516, tR 48 57 610, tR 65 90 610, tE 95 610, tR 97 122 610]),
  (some 1, [tE 101 573, tR 48 57 610, tR 65 90 610, tE 95 610, tR 97 122 610]),
  (some 1, [tE 101 480, tR 48 57 610, tR 65 90 610, tE 95 610, tR 97 122 610]),
  (some 1, [tE 101 578, tR 48 57 610, tR 65 90 610, tE 95 610, tR 97 122 610]),
  (some 1, [tE 101 553, tE 105 588, tR 48 57 610, tR 65 90 610, tE 95 610, tR 97 122 610]),
  (some 1, [tE 102 414, tE 115 464, tR 48 57 610, tR 65 90 610, tE 95 610, tR 97 122 610]),
  (some 1, [tE 102 415, tE 110 570, tE 115 464, tR 48 57 610, tR 65 90 610, tE 95 610, tR 97 122 610]),
  (some 1, [tE 102 415, tE 110 570, tR 48 57 610, tR 65 90 610, tE 95 610, tR 97 122 610]),
  (some 1, [tE 103 470, tR 48 57 610, tR 65 90 610, tE 95 610, tR 97 122 610]),
  (some 1, [tE 103 483, tR 48 57 610, tR 65 90 610, tE 95 610, tR 97 122 610]),
  (some 1, [tE 103 598, tR 48 57 610, tR 65 90 610, tE 95 610, tR 97 122 610]),
  (some 1, [tE 103 587, tR 48 57 610, tR 65 90 610, tE 95 610, tR 97 122 610]),
  (some 1, [tE 104 522, tR 48 57 610, tR 65 90 610, tE 95 610, tR 97 122 610]),
  (some 1, [tE 104 472, tR 48 57 610, tR 65 90 610, tE 95 610, tR 97 122 610]),
  (some 1, [tE 104 514, tR 48 57 610, tR 65 90 610, tE 95 610, tR 97 122 610]),
  (some 1, [tE 104 539, tR 48 57 610, tR 65 90 610, tE 95 610, tR 97 122 610]),
  (some 1, [tE 105 547, tR 48 57 610, tR 65 90 610, tE 95 610, tR 97 122 610]),
  (some 1, [tE 105 591, tR 48 57 610, tR 65 90 610, tE 95 610, tR 97 122 610]),
  (some 1, [tE 105 550, tR 48 57 610, tR 65 90 610, tE 95 610, tR 97 122 610]),
  (some 1, [tE 105 586, tR 48 57 610, tR 65 90 610, tE 95 610, tR 97 122 610]),
  (some 1, [tE 105 560, tR 48 57 610, tR 65 90 610, tE 95 610, tR 97 122 610]),
  (some 1, [tE 105 563, tR 48 57 610, tR 65 90 610, tE 95 610, tR 97 122 610]),
  (some 1, [tE 108 395, tR 48 57 610, tR 65 90 610, tE 95 610, tR 97 122 610]),
  (some 1, [tE 108 490, tR 48 57 610, tR 65 90 610, tE 95 610, tR 97 122 610]),
  (some 1, [tE 108 566, tE 111 575, tR 48 57 610, tR 65 90 610, tE 95 610, tR 97 122 610]),
  (some 1, [tE 108 568, tR 48 57 610, tR 65 90 610, tE 95 610, tR 97 122 610]),
  (some 1, [tE 108 501, tR 48 57 610, tR 65 90 610, tE 95 610, tR 97 122 610]),
  (some 1, [tE 108 484, tR 48 57 610, tR 65 90 610, tE 95 610, tR 97 122 610]),
  (some 1, [tE 108 543, tR 48 57 610, tR 65 90 610, tE 95 610, tR 97 122 610]),
  (some 1, [tE 108 509, tR 48 57 610, tR 65 90 610, tE 95 610, tR 97 122 610]),
  (some 1, [tE 109 572, tR 48 57 610, tR 65 90 610, tE 95 610, tR 97 122 610]),
  (some 1, [tE 109 564, tE 112 517, tE 116 603, tR 48 57 610, tR 65 90 610, tE 95 610, tR 97 122 610]),
  (some 1, [tE 109 564, tE 112 517, tE 116 604, tR 48 57 610, tR 65 90 610, tE 95 610, tR 97 122 610]),
  (some 1, [tE 110 495, tE 120 367, tR 48 57 368, tR 65 90 368, tE 95 368, tR 97 122 368, tQ [0] 366]),
  (some 1, [tE 110 531, tR 48 57 610, tR 65 90 610, tE 95 610, tR 97 122 610]),
  (some 1, [tE 110 405, tR 48 57 610, tR 65 90 610, tE 95 610, tR 97 122 610]),
  (some 1, [tE 110 407, tR 48 57 610, tR 65 90 610, tE 95 610, tR 97 122 610]),
  (some 1, [tE 110 532, tR 48 57 610, tR 65 90 610, tE 95 610, tR 97 122 610]),
  (some 1, [tE 110 469, tR 48 57 610, tR 65 90 610, tE 95 610, tR 97 122 610])
]

def lexTblP7 : List (Option Nat × List LC) := [
  (some 1, [tE 110 529, tR 48 57 610, tR 65 90 610, tE 95 610, tR 97 122 610]),
  (some 1, [tE 110 502, tE 120 538, tR 48 57 610, tR 65 90 610, tE 95 610, tR 97 122 610]),
  (some 1, [tE 110 502, tR 48 57 610, tR 65 90 610, tE 95 610, tR 97 122 610]),
  (some 1, [tE 110 530, tR 48 57 610, tR 65 90 610, tE 95 610, tR 97 122 610]),
  (some 1, [tE 111 606, tR 48 57 610, tR 65 90 610, tE 95 610, tR 97 122 610]),
  (some 1, [tE 111 597, tR 48 57 610, tR 65 90 610, tE 95 610, tR 97 122 610]),
  (some 1, [tE 111 567, tR 48 57 610, tR 65 90 610, tE 95 610, tR 97 122 610]),
  (some 1, [tE 111 576, tR 48 57 610, tR 65 90 610, tE 95 610, tR 97 122 610]),
  (some 1, [tE 111 558, tR 48 57 610, tR 65 90 610, tE 95 610, tR 97 122 610]),
  (some 1, [tE 112 476, tR 48 57 610, tR 65 90 610, tE 95 610, tR 97 122 610]),
  (some 1, [tE 112 605, tR 48 57 610, tR 65 90 610, tE 95 610, tR 97 122 610]),
  (some 1, [tE 112 548, tR 48 57 610, tR 65 90 610, tE 95 610, tR 97 122 610]),
  (some 1, [tE 112 600, tR 48 57 610, tR 65 90 610, tE 95 610, tR 97 122 610]),
  (some 1, [tE 114 607, tR 48 57 610, tR 65 90 610, tE 95 610, tR 97 122 610]),
  (some 1, [tE 114 541, tR 48 57 610, tR 65 90 610, tE 95 610, tR 97 122 610]),
  (some 1, [tE 114 466, tR 48 57 610, tR 65 90 610, tE 95 610, tR 97 122 610]),
  (some 1, [tE 114 477, tR 48 57 610, tR 65 90 610, tE 95 610, tR 97 122 610]),
  (some 1, [tE 114 556, tR 48 57 610, tR 65 90 610, tE 95 610, tR 97 122 610]),
  (some 1, [tE 114 478, tR 48 57 610, tR 65 90 610, tE 95 610, tR 97 122 610]),
  (some 1, [tE 114 557, tR 48 57 610, tR 65 90 610, tE 95 610, tR 97 122 610]),
  (some 1, [tE 114 596, tR 48 57 610, tR 65 90 610, tE 95 610, tR 97 122 610]),
  (some 1, [tE 114 523, tR 48 57 610, tR 65 90 610, tE 95 610, tR 97 122 610]),
  (some 1, [tE 115 464, tR 48 57 610, tR 65 90 610, tE 95 610, tR 97 122 610]),
  (some 1, [tE 115 571, tR 48 57 610, tR 65 90 610, tE 95 610, tR 97 122 610]),
  (some 1, [tE 115 474, tR 48 57 610, tR 65 90 610, tE 95 610, tR 97 122 610]),
  (some 1, [tE 115 481, tR 48 57 610, tR 65 90 610, tE 95 610, tR 97 122 610]),
  (some 1, [tE 115 511, tR 48 57 610, tR 65 90 610, tE 95 610, tR 97 122 610]),
  (some 1, [tE 115 473, tR 48 57 610, tR 65 90 610, tE 95 610, tR 97 122 610]),
  (some 1, [tE 115 524, tR 48 57 610, tR 65 90 610, tE 95 610, tR 97 122 610]),
  (some 1, [tE 115 467, tR 48 57 610, tR 65 90 610, tE 95 610, tR 97 122 610]),
  (some 1, [tE 116 392, tR 48 57 610, tR 65 90 610, tE 95 610, tR 97 122 610]),
  (some 1, [tE 116 410, tR 48 57 610, tR 65 90 610, tE 95 610, tR 97 122 610]),
  (some 1, [tE 116 421, tR 48 57 610, tR 65 90 610, tE 95 610, tR 97 122 610]),
  (some 1, [tE 116 402, tR 48 57 610, tR 65 90 610, tE 95 610, tR 97 122 610]),
  (some 1, [tE 116 507, tR 48 57 610, tR 65 90 610, tE 95 610, tR 97 122 610]),
  (some 1, [tE 116 533, tR 48 57 610, tR 65 90 610, tE 95 610, tR 97 122 610]),
  (some 1, [tE 116 584, tR 48 57 610, tR 65 90 610, tE 95 610, tR 97 122 610]),
  (some 1, [tE 116 508, tR 48 57 610, tR 65 90 610, tE 95 610, tR 97 122 610]),
  (some 1, [tE 116 534, tR 48 57 610, tR 65 90 610, tE 95 610, tR 97 122 610]),
  (some 1, [tE 116 585, tR 48 57 610, tR 65 90 610, tE 95 610, tR 97 122 610]),
  (some 1, [tE 116 479, tR 48 57 610, tR 65 90 610, tE 95 610, tR 97 122 610]),
  (some 1, [tE 116 488, tR 48 57 610, tR 65 90 610, tE 95 610, tR 97 122 610]),
  (some 1, [tE 117 537, tR 48 57 610, tR 65 90 610, tE 95 610, tR 97 122 610]),
  (some 1, [tE 117 577, tR 48 57 610, tR 65 90 610, tE 95 610, tR 97 122 610]),
  (some 1, [tE 117 579, tR 48 57 610, tR 65 90 610, tE 95 610, tR 97 122 610]),
  (some 1, [tE 117 593, tR 48 57 610, tR 65 90 610, tE 95 610, tR 97 122 610]),
  (some 1, [tE 118 510, tR 48 57 610, tR 65 90 610, tE 95 610, tR 97 122 610]),
  (some 1, [tE 119 540, tR 48 57 610, tR 65 90 610, tE 95 610, tR 97 122 610]),
  (some 1, [tE 120 538, tR 48 57 610, tR 65 90 610, tE 95 610, tR 97 122 610]),
  (some 1, [tE 121 399, tR 48 57 610, tR 65 90 610, tE 95 610, tR 97 122 610]),
  (some 1, [tR 48 57 610, tR 65 90 610, tE 95 610, tR 97 122 610]),
  (some 86, [])
]

def lexTbl : List (Option Nat × List LC) := lexTblP0 ++ lexTblP1 ++ lexTblP2 ++ lexTblP3 ++ lexTblP4 ++ lexTblP5 ++ lexTblP6 ++ lexTblP7

def kwTblP0 : List (Option Nat × List LC) := [
  (none, [tE 97 1, tE 98 2, tE 99 3, tE 101 4, tE 102 5, tE 105 6, tE 108 7, tE 110 8, tE 111 9, tE 116 10, tE 119 11, tK 9 0, tK 32 0]),
  (none, [tE 110 12, tE 115 13]),
  (none, [tE 111 14]),
  (none, [tE 111 15]),
  (none, [tE 113 16]),
  (none, [tE 97 17, tE 105 18, tE 114 19]),
  (none, [tE 110 20]),
  (none, [tE 105 21]),
  (none, [tE 111 22, tE 117 23]),
  (none, [tE 114 24]),
  (none, [tE 97 25, tE 101 26, tE 105 27, tE 111 28, tE 114 29]),
  (none, [tE 105 30]),
  (none, [tE 100 31]),
  (some 24, []),
  (none, [tE 111 32]),
  (none, [tE 110 33]),
  (none, [tE 117 34]),
  (none, [tE 108 35]),
  (none, [tE 120 36]),
  (none, [tE 111 37]),
  (some 47, []),
  (none, [tE 115 38]),
  (none, [tE 116 39]),
  (none, [tE 109 40]),
  (some 76, []),
  (none, [tE 98 41]),
  (none, [tE 120 42]),
  (none, [tE 109 43]),
  (some 33, []),
  (none, [tE 117 44]),
  (none, [tE 116 45]),
  (some 75, []),
  (none, [tE 108 46]),
  (none, [tE 116 47]),
  (none, [tE 97 48]),
  (none, [tE 115 49]),
  (none, [tE 101 50]),
  (none, [tE 109 51]),
  (none, [tE 116 52]),
  (some 82, [tE 104 53]),
  (none, [tE 98 54]),
  (none, [tE 108 55]),
  (none, [tE 116 56]),
  (none, [tE 101 57]),
  (none, [tE 101 58]),
  (none, [tE 104 59]),
  (none, [tE 101 60]),
  (none, [tE 97 61]),
  (none, [tE 108 62]),
  (none, [tE 101 63]),
  (none, [tE 100 64]),
  (some 54, []),
  (some 28, []),
  (none, [tE 105 65]),
  (none, [tE 101 66]),
  (none, [tE 101 67]),
  (some 26, []),
  (none, [tE 115 68]),
  (some 59, []),
  (some 35, []),
  (none, [tE 97 69]),
  (none, [tE 105 70]),
  (none, [tE 115 71]),
  (some 60, []),
  (some 30, []),
  (none, [tE 110 72]),
  (none, [tE 114 73]),
  (some 29, []),
  (some 45, []),
  (none, [tE 110 74]),
  (none, [tE 110 75]),
  (some 69, []),
  (none, [tE 103 76]),
  (some 25, []),
  (some 27, []),
  (none, [tE 115 77]),
  (some 61, []),
  (some 78, [])
]

def kwTbl : List (Option Nat × List LC) := kwTblP0

def modes : List Nat := [0, 262, 258, 258, 258, 258, 259, 258, 258, 258, 258, 258, 259, 258, 259, 258, 258, 258, 258, 258, 258, 259, 259, 259, 260, 262, 262, 259, 261, 261, 261, 261, 257, 261, 261, 261, 263, 263, 263, 263, 263, 262, 263, 263, 262, 264, 263, 263, 263, 262, 266, 262, 263, 263, 263, 265, 262, 262, 360, 262, 262, 262, 262, 262, 262, 262, 262, 262, 262, 262, 19, 262, 262, 262, 262, 262, 262, 262, 262, 262, 262, 262, 262, 262, 262, 262, 262, 19, 19, 19, 19, 21, 19, 19, 19, 19, 19, 19, 19, 19, 21, 19, 19, 19, 21, 19, 21, 19, 19, 19, 21, 19, 19, 69, 19, 19, 69, 69, 252, 252, 252, 252, 20, 20, 20, 252, 252, 252, 252, 0, 252, 252, 252, 0, 252, 252, 252, 0, 252, 252, 252, 252, 252, 252, 262, 252, 252, 252, 252, 252, 252]

def rowsP0 : List (List (Cell × List Nat)) := [
  [(Cell.A 1, [0, 1, 2, 3, 4, 6, 7, 9, 10, 11, 12, 13, 14, 15, 16, 17, 18, 19, 20, 21, 22, 23, 24, 25, 26, 27, 28, 29, 30, 31, 32, 33, 34, 35, 36, 37, 39, 40, 41, 42, 43, 44, 45, 46, 47, 48, 49, 50, 51, 52, 53, 54, 56, 58, 59, 60, 61, 62, 63, 64, 65, 66, 67, 68, 69, 70, 71, 72, 73, 74, 75, 76, 77, 78, 79, 80, 81, 82, 83, 84, 85, 86])],
  [(Cell.A 3, [0]), (Cell.A 5, [2]), (Cell.A 7, [3]), (Cell.A 9, [4]), (Cell.A 11, [6]), (Cell.A 13, [16]), (Cell.A 15, [17]), (Cell.A 17, [18]), (Cell.A 19, [19]), (Cell.A 21, [32]), (Cell.A 23, [34]), (Cell.A 25, [37]), (Cell.A 27, [38]), (Cell.A 29, [39]), (Cell.A 31, [40, 86]), (Cell.A 33, [41]), (Cell.A 35, [44]), (Cell.A 37, [46]), (Cell.A 39, [48]), (Cell.A 41, [49]), (Cell.A 43, [52]), (Cell.A 45, [53]), (Cell.S 26, [88, 89, 90, 91, 93, 105, 106, 107, 111, 112, 113, 114, 117, 118, 119, 120, 123, 124, 137]), (Cell.S 67, [94, 95, 96, 97]), (Cell.S 129, [87])],
  [(Cell.A 51, [62]), (Cell.S 8, [141]), (Cell.S 96, [131]), (Cell.A 49, [43, 52]), (Cell.A 55, [71, 72]), (Cell.A 53, [64, 65, 66, 67, 68, 69, 70, 73, 74, 75, 76, 77, 78, 79, 80, 81]), (Cell.A 47, [0, 2, 3, 4, 6, 16, 17, 18, 19, 23, 32, 33, 34, 36, 37, 38, 39, 40, 41, 42, 44, 45, 46, 48, 49, 53, 54, 63, 85, 86])],
  [(Cell.A 59, [35]), (Cell.S 20, [108]), (Cell.A 61, [43, 52, 71, 72]), (Cell.A 57, [0, 2, 3, 4, 6, 16, 17, 18, 19, 23, 32, 33, 34, 36, 37, 38, 39, 40, 41, 42, 44, 45, 46, 48, 49, 53, 54, 62, 63, 64, 65, 66, 67, 68, 69, 70, 73, 74, 75, 76, 77, 78, 79, 80, 81, 85, 86])],
  [(Cell.A 51, [62]), (Cell.S 96, [131]), (Cell.A 65, [43, 52, 71, 72]), (Cell.A 63, [0, 2, 3, 4, 6, 16, 17, 18, 19, 23, 32, 33, 34, 36, 37, 38, 39, 40, 41, 42, 44, 45, 46, 48, 49, 53, 54, 63, 64, 65, 66, 67, 68, 69, 70, 73, 74, 75, 76, 77, 78, 79, 80, 81, 85, 86])],
  [(Cell.A 51, [62]), (Cell.S 96, [131]), (Cell.A 69, [43, 52, 71, 72]), (Cell.A 67, [0, 2, 3, 4, 6, 16, 17, 18, 19, 23, 32, 33, 34, 36, 37, 38, 39, 40, 41, 42, 44, 45, 46, 48, 49, 53, 54, 63, 64, 65, 66, 67, 68, 69, 70, 73, 74, 75, 76, 77, 78, 79, 80, 81, 85, 86])],
  [(Cell.A 51, [62]), (Cell.A 71, [23]), (Cell.S 14, [141]), (Cell.S 96, [131]), (Cell.A 49, [43, 52]), (Cell.A 55, [71, 72]), (Cell.A 53, [64, 65, 66, 67, 68, 69, 70, 73, 74, 75, 76, 77, 78, 79, 80, 81]), (Cell.A 47, [0, 2, 3, 4, 6, 16, 17, 18, 19, 32, 33, 34, 37, 38, 39, 40, 41, 42, 44, 45, 46, 48, 49, 53, 54, 63, 85, 86])],
  [(Cell.A 75, [23]), (Cell.S 7, [141]), (Cell.A 78, [43, 52, 71, 72]), (Cell.A 73, [0, 2, 3, 4, 6, 16, 17, 18, 19, 32, 33, 34, 36, 37, 38, 39, 40, 41, 42, 44, 45, 46, 48, 49, 53, 54, 62, 63, 64, 65, 66, 67, 68, 69, 70, 73, 74, 75, 76, 77, 78, 79, 80, 81, 85, 86])],
  [(Cell.S 7, [141]), (Cell.A 82, [43, 52, 71, 72]), (Cell.A 80, [0, 2, 3, 4, 6, 16, 17, 18, 19, 23, 32, 33, 34, 36, 37, 38, 39, 40, 41, 42, 44, 45, 46, 48, 49, 53, 54, 62, 63, 64, 65, 66, 67, 68, 69, 70, 73, 74, 75, 76, 77, 78, 79, 80, 81, 85, 86])],
  [(Cell.A 51, [62]), (Cell.S 96, [131]), (Cell.A 55, [71, 72]), (Cell.A 78, [43, 52]), (Cell.A 53, [64, 65, 66, 67, 68, 69, 70, 73, 74, 75, 76, 77, 78, 79, 80, 81]), (Cell.A 73, [0, 2, 3, 4, 6, 16, 17, 18, 19, 23, 32, 33, 34, 36, 37, 38, 39, 40, 41, 42, 44, 45, 46, 48, 49, 53, 54, 63, 85, 86])],
  [(Cell.A 86, [43, 52, 71, 72]), (Cell.A 84, [0, 2, 3, 4, 6, 16, 17, 18, 19, 23, 32, 33, 34, 36, 37, 38, 39, 40, 41, 42, 44, 45, 46, 48, 49, 53, 54, 62, 63, 64, 65, 66, 67, 68, 69, 70, 73, 74, 75, 76, 77, 78, 79, 80, 81, 85, 86])],
  [(Cell.A 90, [43, 52, 71, 72]), (Cell.A 88, [0, 2, 3, 4, 6, 16, 17, 18, 19, 23, 32, 33, 34, 36, 37, 38, 39, 40, 41, 42, 44, 45, 46, 48, 49, 53, 54, 62, 63, 64, 65, 66, 67, 68, 69, 70, 73, 74, 75, 76, 77, 78, 79, 80, 81, 85, 86])],
  [(Cell.A 92, [35]), (Cell.S 20, [108]), (Cell.A 61, [43, 52, 71, 72]), (Cell.A 57, [0, 2, 3, 4, 6, 16, 17, 18, 19, 32, 33, 34, 37, 38, 39, 40, 41, 42, 44, 45, 46, 48, 49, 53, 54, 62, 63, 64, 65, 66, 67, 68, 69, 70, 73, 74, 75, 76, 77, 78, 79, 80, 81, 85, 86])],
  [(Cell.A 96, [43, 52, 71, 72]), (Cell.A 94, [0, 2, 3, 4, 6, 16, 17, 18, 19, 23, 32, 33, 34, 36, 37, 38, 39, 40, 41, 42, 44, 45, 46, 48, 49, 53, 54, 62, 63, 64, 65, 66, 67, 68, 69, 70, 73, 74, 75, 76, 77, 78, 79, 80, 81, 85, 86])],
  [(Cell.A 71, [23]), (Cell.S 7, [141]), (Cell.A 82, [43, 52, 71, 72]), (Cell.A 80, [0, 2, 3, 4, 6, 16, 17, 18, 19, 32, 33, 34, 37, 38, 39, 40, 41, 42, 44, 45, 46, 48, 49, 53, 54, 62, 63, 64, 65, 66, 67, 68, 69, 70, 73, 74, 75, 76, 77, 78, 79, 80, 81, 85, 86])],
  [(Cell.A 100, [43, 52, 71, 72]), (Cell.A 98, [0, 2, 3, 4, 6, 16, 17, 18, 19, 23, 32, 33, 34, 36, 37, 38, 39, 40, 41, 42, 44, 45, 46, 48, 49, 53, 54, 62, 63, 64, 65, 66, 67, 68, 69, 70, 73, 74, 75, 76, 77, 78, 79, 80, 81, 85, 86])],
  [(Cell.A 104, [43, 52, 71, 72]), (Cell.A 102, [0, 2, 3, 4, 6, 16, 17, 18, 19, 23, 32, 33, 34, 36, 37, 38, 39, 40, 41, 42, 44, 45, 46, 48, 49, 53, 54, 62, 63, 64, 65, 66, 67, 68, 69, 70, 73, 74, 75, 76, 77, 78, 79, 80, 81, 85, 86])],
  [(Cell.A 108, [43, 52, 71, 72]), (Cell.A 106, [0, 2, 3, 4, 6, 16, 17, 18, 19, 23, 32, 33, 34, 36, 37, 38, 39, 40, 41, 42, 44, 45, 46, 48, 49, 53, 54, 62, 63, 64, 65, 66, 67, 68, 69, 70, 73, 74, 75, 76, 77, 78, 79, 80, 81, 85, 86])],
  [(Cell.A 112, [43, 52, 71, 72]), (Cell.A 110, [0, 2, 3, 4, 6, 16, 17, 18, 19, 23, 32, 33, 34, 36, 37, 38, 39, 40, 41, 42, 44, 45, 46, 48, 49, 53, 54, 62, 63, 64, 65, 66, 67, 68, 69, 70, 73, 74, 75, 76, 77, 78, 79, 80, 81, 85, 86])],
  [(Cell.A 116, [43, 52, 71, 72]), (Cell.A 114, [0, 2, 3, 4, 6, 16, 17, 18, 19, 23, 32, 33, 34, 36, 37, 38, 39, 40, 41, 42, 44, 45, 46, 48, 49, 53, 54, 62, 63, 64, 65, 66, 67, 68, 69, 70, 73, 74, 75, 76, 77, 78, 79, 80, 81, 85, 86])],
  [(Cell.A 120, [43, 52, 71, 72]), (Cell.A 118, [0, 2, 3, 4, 6, 16, 17, 18, 19, 23, 32, 33, 34, 36, 37, 38, 39, 40, 41, 42, 44, 45, 46, 48, 49, 53, 54, 62, 63, 64, 65, 66, 67, 68, 69, 70, 73, 74, 75, 76, 77, 78, 79, 80, 81, 85, 86])],
  [(Cell.A 51, [62]), (Cell.S 92, [131]), (Cell.A 65, [43, 52, 71, 72]), (Cell.A 63, [0, 2, 3, 4, 6, 16, 17, 18, 19, 32, 33, 34, 37, 38, 39, 40, 41, 42, 44, 45, 46, 48, 49, 53, 54, 63, 64, 65, 66, 67, 68, 69, 70, 73, 74, 75, 76, 77, 78, 79, 80, 81, 85, 86])],
  [(Cell.A 51, [62]), (Cell.S 92, [131]), (Cell.A 69, [43, 52, 71, 72]), (Cell.A 67, [0, 2, 3, 4, 6, 16, 17, 18, 19, 32, 33, 34, 37, 38, 39, 40, 41, 42, 44, 45, 46, 48, 49, 53, 54, 63, 64, 65, 66, 67, 68, 69, 70, 73, 74, 75, 76, 77, 78, 79, 80, 81, 85, 86])],
  [(Cell.A 51, [62]), (Cell.A 124, [42]), (Cell.A 126, [43]), (Cell.A 128, [52]), (Cell.S 75, [116]), (Cell.S 92, [131]), (Cell.A 55, [71, 72]), (Cell.S 41, [115, 142]), (Cell.A 53, [64, 65, 66, 67, 68, 69, 70, 73, 74, 75, 76, 77, 78, 79, 80, 81]), (Cell.A 122, [0, 2, 3, 4, 6, 16, 17, 18, 19, 32, 34, 37, 38, 39, 40, 41, 44, 46, 48, 49, 53, 86])],
  [(Cell.A 49, [52]), (Cell.A 51, [62]), (Cell.A 71, [23]), (Cell.S 44, [141]), (Cell.S 96, [131]), (Cell.A 55, [71, 72]), (Cell.A 53, [64, 65, 66, 67, 68, 69, 70, 73, 74, 75, 76, 77, 78, 79, 80, 81]), (Cell.A 47, [0, 2, 3, 4, 6, 16, 17, 18, 19, 32, 34, 36, 37, 38, 39, 40, 41, 44, 46, 48, 49, 53, 63, 86])],
  [(Cell.A 130, [0]), (Cell.A 132, [2]), (Cell.A 135, [3]), (Cell.A 138, [4]), (Cell.A 141, [6]), (Cell.A 144, [16]), (Cell.A 147, [17]), (Cell.A 150, [18]), (Cell.A 153, [19]), (Cell.A 156, [32]), (Cell.A 159, [34]), (Cell.A 162, [37]), (Cell.A 165, [38]), (Cell.A 168, [39]), (Cell.A 174, [41]), (Cell.A 177, [44]), (Cell.A 180, [46]), (Cell.A 183, [48]), (Cell.A 186, [49]), (Cell.A 189, [52]), (Cell.A 192, [53]), (Cell.A 171, [40, 86]), (Cell.S 67, [94, 95, 96, 97]), (Cell.S 25, [88, 89, 90, 91, 93, 105, 106, 107, 111, 112, 113, 114, 117, 118, 119, 120, 123, 124, 137])],
  [(Cell.A 5, [2]), (Cell.A 7, [3]), (Cell.A 9, [4]), (Cell.A 11, [6]), (Cell.A 13, [16]), (Cell.A 15, [17]), (Cell.A 17, [18]), (Cell.A 19, [19]), (Cell.A 21, [32]), (Cell.A 23, [34]), (Cell.A 25, [37]), (Cell.A 27, [38]), (Cell.A 29, [39]), (Cell.A 33, [41]), (Cell.A 35, [44]), (Cell.A 37, [46]), (Cell.A 39, [48]), (Cell.A 41, [49]), (Cell.A 43, [52]), (Cell.A 45, [53]), (Cell.A 195, [0]), (Cell.A 197, [40, 86]), (Cell.S 67, [94, 95, 96, 97]), (Cell.S 25, [88, 89, 90, 91, 93, 105, 106, 107, 111, 112, 113, 114, 117, 118, 119, 120, 123, 124, 137])],
  [(Cell.A 51, [62]), (Cell.S 92, [131]), (Cell.A 55, [71, 72]), (Cell.A 201, [43, 52]), (Cell.A 53, [64, 65, 66, 67, 68, 69, 70, 73, 74, 75, 76, 77, 78, 79, 80, 81]), (Cell.A 199, [0, 2, 3, 4, 6, 16, 17, 18, 19, 32, 34, 37, 38, 39, 40, 41, 42, 44, 46, 48, 49, 53, 86])],
  [(Cell.A 51, [62]), (Cell.A 205, [52]), (Cell.S 92, [131]), (Cell.A 55, [71, 72]), (Cell.A 53, [64, 65, 66, 67, 68, 69, 70, 73, 74, 75, 76, 77, 78, 79, 80, 81]), (Cell.A 203, [0, 2, 3, 4, 6, 16, 17, 18, 19, 32, 34, 37, 38, 39, 40, 41, 44, 46, 48, 49, 53, 86])],
  [(Cell.A 51, [62]), (Cell.A 209, [52]), (Cell.S 92, [131]), (Cell.A 55, [71, 72]), (Cell.A 53, [64, 65, 66, 67, 68, 69, 70, 73, 74, 75, 76, 77, 78, 79, 80, 81]), (Cell.A 207, [0, 2, 3, 4, 6, 16, 17, 18, 19, 32, 34, 37, 38, 39, 40, 41, 44, 46, 48, 49, 53, 86])]
]

def rowsP1 : List (List (Cell × List Nat)) := [
  [(Cell.A 51, [62]), (Cell.A 213, [52]), (Cell.S 92, [131]), (Cell.A 55, [71, 72]), (Cell.A 53, [64, 65, 66, 67, 68, 69, 70, 73, 74, 75, 76, 77, 78, 79, 80, 81]), (Cell.A 211, [0, 2, 3, 4, 6, 16, 17, 18, 19, 32, 34, 37, 38, 39, 40, 41, 44, 46, 48, 49, 53, 86])],
  [(Cell.A 51, [62]), (Cell.A 217, [52]), (Cell.S 92, [131]), (Cell.A 55, [71, 72]), (Cell.A 53, [64, 65, 66, 67, 68, 69, 70, 73, 74, 75, 76, 77, 78, 79, 80, 81]), (Cell.A 215, [0, 2, 3, 4, 6, 16, 17, 18, 19, 32, 34, 37, 38, 39, 40, 41, 44, 46, 48, 49, 53, 86])],
  [(Cell.A 225, [34]), (Cell.A 227, [55]), (Cell.A 229, [56]), (Cell.A 233, [62]), (Cell.A 235, [82]), (Cell.A 237, [83]), (Cell.A 239, [84]), (Cell.S 102, [133]), (Cell.A 221, [61, 1]), (Cell.A 231, [59, 60]), (Cell.S 30, [125, 126, 128, 129, 130, 132, 134, 135, 136]), (Cell.A 223, [32, 37, 38, 39, 40, 41, 44, 48, 52, 53]), (Cell.A 219, [0, 2, 3, 4, 6, 16, 17, 18, 19, 46, 49, 86])],
  [(Cell.A 51, [62]), (Cell.A 243, [52]), (Cell.S 92, [131]), (Cell.A 55, [71, 72]), (Cell.A 53, [64, 65, 66, 67, 68, 69, 70, 73, 74, 75, 76, 77, 78, 79, 80, 81]), (Cell.A 241, [0, 2, 3, 4, 6, 16, 17, 18, 19, 32, 34, 37, 38, 39, 40, 41, 44, 46, 48, 49, 53, 86])],
  [(Cell.A 51, [62]), (Cell.A 247, [52]), (Cell.S 92, [131]), (Cell.A 55, [71, 72]), (Cell.A 53, [64, 65, 66, 67, 68, 69, 70, 73, 74, 75, 76, 77, 78, 79, 80, 81]), (Cell.A 245, [0, 2, 3, 4, 6, 16, 17, 18, 19, 32, 34, 37, 38, 39, 40, 41, 44, 46, 48, 49, 53, 86])],
  [(Cell.A 51, [62]), (Cell.A 251, [52]), (Cell.S 92, [131]), (Cell.A 55, [71, 72]), (Cell.A 53, [64, 65, 66, 67, 68, 69, 70, 73, 74, 75, 76, 77, 78, 79, 80, 81]), (Cell.A 249, [0, 2, 3, 4, 6, 16, 17, 18, 19, 32, 34, 37, 38, 39, 40, 41, 44, 46, 48, 49, 53, 86])],
  [(Cell.A 255, [20]), (Cell.A 257, [21]), (Cell.A 259, [22]), (Cell.A 261, [39]), (Cell.S 68, [98]), (Cell.S 39, [99, 100, 101, 139]), (Cell.A 253, [0, 2, 3, 4, 6, 16, 17, 18, 19, 32, 34, 37, 38, 40, 41, 44, 46, 48, 49, 52, 53, 86])],
  [(Cell.A 255, [20]), (Cell.A 257, [21]), (Cell.A 259, [22]), (Cell.A 265, [39]), (Cell.S 69, [98]), (Cell.S 39, [99, 100, 101, 139]), (Cell.A 263, [0, 2, 3, 4, 6, 16, 17, 18, 19, 32, 34, 37, 38, 40, 41, 44, 46, 48, 49, 52, 53, 86])],
  [(Cell.A 269, [20]), (Cell.A 272, [21]), (Cell.A 275, [22]), (Cell.A 278, [39]), (Cell.S 38, [99, 100, 101, 139]), (Cell.A 267, [0, 2, 3, 4, 6, 16, 17, 18, 19, 32, 34, 37, 38, 40, 41, 44, 46, 48, 49, 52, 53, 86])],
  [(Cell.A 255, [20]), (Cell.A 257, [21]), (Cell.A 259, [22]), (Cell.A 282, [39]), (Cell.S 38, [99, 100, 101, 139]), (Cell.A 280, [0, 2, 3, 4, 6, 16, 17, 18, 19, 32, 34, 37, 38, 40, 41, 44, 46, 48, 49, 52, 53, 86])],
  [(Cell.A 286, [23]), (Cell.A 288, [39]), (Cell.S 43, [140]), (Cell.A 284, [0, 2, 3, 4, 6, 16, 17, 18, 19, 20, 21, 22, 32, 34, 37, 38, 40, 41, 44, 46, 48, 49, 52, 53, 86])],
  [(Cell.A 124, [42]), (Cell.A 126, [43]), (Cell.S 66, [116]), (Cell.S 51, [115, 142]), (Cell.A 290, [0, 2, 3, 4, 6, 16, 17, 18, 19, 32, 34, 37, 38, 39, 40, 41, 44, 46, 48, 49, 52, 53, 86])],
  [(Cell.A 294, [23]), (Cell.A 297, [39]), (Cell.S 42, [140]), (Cell.A 292, [0, 2, 3, 4, 6, 16, 17, 18, 19, 20, 21, 22, 32, 34, 37, 38, 40, 41, 44, 46, 48, 49, 52, 53, 86])],
  [(Cell.A 286, [23]), (Cell.A 301, [39]), (Cell.S 42, [140]), (Cell.A 299, [0, 2, 3, 4, 6, 16, 17, 18, 19, 20, 21, 22, 32, 34, 37, 38, 40, 41, 44, 46, 48, 49, 52, 53, 86])],
  [(Cell.A 71, [23]), (Cell.S 49, [141]), (Cell.A 80, [0, 2, 3, 4, 6, 16, 17, 18, 19, 32, 34, 36, 37, 38, 39, 40, 41, 44, 46, 48, 49, 52, 53, 63, 86])],
  [(Cell.A 305, [41]), (Cell.A 307, [50]), (Cell.A 309, [51]), (Cell.S 56, [121]), (Cell.S 80, [122]), (Cell.A 303, [0, 2, 3, 4, 6, 16, 17, 18, 19, 32, 34, 37, 38, 39, 40, 44, 46, 48, 49, 52, 53, 86])],
  [(Cell.A 313, [39]), (Cell.A 311, [0, 2, 3, 4, 6, 16, 17, 18, 19, 20, 21, 22, 23, 32, 34, 37, 38, 40, 41, 44, 46, 48, 49, 52, 53, 86])],
  [(Cell.A 297, [39]), (Cell.A 292, [0, 2, 3, 4, 6, 16, 17, 18, 19, 20, 21, 22, 23, 32, 34, 37, 38, 40, 41, 44, 46, 48, 49, 52, 53, 86])],
  [(Cell.A 317, [39]), (Cell.A 315, [0, 2, 3, 4, 6, 16, 17, 18, 19, 20, 21, 22, 23, 32, 34, 37, 38, 40, 41, 44, 46, 48, 49, 52, 53, 86])],
  [(Cell.A 75, [23]), (Cell.S 49, [141]), (Cell.A 73, [0, 2, 3, 4, 6, 16, 17, 18, 19, 32, 34, 36, 37, 38, 39, 40, 41, 44, 46, 48, 49, 52, 53, 63, 86])],
  [(Cell.A 321, [35]), (Cell.A 323, [36]), (Cell.S 57, [108]), (Cell.S 74, [109]), (Cell.A 319, [0, 2, 3, 4, 6, 16, 17, 18, 19, 32, 34, 37, 38, 39, 40, 41, 44, 46, 48, 49, 52, 53, 86])],
  [(Cell.A 327, [42]), (Cell.A 330, [43]), (Cell.S 51, [115, 142]), (Cell.A 325, [0, 2, 3, 4, 6, 16, 17, 18, 19, 32, 34, 37, 38, 39, 40, 41, 44, 46, 48, 49, 52, 53, 86])],
  [(Cell.A 334, [39]), (Cell.A 332, [0, 2, 3, 4, 6, 16, 17, 18, 19, 20, 21, 22, 32, 34, 37, 38, 40, 41, 44, 46, 48, 49, 52, 53, 86])],
  [(Cell.A 338, [39]), (Cell.A 336, [0, 2, 3, 4, 6, 16, 17, 18, 19, 20, 21, 22, 32, 34, 37, 38, 40, 41, 44, 46, 48, 49, 52, 53, 86])],
  [(Cell.A 342, [39]), (Cell.A 340, [0, 2, 3, 4, 6, 16, 17, 18, 19, 20, 21, 22, 32, 34, 37, 38, 40, 41, 44, 46, 48, 49, 52, 53, 86])],
  [(Cell.A 346, [1]), (Cell.A 348, [30]), (Cell.A 350, [32, 34, 37, 38, 39, 40, 41, 44, 48, 52, 53]), (Cell.A 344, [0, 2, 3, 4, 6, 16, 17, 18, 19, 46, 49, 86])],
  [(Cell.A 309, [51]), (Cell.S 82, [122]), (Cell.A 352, [0, 2, 3, 4, 6, 16, 17, 18, 19, 32, 34, 37, 38, 39, 40, 41, 44, 46, 48, 49, 52, 53, 86])],
  [(Cell.A 323, [36]), (Cell.S 65, [109]), (Cell.A 354, [0, 2, 3, 4, 6, 16, 17, 18, 19, 32, 34, 37, 38, 39, 40, 41, 44, 46, 48, 49, 52, 53, 86])],
  [(Cell.A 356, [0]), (Cell.A 360, [5]), (Cell.A 358, [2, 3, 4, 6, 16, 17, 18, 19, 32, 34, 37, 38, 39, 40, 41, 44, 46, 48, 49, 52, 53, 86])],
  [(Cell.A 364, [31]), (Cell.A 362, [0, 2, 3, 4, 6, 16, 17, 18, 19, 32, 34, 37, 38, 39, 40, 41, 44, 46, 48, 49, 52, 53, 86])]
]

def rowsP2 : List (List (Cell × List Nat)) := [
  [(Cell.A 311, [0, 2, 3, 4, 6, 16, 17, 18, 19, 31, 32, 34, 37, 38, 39, 40, 41, 44, 46, 48, 49, 52, 53, 86])],
  [(Cell.A 366, [0, 2, 3, 4, 6, 16, 17, 18, 19, 32, 34, 37, 38, 39, 40, 41, 44, 46, 48, 49, 51, 52, 53, 86])],
  [(Cell.A 106, [0, 2, 3, 4, 6, 16, 17, 18, 19, 32, 34, 36, 37, 38, 39, 40, 41, 44, 46, 48, 49, 52, 53, 86])],
  [(Cell.A 370, [31]), (Cell.A 368, [0, 2, 3, 4, 6, 16, 17, 18, 19, 32, 34, 37, 38, 39, 40, 41, 44, 46, 48, 49, 52, 53, 86])],
  [(Cell.A 372, [0, 2, 3, 4, 6, 16, 17, 18, 19, 32, 34, 37, 38, 39, 40, 41, 44, 46, 48, 49, 52, 53, 86])],
  [(Cell.A 374, [0, 2, 3, 4, 6, 16, 17, 18, 19, 32, 34, 37, 38, 39, 40, 41, 44, 46, 48, 49, 52, 53, 86])],
  [(Cell.A 376, [0, 2, 3, 4, 6, 16, 17, 18, 19, 32, 34, 37, 38, 39, 40, 41, 44, 46, 48, 49, 52, 53, 86])],
  [(Cell.A 378, [0, 2, 3, 4, 6, 16, 17, 18, 19, 32, 34, 37, 38, 39, 40, 41, 44, 46, 48, 49, 52, 53, 86])],
  [(Cell.A 380, [0, 2, 3, 4, 6, 16, 17, 18, 19, 32, 34, 37, 38, 39, 40, 41, 44, 46, 48, 49, 52, 53, 86])],
  [(Cell.A 382, [0, 2, 3, 4, 6, 16, 17, 18, 19, 32, 34, 37, 38, 39, 40, 41, 44, 46, 48, 49, 52, 53, 86])],
  [(Cell.A 229, [56]), (Cell.A 233, [62]), (Cell.A 235, [82]), (Cell.A 237, [83]), (Cell.A 239, [84]), (Cell.A 386, [34]), (Cell.A 388, [55]), (Cell.A 390, [63]), (Cell.S 97, [133]), (Cell.S 137, [110]), (Cell.A 231, [59, 60]), (Cell.A 384, [61, 1]), (Cell.S 24, [125, 126, 128, 129, 130, 132, 134, 135, 136])],
  [(Cell.A 392, [0, 2, 3, 4, 6, 16, 17, 18, 19, 32, 34, 37, 38, 39, 40, 41, 44, 46, 48, 49, 52, 53, 86])],
  [(Cell.A 394, [0, 2, 3, 4, 6, 16, 17, 18, 19, 32, 34, 37, 38, 39, 40, 41, 44, 46, 48, 49, 52, 53, 86])],
  [(Cell.A 396, [0, 2, 3, 4, 6, 16, 17, 18, 19, 32, 34, 37, 38, 39, 40, 41, 44, 46, 48, 49, 52, 53, 86])],
  [(Cell.A 354, [0, 2, 3, 4, 6, 16, 17, 18, 19, 32, 34, 37, 38, 39, 40, 41, 44, 46, 48, 49, 52, 53, 86])],
  [(Cell.A 290, [0, 2, 3, 4, 6, 16, 17, 18, 19, 32, 34, 37, 38, 39, 40, 41, 44, 46, 48, 49, 52, 53, 86])],
  [(Cell.A 398, [0, 2, 3, 4, 6, 16, 17, 18, 19, 32, 34, 37, 38, 39, 40, 41, 44, 46, 48, 49, 52, 53, 86])],
  [(Cell.A 344, [0, 2, 3, 4, 6, 16, 17, 18, 19, 32, 34, 37, 38, 39, 40, 41, 44, 46, 48, 49, 52, 53, 86])],
  [(Cell.A 400, [0, 2, 3, 4, 6, 16, 17, 18, 19, 32, 34, 37, 38, 39, 40, 41, 44, 46, 48, 49, 52, 53, 86])],
  [(Cell.A 402, [0, 2, 3, 4, 6, 16, 17, 18, 19, 32, 34, 37, 38, 39, 40, 41, 44, 46, 48, 49, 52, 53, 86])],
  [(Cell.A 352, [0, 2, 3, 4, 6, 16, 17, 18, 19, 32, 34, 37, 38, 39, 40, 41, 44, 46, 48, 49, 52, 53, 86])],
  [(Cell.A 404, [0, 2, 3, 4, 6, 16, 17, 18, 19, 32, 34, 37, 38, 39, 40, 41, 44, 46, 48, 49, 52, 53, 86])],
  [(Cell.A 406, [0, 2, 3, 4, 6, 16, 17, 18, 19, 32, 34, 37, 38, 39, 40, 41, 44, 46, 48, 49, 52, 53, 86])],
  [(Cell.A 408, [0, 2, 3, 4, 6, 16, 17, 18, 19, 32, 34, 37, 38, 39, 40, 41, 44, 46, 48, 49, 52, 53, 86])],
  [(Cell.A 410, [0, 2, 3, 4, 6, 16, 17, 18, 19, 32, 34, 37, 38, 39, 40, 41, 44, 46, 48, 49, 52, 53, 86])],
  [(Cell.A 412, [0, 2, 3, 4, 6, 16, 17, 18, 19, 32, 34, 37, 38, 39, 40, 41, 44, 46, 48, 49, 52, 53, 86])],
  [(Cell.A 414, [0, 2, 3, 4, 6, 16, 17, 18, 19, 32, 34, 37, 38, 39, 40, 41, 44, 46, 48, 49, 52, 53, 86])],
  [(Cell.A 229, [56]), (Cell.A 233, [62]), (Cell.A 235, [82]), (Cell.A 237, [83]), (Cell.A 239, [84]), (Cell.A 386, [34]), (Cell.A 388, [55]), (Cell.S 62, [110]), (Cell.S 97, [133]), (Cell.A 231, [59, 60]), (Cell.A 384, [61, 1]), (Cell.S 24, [125, 126, 128, 129, 130, 132, 134, 135, 136])],
  [(Cell.A 229, [56]), (Cell.A 233, [62]), (Cell.A 235, [82]), (Cell.A 237, [83]), (Cell.A 239, [84]), (Cell.A 386, [34]), (Cell.A 418, [55]), (Cell.S 17, [110]), (Cell.S 97, [133]), (Cell.A 231, [59, 60]), (Cell.A 416, [61, 1]), (Cell.S 6, [125, 126, 128, 129, 130, 132, 134, 135, 136])],
  [(Cell.A 229, [56]), (Cell.A 233, [62]), (Cell.A 235, [82]), (Cell.A 237, [83]), (Cell.A 239, [84]), (Cell.A 386, [34]), (Cell.A 422, [55]), (Cell.S 17, [110]), (Cell.S 97, [133]), (Cell.A 231, [59, 60]), (Cell.A 420, [61, 1]), (Cell.S 2, [125, 126, 128, 129, 130, 132, 134, 135, 136])]
]

def rowsP3 : List (List (Cell × List Nat)) := [
  [(Cell.A 225, [34]), (Cell.A 229, [56]), (Cell.A 233, [62]), (Cell.A 235, [82]), (Cell.A 237, [83]), (Cell.A 239, [84]), (Cell.A 426, [55]), (Cell.S 102, [133]), (Cell.A 231, [59, 60]), (Cell.A 424, [61, 1]), (Cell.S 29, [125, 126, 128, 129, 130, 132, 134, 135, 136])],
  [(Cell.A 51, [62]), (Cell.A 428, [85]), (Cell.S 92, [131]), (Cell.A 55, [71, 72]), (Cell.A 53, [64, 65, 66, 67, 68, 69, 70, 73, 74, 75, 76, 77, 78, 79, 80, 81])],
  [(Cell.A 225, [34]), (Cell.A 229, [56]), (Cell.A 233, [62]), (Cell.A 235, [82]), (Cell.A 237, [83]), (Cell.A 239, [84]), (Cell.A 432, [55]), (Cell.S 102, [133]), (Cell.A 231, [59, 60]), (Cell.A 430, [61, 1]), (Cell.S 21, [125, 126, 128, 129, 130, 132, 134, 135, 136])],
  [(Cell.A 225, [34]), (Cell.A 229, [56]), (Cell.A 233, [62]), (Cell.A 235, [82]), (Cell.A 237, [83]), (Cell.A 239, [84]), (Cell.A 436, [55]), (Cell.S 102, [133]), (Cell.A 231, [59, 60]), (Cell.A 434, [61, 1]), (Cell.S 27, [125, 126, 128, 129, 130, 132, 134, 135, 136])],
  [(Cell.A 225, [34]), (Cell.A 229, [56]), (Cell.A 233, [62]), (Cell.A 235, [82]), (Cell.A 237, [83]), (Cell.A 239, [84]), (Cell.A 440, [55]), (Cell.S 102, [133]), (Cell.A 231, [59, 60]), (Cell.A 438, [61, 1]), (Cell.S 31, [125, 126, 128, 129, 130, 132, 134, 135, 136])],
  [(Cell.A 225, [34]), (Cell.A 229, [56]), (Cell.A 233, [62]), (Cell.A 235, [82]), (Cell.A 237, [83]), (Cell.A 239, [84]), (Cell.A 444, [55]), (Cell.S 102, [133]), (Cell.A 231, [59, 60]), (Cell.A 442, [61, 1]), (Cell.S 106, [125, 126, 128, 129, 130, 132, 134, 135, 136])],
  [(Cell.A 229, [56]), (Cell.A 233, [62]), (Cell.A 235, [82]), (Cell.A 237, [83]), (Cell.A 239, [84]), (Cell.A 386, [34]), (Cell.A 448, [55]), (Cell.S 97, [133]), (Cell.A 231, [59, 60]), (Cell.A 446, [61, 1]), (Cell.S 4, [125, 126, 128, 129, 130, 132, 134, 135, 136])],
  [(Cell.A 229, [56]), (Cell.A 233, [62]), (Cell.A 235, [82]), (Cell.A 237, [83]), (Cell.A 239, [84]), (Cell.A 386, [34]), (Cell.A 452, [55]), (Cell.S 97, [133]), (Cell.A 231, [59, 60]), (Cell.A 450, [61, 1]), (Cell.S 5, [125, 126, 128, 129, 130, 132, 134, 135, 136])],
  [(Cell.A 225, [34]), (Cell.A 229, [56]), (Cell.A 233, [62]), (Cell.A 235, [82]), (Cell.A 237, [83]), (Cell.A 239, [84]), (Cell.A 456, [55]), (Cell.S 102, [133]), (Cell.A 231, [59, 60]), (Cell.A 454, [61, 1]), (Cell.S 110, [125, 126, 128, 129, 130, 132, 134, 135, 136])],
  [(Cell.A 225, [34]), (Cell.A 229, [56]), (Cell.A 233, [62]), (Cell.A 235, [82]), (Cell.A 237, [83]), (Cell.A 239, [84]), (Cell.A 460, [55]), (Cell.S 102, [133]), (Cell.A 231, [59, 60]), (Cell.A 458, [61, 1]), (Cell.S 91, [125, 126, 128, 129, 130, 132, 134, 135, 136])],
  [(Cell.A 51, [62]), (Cell.A 462, [63]), (Cell.S 92, [131]), (Cell.A 55, [71, 72]), (Cell.A 53, [64, 65, 66, 67, 68, 69, 70, 73, 74, 75, 76, 77, 78, 79, 80, 81])],
  [(Cell.A 225, [34]), (Cell.A 229, [56]), (Cell.A 233, [62]), (Cell.A 235, [82]), (Cell.A 237, [83]), (Cell.A 239, [84]), (Cell.A 466, [55]), (Cell.S 102, [133]), (Cell.A 231, [59, 60]), (Cell.A 464, [61, 1]), (Cell.S 100, [125, 126, 128, 129, 130, 132, 134, 135, 136])],
  [(Cell.A 225, [34]), (Cell.A 229, [56]), (Cell.A 233, [62]), (Cell.A 235, [82]), (Cell.A 237, [83]), (Cell.A 239, [84]), (Cell.A 470, [55]), (Cell.S 102, [133]), (Cell.A 231, [59, 60]), (Cell.A 468, [61, 1]), (Cell.S 22, [125, 126, 128, 129, 130, 132, 134, 135, 136])],
  [(Cell.A 225, [34]), (Cell.A 229, [56]), (Cell.A 233, [62]), (Cell.A 235, [82]), (Cell.A 237, [83]), (Cell.A 239, [84]), (Cell.A 474, [55]), (Cell.S 102, [133]), (Cell.A 231, [59, 60]), (Cell.A 472, [61, 1]), (Cell.S 33, [125, 126, 128, 129, 130, 132, 134, 135, 136])],
  [(Cell.A 51, [62]), (Cell.A 476, [45]), (Cell.S 92, [131]), (Cell.A 55, [71, 72]), (Cell.A 53, [64, 65, 66, 67, 68, 69, 70, 73, 74, 75, 76, 77, 78, 79, 80, 81])],
  [(Cell.A 225, [34]), (Cell.A 229, [56]), (Cell.A 233, [62]), (Cell.A 235, [82]), (Cell.A 237, [83]), (Cell.A 239, [84]), (Cell.A 480, [55]), (Cell.S 102, [133]), (Cell.A 231, [59, 60]), (Cell.A 478, [61, 1]), (Cell.S 35, [125, 126, 128, 129, 130, 132, 134, 135, 136])],
  [(Cell.A 51, [62]), (Cell.A 482, [33]), (Cell.S 92, [131]), (Cell.A 55, [71, 72]), (Cell.A 53, [64, 65, 66, 67, 68, 69, 70, 73, 74, 75, 76, 77, 78, 79, 80, 81])],
  [(Cell.A 225, [34]), (Cell.A 229, [56]), (Cell.A 233, [62]), (Cell.A 235, [82]), (Cell.A 237, [83]), (Cell.A 239, [84]), (Cell.A 486, [55]), (Cell.S 102, [133]), (Cell.A 231, [59, 60]), (Cell.A 484, [61, 1]), (Cell.S 23, [125, 126, 128, 129, 130, 132, 134, 135, 136])],
  [(Cell.A 225, [34]), (Cell.A 229, [56]), (Cell.A 233, [62]), (Cell.A 235, [82]), (Cell.A 237, [83]), (Cell.A 239, [84]), (Cell.A 490, [55]), (Cell.S 102, [133]), (Cell.A 231, [59, 60]), (Cell.A 488, [61, 1]), (Cell.S 28, [125, 126, 128, 129, 130, 132, 134, 135, 136])],
  [(Cell.A 225, [34]), (Cell.A 229, [56]), (Cell.A 233, [62]), (Cell.A 235, [82]), (Cell.A 237, [83]), (Cell.A 239, [84]), (Cell.A 494, [55]), (Cell.S 102, [133]), (Cell.A 231, [59, 60]), (Cell.A 492, [61, 1]), (Cell.S 104, [125, 126, 128, 129, 130, 132, 134, 135, 136])],
  [(Cell.A 51, [62]), (Cell.A 496, [54]), (Cell.S 92, [131]), (Cell.A 55, [71, 72]), (Cell.A 53, [64, 65, 66, 67, 68, 69, 70, 73, 74, 75, 76, 77, 78, 79, 80, 81])],
  [(Cell.A 229, [56]), (Cell.A 233, [62]), (Cell.A 235, [82]), (Cell.A 237, [83]), (Cell.A 239, [84]), (Cell.A 386, [34]), (Cell.A 500, [55]), (Cell.S 97, [133]), (Cell.A 231, [59, 60]), (Cell.A 498, [61, 1]), (Cell.S 9, [125, 126, 128, 129, 130, 132, 134, 135, 136])],
  [(Cell.A 225, [34]), (Cell.A 229, [56]), (Cell.A 233, [62]), (Cell.A 235, [82]), (Cell.A 237, [83]), (Cell.A 239, [84]), (Cell.A 504, [55]), (Cell.S 102, [133]), (Cell.A 231, [59, 60]), (Cell.A 502, [61, 1]), (Cell.S 34, [125, 126, 128, 129, 130, 132, 134, 135, 136])],
  [(Cell.A 506, [7]), (Cell.A 508, [8]), (Cell.S 117, [138]), (Cell.S 144, [92]), (Cell.A 510, [9, 10, 11, 12, 13, 14, 15])],
  [(Cell.A 514, [55, 56, 62, 83, 84]), (Cell.A 512, [34, 59, 60, 61, 82, 1])],
  [(Cell.A 518, [55, 56, 62, 83, 84]), (Cell.A 516, [34, 59, 60, 61, 82, 1])],
  [(Cell.A 520, [7]), (Cell.A 522, [8]), (Cell.S 116, [138]), (Cell.A 525, [9, 10, 11, 12, 13, 14, 15])],
  [(Cell.A 528, [7]), (Cell.A 530, [8]), (Cell.S 116, [138]), (Cell.A 532, [9, 10, 11, 12, 13, 14, 15])],
  [(Cell.S 59, [104]), (Cell.A 534, [25, 26, 27, 28, 29])],
  [(Cell.S 53, [104]), (Cell.A 536, [25, 26, 27, 28, 29])]
]

def rowsP4 : List (List (Cell × List Nat)) := [
  [(Cell.S 63, [104]), (Cell.A 534, [25, 26, 27, 28, 29])],
  [(Cell.S 48, [104]), (Cell.A 536, [25, 26, 27, 28, 29])],
  [(Cell.A 538, [56]), (Cell.A 540, [57]), (Cell.A 542, [58]), (Cell.S 124, [143]), (Cell.S 133, [127])],
  [(Cell.A 544, [56]), (Cell.A 546, [57]), (Cell.A 549, [58]), (Cell.S 123, [143])],
  [(Cell.A 552, [56]), (Cell.A 554, [57]), (Cell.A 556, [58]), (Cell.S 123, [143])],
  [(Cell.A 558, [1]), (Cell.S 40, [103]), (Cell.S 52, [102])],
  [(Cell.A 558, [1]), (Cell.S 47, [103])],
  [(Cell.A 560, [1])],
  [(Cell.A 562, [1])],
  [(Cell.A 564, [0])],
  [(Cell.A 566, [1])],
  [(Cell.A 568, [1])],
  [(Cell.A 570, [24])],
  [(Cell.A 572, [56])],
  [(Cell.A 574, [47])],
  [(Cell.A 576, [1])],
  [(Cell.A 578, [1])],
  [(Cell.A 580, [63])],
  [(Cell.A 582, [1])],
  [(Cell.A 584, [1])],
  [(Cell.A 586, [1])],
  [(Cell.A 588, [1])],
  [(Cell.A 590, [33])],
  [(Cell.A 592, [1])],
  [(Cell.A 594, [7])],
  [(Cell.A 596, [1])],
  [(Cell.A 598, [1])],
  [(Cell.A 600, [24])],
  [(Cell.A 602, [1])],
  [(Cell.A 604, [1])]
]

def rowsP5 : List (List (Cell × List Nat)) := [
  [(Cell.A 606, [24])]
]

def rows : List (List (Cell × List Nat)) := rowsP0 ++ rowsP1 ++ rowsP2 ++ rowsP3 ++ rowsP4 ++ rowsP5

def actTblP0 : List (Nat × List PAct) := [
  (0, []),
  (1, [PAct.rcv]),
  (3, [PAct.re 87 0]),
  (5, [PAct.sh 77]),
  (7, [PAct.sh 55]),
  (9, [PAct.sh 58]),
  (11, [PAct.sh 113]),
  (13, [PAct.sh 143]),
  (15, [PAct.sh 141]),
  (17, [PAct.sh 140]),
  (19, [PAct.sh 139]),
  (21, [PAct.sh 128]),
  (23, [PAct.sh 136]),
  (25, [PAct.sh 105]),
  (27, [PAct.sh 135]),
  (29, [PAct.sh 32]),
  (31, [PAct.sh 26]),
  (33, [PAct.sh 107]),
  (35, [PAct.sh 109]),
  (37, [PAct.sh 127]),
  (39, [PAct.sh 112]),
  (41, [PAct.sh 45]),
  (43, [PAct.sh 95]),
  (45, [PAct.sh 98]),
  (47, [PAct.re 110 1]),
  (49, [PAct.re 110 1]),
  (51, [PAct.sh 101]),
  (53, [PAct.sh 115]),
  (55, [PAct.sh 115]),
  (57, [PAct.re 134 2]),
  (59, [PAct.sh 89]),
  (61, [PAct.re 134 2]),
  (63, [PAct.re 130 3]),
  (65, [PAct.re 130 3]),
  (67, [PAct.re 132 2]),
  (69, [PAct.re 132 2]),
  (71, [PAct.sh 111]),
  (73, [PAct.re 141 2]),
  (75, [PAct.re 141 2, PAct.shr 111]),
  (78, [PAct.re 141 2]),
  (80, [PAct.re 110 2]),
  (82, [PAct.re 110 2]),
  (84, [PAct.re 128 1]),
  (86, [PAct.re 128 1]),
  (88, [PAct.re 126 2]),
  (90, [PAct.re 126 2]),
  (92, [PAct.sh 88]),
  (94, [PAct.re 135 4]),
  (96, [PAct.re 135 4]),
  (98, [PAct.re 129 2]),
  (100, [PAct.re 129 2]),
  (102, [PAct.re 136 3]),
  (104, [PAct.re 136 3]),
  (106, [PAct.re 108 2]),
  (108, [PAct.re 108 2]),
  (110, [PAct.re 129 3]),
  (112, [PAct.re 129 3]),
  (114, [PAct.re 126 3]),
  (116, [PAct.re 126 3]),
  (118, [PAct.re 134 3]),
  (120, [PAct.re 134 3]),
  (122, [PAct.re 114 2]),
  (124, [PAct.sh 93]),
  (126, [PAct.sh 86]),
  (128, [PAct.re 114 2]),
  (130, [PAct.re 137 2]),
  (132, [PAct.re 137 2, PAct.shr 77]),
  (135, [PAct.re 137 2, PAct.shr 55]),
  (138, [PAct.re 137 2, PAct.shr 58]),
  (141, [PAct.re 137 2, PAct.shr 113]),
  (144, [PAct.re 137 2, PAct.shr 143]),
  (147, [PAct.re 137 2, PAct.shr 141]),
  (150, [PAct.re 137 2, PAct.shr 140]),
  (153, [PAct.re 137 2, PAct.shr 139]),
  (156, [PAct.re 137 2, PAct.shr 128]),
  (159, [PAct.re 137 2, PAct.shr 136]),
  (162, [PAct.re 137 2, PAct.shr 105]),
  (165, [PAct.re 137 2, PAct.shr 135]),
  (168, [PAct.re 137 2, PAct.shr 32]),
  (171, [PAct.re 137 2, PAct.shr 25])
]

def actTblP1 : List (Nat × List PAct) := [
  (174, [PAct.re 137 2, PAct.shr 107]),
  (177, [PAct.re 137 2, PAct.shr 109]),
  (180, [PAct.re 137 2, PAct.shr 127]),
  (183, [PAct.re 137 2, PAct.shr 112]),
  (186, [PAct.re 137 2, PAct.shr 45]),
  (189, [PAct.re 137 2, PAct.shr 95]),
  (192, [PAct.re 137 2, PAct.shr 98]),
  (195, [PAct.re 87 1]),
  (197, [PAct.sh 25]),
  (199, [PAct.re 115 2]),
  (201, [PAct.re 115 2]),
  (203, [PAct.re 105 7]),
  (205, [PAct.re 105 7]),
  (207, [PAct.re 106 4]),
  (209, [PAct.re 106 4]),
  (211, [PAct.re 113 2]),
  (213, [PAct.re 113 2]),
  (215, [PAct.re 118 4]),
  (217, [PAct.re 118 4]),
  (219, [PAct.re 113 1]),
  (221, [PAct.sh 30]),
  (223, [PAct.re 113 1]),
  (225, [PAct.sh 145]),
  (227, [PAct.sh 30]),
  (229, [PAct.sh 122]),
  (231, [PAct.sh 10]),
  (233, [PAct.sh 70]),
  (235, [PAct.sh 114]),
  (237, [PAct.sh 114]),
  (239, [PAct.sh 99]),
  (241, [PAct.re 105 6]),
  (243, [PAct.re 105 6]),
  (245, [PAct.re 119 2]),
  (247, [PAct.re 119 2]),
  (249, [PAct.re 111 2]),
  (251, [PAct.re 111 2]),
  (253, [PAct.re 96 2]),
  (255, [PAct.sh 148]),
  (257, [PAct.sh 125]),
  (259, [PAct.sh 119]),
  (261, [PAct.re 96 2]),
  (263, [PAct.re 97 2]),
  (265, [PAct.re 97 2]),
  (267, [PAct.re 139 2]),
  (269, [PAct.re 139 2, PAct.shr 148]),
  (272, [PAct.re 139 2, PAct.shr 125]),
  (275, [PAct.re 139 2, PAct.shr 119]),
  (278, [PAct.re 139 2]),
  (280, [PAct.re 98 1]),
  (282, [PAct.re 98 1]),
  (284, [PAct.re 102 1]),
  (286, [PAct.sh 126]),
  (288, [PAct.re 102 1]),
  (290, [PAct.re 114 3]),
  (292, [PAct.re 140 2]),
  (294, [PAct.re 140 2, PAct.shr 126]),
  (297, [PAct.re 140 2]),
  (299, [PAct.re 102 2]),
  (301, [PAct.re 102 2]),
  (303, [PAct.re 120 1]),
  (305, [PAct.re 120 1]),
  (307, [PAct.sh 61]),
  (309, [PAct.sh 64]),
  (311, [PAct.re 104 1]),
  (313, [PAct.re 104 1]),
  (315, [PAct.re 103 3]),
  (317, [PAct.re 103 3]),
  (319, [PAct.re 107 2]),
  (321, [PAct.sh 87]),
  (323, [PAct.sh 130]),
  (325, [PAct.re 142 2]),
  (327, [PAct.re 142 2, PAct.shr 93]),
  (330, [PAct.re 142 2]),
  (332, [PAct.re 100 2]),
  (334, [PAct.re 100 2]),
  (336, [PAct.re 101 2]),
  (338, [PAct.re 101 2]),
  (340, [PAct.re 99 2]),
  (342, [PAct.re 99 2]),
  (344, [PAct.re 89 1])
]

def actTblP2 : List (Nat × List PAct) := [
  (346, [PAct.sh 132]),
  (348, [PAct.sh 131]),
  (350, [PAct.re 89 1]),
  (352, [PAct.re 120 2]),
  (354, [PAct.re 107 3]),
  (356, [PAct.re 90 1]),
  (358, [PAct.re 90 1]),
  (360, [PAct.sh 72]),
  (362, [PAct.re 105 4]),
  (364, [PAct.sh 103]),
  (366, [PAct.re 121 1]),
  (368, [PAct.re 105 5]),
  (370, [PAct.sh 108]),
  (372, [PAct.re 122 1]),
  (374, [PAct.re 107 4]),
  (376, [PAct.re 114 4]),
  (378, [PAct.re 93 1]),
  (380, [PAct.re 96 3]),
  (382, [PAct.re 97 3]),
  (384, [PAct.sh 24]),
  (386, [PAct.sh 146]),
  (388, [PAct.sh 24]),
  (390, [PAct.sh 15]),
  (392, [PAct.re 91 3]),
  (394, [PAct.re 90 2]),
  (396, [PAct.re 123 4]),
  (398, [PAct.re 109 2]),
  (400, [PAct.re 124 4]),
  (402, [PAct.re 91 2]),
  (404, [PAct.re 112 2]),
  (406, [PAct.re 120 3]),
  (408, [PAct.re 117 3]),
  (410, [PAct.re 95 2]),
  (412, [PAct.re 94 2]),
  (414, [PAct.re 116 1]),
  (416, [PAct.sh 6]),
  (418, [PAct.sh 6]),
  (420, [PAct.sh 2]),
  (422, [PAct.sh 2]),
  (424, [PAct.sh 29]),
  (426, [PAct.sh 29]),
  (428, [PAct.sh 16]),
  (430, [PAct.sh 21]),
  (432, [PAct.sh 21]),
  (434, [PAct.sh 27]),
  (436, [PAct.sh 27]),
  (438, [PAct.sh 31]),
  (440, [PAct.sh 31]),
  (442, [PAct.sh 106]),
  (444, [PAct.sh 106]),
  (446, [PAct.sh 4]),
  (448, [PAct.sh 4]),
  (450, [PAct.sh 5]),
  (452, [PAct.sh 5]),
  (454, [PAct.sh 110]),
  (456, [PAct.sh 110]),
  (458, [PAct.sh 91]),
  (460, [PAct.sh 91]),
  (462, [PAct.sh 13]),
  (464, [PAct.sh 100]),
  (466, [PAct.sh 100]),
  (468, [PAct.sh 22]),
  (470, [PAct.sh 22]),
  (472, [PAct.sh 33]),
  (474, [PAct.sh 33]),
  (476, [PAct.sh 83]),
  (478, [PAct.sh 35]),
  (480, [PAct.sh 35]),
  (482, [PAct.sh 138]),
  (484, [PAct.sh 23]),
  (486, [PAct.sh 23]),
  (488, [PAct.sh 28]),
  (490, [PAct.sh 28]),
  (492, [PAct.sh 104]),
  (494, [PAct.sh 104]),
  (496, [PAct.sh 149]),
  (498, [PAct.sh 9]),
  (500, [PAct.sh 9]),
  (502, [PAct.sh 34]),
  (504, [PAct.sh 34])
]

def actTblP3 : List (Nat × List PAct) := [
  (506, [PAct.sh 79]),
  (508, [PAct.sh 117]),
  (510, [PAct.sh 117]),
  (512, [PAct.re 133 1]),
  (514, [PAct.re 133 1]),
  (516, [PAct.re 131 1]),
  (518, [PAct.re 131 1]),
  (520, [PAct.re 138 2]),
  (522, [PAct.re 138 2, PAct.shr 116]),
  (525, [PAct.re 138 2, PAct.shr 116]),
  (528, [PAct.re 92 1]),
  (530, [PAct.sh 116]),
  (532, [PAct.sh 116]),
  (534, [PAct.sh 60]),
  (536, [PAct.sh 46]),
  (538, [PAct.sh 11]),
  (540, [PAct.sh 124]),
  (542, [PAct.sh 124]),
  (544, [PAct.re 143 2]),
  (546, [PAct.re 143 2, PAct.shr 123]),
  (549, [PAct.re 143 2, PAct.shr 123]),
  (552, [PAct.re 127 1]),
  (554, [PAct.sh 123]),
  (556, [PAct.sh 123]),
  (558, [PAct.sh 147]),
  (560, [PAct.sh 134]),
  (562, [PAct.sh 142]),
  (564, [PAct.acc]),
  (566, [PAct.sh 76]),
  (568, [PAct.sh 150]),
  (570, [PAct.sh 118]),
  (572, [PAct.sh 19]),
  (574, [PAct.sh 94]),
  (576, [PAct.sh 81]),
  (578, [PAct.sh 50]),
  (580, [PAct.sh 18]),
  (582, [PAct.sh 73]),
  (584, [PAct.sh 37]),
  (586, [PAct.sh 36]),
  (588, [PAct.sh 84]),
  (590, [PAct.sh 90]),
  (592, [PAct.sh 85]),
  (594, [PAct.sh 71]),
  (596, [PAct.sh 12]),
  (598, [PAct.sh 3]),
  (600, [PAct.sh 121]),
  (602, [PAct.sh 54]),
  (604, [PAct.sh 78]),
  (606, [PAct.sh 120])
]

def actTbl : List (Nat × List PAct) := actTblP0 ++ actTblP1 ++ actTblP2 ++ actTblP3
/-- Concrete syntax tree: token leaves carry the symbol id and the
token text (as character codes); interior nodes carry the symbol id of
the reduced nonterminal and the children in source order. -/
inductive Tree where
  | tok : Nat → List Nat → Tree
  | nd : Nat → List Tree → Tree

def Tree.symb : Tree → Nat
  | Tree.tok s _ => s
  | Tree.nd s _ => s

/-- Find the table cell for a symbol in a state row. -/
def rowFind : List (Cell × List Nat) → Nat → Option Cell
  | [], _ => none
  | (c, syms) :: rest, sym =>
    if syms.contains sym then some c else rowFind rest sym

def actFind : List (Nat × List PAct) → Nat → List PAct
  | [], _ => []
  | (i, a) :: rest, j => if i == j then a else actFind rest j

def rowOf (st : Nat) : List (Cell × List Nat) := rows.getD st []

def actsOf (i : Nat) : List PAct := actFind actTbl i

/-- Parser configuration: the LR stack (top first; each cell is a
state paired with the tree built for the symbol that entered it), the
pending lookahead token (symbol, text, remaining input after it), and
the remaining input. -/
structure Cfg where
  stk : List (Nat × Tree)
  tokn : Option (Nat × List Nat × List Nat)
  inp : List Nat

inductive Step where
  | cont : Cfg → Step
  | done : Tree → Step
  | fail : List Nat → Step

def baseCell : Nat × Tree := (1, Tree.nd 0 [])

def topState (c : Cfg) : Nat := (c.stk.headD baseCell).1

/-- Keyword substitution (keyword_lex_fn / keyword_capture_token of the
TSLanguage): an identifier token is replaced by the keyword token when
the keyword lexer consumes exactly the token text and the keyword has
an action in the current state. -/
def kwSubst (st sym : Nat) (text : List Nat) : Nat :=
  match lexTokT kwTbl 0 text with
  | some (k, _, rest) =>
    if rest.isEmpty && (rowFind (rowOf st) k).isSome then k else sym
  | none => sym

/-- The reduce action (REDUCE in ts_parse_actions): pop n cells,
build the node for the reduced symbol, and push it at the goto target
of the state underneath; none when the goto entry is absent. -/
def reRes (c : Cfg) (sym2 n : Nat) : Option Cfg :=
  match rowFind (rowOf ((c.stk.drop n).headD baseCell).1) sym2 with
  | some (Cell.S g) =>
    some ⟨(g, Tree.nd sym2 (((c.stk.take n).map Prod.snd).reverse)) ::
      c.stk.drop n, c.tokn, c.inp⟩
  | some (Cell.A _) => none
  | none => none

/-- Apply the actions of one parse-table entry in order (an entry is a
single action, or REDUCE followed by SHIFT_REPEAT). -/
def applyActs : List PAct → Cfg → Nat → List Nat → List Nat → Step
  | [], c, _, _, _ => Step.cont c
  | PAct.sh n :: rest, c, sym, text, after =>
    applyActs rest ⟨(n, Tree.tok sym text) :: c.stk, none, after⟩ sym text after
  | PAct.shr n :: rest, c, sym, text, after =>
    applyActs rest ⟨(n, Tree.tok sym text) :: c.stk, none, after⟩ sym text after
  | PAct.re sym2 n :: rest, c, sym, text, after =>
    match reRes c sym2 n with
    | some c2 => applyActs rest c2 sym text after
    | none => Step.fail c.inp
  | PAct.acc :: _, c, _, _, _ => Step.done (c.stk.headD baseCell).2
  | PAct.rcv :: _, c, _, _, _ => Step.fail c.inp

/-- Lex the next token with the lex mode of the current state, with
keyword substitution for identifier tokens. -/
def pstepLex (c : Cfg) : Step :=
  match lexTokT lexTbl (modes.getD (topState c) 0) c.inp with
  | none => Step.fail c.inp
  | some (sym, text, after) =>
    Step.cont ⟨c.stk,
      some (if sym == 1 then kwSubst (topState c) sym text else sym,
        text, after), c.inp⟩

/-- Look the pending token up in the current state and apply the
entry found. -/
def pstepTok (c : Cfg) (sym : Nat) (text after : List Nat) : Step :=
  match rowFind (rowOf (topState c)) sym with
  | some (Cell.A i) => applyActs (actsOf i) c sym text after
  | some (Cell.S _) => Step.fail c.inp
  | none => Step.fail c.inp

/-- One step of the LR driver: lex a token when none is pending (the
runtime keeps the lookahead across reduces), else apply the table
entry for the pending token. -/
def pstep (c : Cfg) : Step :=
  match c.tokn with
  | none => pstepLex c
  | some (sym, text, after) => pstepTok c sym text after

def prun : Nat → Cfg → Step
  | 0, c => Step.fail c.inp
  | Nat.succ fuel, c =>
    match pstep c with
    | Step.cont c2 => prun fuel c2
    | s => s

def initCfg (inp : List Nat) : Cfg := ⟨[baseCell], none, inp⟩

def parseCodes (inp : List Nat) : Step := prun (8 * inp.length + 64) (initCfg inp)

def str (s : String) : List Nat := s.toList.map Char.toNat

/-- Parse a source string with the embedded machine. -/
def parseStr (s : String) : Step := parseCodes (str s)

def parseTree (s : String) : Option Tree :=
  match parseStr s with
  | Step.done t => some t
  | _ => none

def wellFormed (s : String) : Prop := (parseTree s).isSome

/-! Symbol ids from the enum at the top of parser.c. -/

def symIdentifier : Nat := 1

def symDoColon : Nat := 2

def symNumberTok : Nat := 55

def symEscape : Nat := 58

def symPlus : Nat := 64

def symStar : Nat := 66

def symIsEqualTo : Nat := 68

def symIsLessThan : Nat := 71

def symIsLessThanOrEqualTo : Nat := 73

def symNot : Nat := 82

def symNewline : Nat := 86

def symSourceFile : Nat := 87

def symSectionMarker : Nat := 89

def symStructureDefinition : Nat := 93

def symBuildingDef : Nat := 94

def symFloorDef : Nat := 95

def symStepDef : Nat := 96

def symRiserDef : Nat := 97

def symStepClauses : Nat := 98

def symBelongsClause : Nat := 99

def symExpectsClause : Nat := 100

def symReturnsClause : Nat := 101

def symAssignment : Nat := 106

def symDisplayStatement : Nat := 111

def symBinaryExpression : Nat := 130

def symBinaryOperator : Nat := 131

def symUnaryExpression : Nat := 132

def symUnaryOperator : Nat := 133

def auxStepClausesRepeat : Nat := 139

/-- Symbols visible in the tree-sitter syntax tree
(ts_symbol_metadata .visible flags). -/
def visSyms : List Nat := [1, 2, 3, 4, 5, 6, 7, 16, 17, 18, 19, 20, 21, 22, 23, 24, 25, 26, 27, 28, 29, 30, 31, 32, 33, 34, 35, 36, 37, 38, 39, 40, 41, 42, 43, 44, 45, 46, 47, 48, 49, 50, 51, 52, 53, 54, 55, 56, 58, 59, 60, 61, 62, 63, 64, 65, 66, 67, 68, 69, 70, 71, 72, 73, 74, 75, 76, 77, 78, 79, 80, 81, 82, 83, 84, 85, 87, 89, 90, 91, 92, 93, 94, 95, 96, 97, 98, 99, 100, 101, 102, 103, 104, 105, 106, 107, 108, 109, 110, 111, 112, 113, 114, 115, 116, 117, 118, 119, 120, 121, 122, 123, 124, 126, 127, 128, 129, 130, 131, 132, 133, 134, 135, 136]

mutual

/-- Visible expansion of a raw tree, as the tree-sitter runtime
presents it: a node with a hidden symbol (underscore rules and aux
repetition rules) is replaced by its own visible expansion. -/
def flatV : Tree → List Tree
  | Tree.tok s txt => if visSyms.contains s then [Tree.tok s txt] else []
  | Tree.nd s kids =>
    if visSyms.contains s then [Tree.nd s (flatL kids)] else flatL kids

def flatL : List Tree → List Tree
  | [] => []
  | t :: ts => flatV t ++ flatL ts

end

def flatten (t : Tree) : Tree := (flatV t).headD t

def isClauseSym (s : Nat) : Bool := s == 99 || s == 100 || s == 101 || s == 139

mutual

/-- Clause attachment discipline inside a raw tree: a step_clauses
child occurs only under step_def or riser_def, and clause nodes (and
their repetition wrapper) occur only under step_clauses or the
wrapper. -/
def cOK : Tree → Bool
  | Tree.tok _ _ => true
  | Tree.nd s kids =>
    cOKL kids &&
    (!(kids.any (fun k => k.symb == 98)) || (s == 96 || s == 97)) &&
    (!(kids.any (fun k => isClauseSym k.symb)) || (s == 98 || s == 139))

def cOKL : List Tree → Bool
  | [] => true
  | t :: ts => cOK t && cOKL ts

end

/-- Modelled from the spec: panic-mode recovery (section 7 of the
spec).  The recovery wrapper around parse lives in the tree-sitter
runtime, not in src/; following the spec, on an error the parser
reports a diagnostic (recorded here as the length of the remaining
input at the failure) and resynchronizes to the next statement
boundary (the input after the next newline), then resumes. -/
def dropLine (inp : List Nat) : List Nat :=
  match inp.dropWhile (fun c => !(c == 10)) with
  | [] => []
  | _ :: rest => rest

def recGo : Nat → List Nat → List Tree × List Nat
  | 0, inp => ([], [inp.length + 1])
  | Nat.succ fuel, inp =>
    match parseCodes inp with
    | Step.done t => ([t], [])
    | Step.cont _ => ([], [inp.length + 1])
    | Step.fail rest =>
      let r := recGo fuel (dropLine rest)
      (r.1, (rest.length + 1) :: r.2)

/-- Modelled from the spec: the total parse entry point, returning a
Program tree and a diagnostics list (diagnostics are failure
positions).  A clean parse returns its tree with no diagnostics; on
failure the recovery loop collects one diagnostic per failed chunk and
a Program assembled from the chunks that parsed. -/
def parseRecover (s : String) : Tree × List Nat :=
  match parseCodes (str s) with
  | Step.done t => (t, [])
  | Step.cont _ => (Tree.nd symSourceFile [], [0])
  | Step.fail rest =>
    let r := recGo (rest.length + 1) (dropLine rest)
    (Tree.nd symSourceFile r.1, (rest.length + 1) :: r.2)

def Tree.kids : Tree → List Tree
  | Tree.tok _ _ => []
  | Tree.nd _ k => k

def kid (i : Nat) (t : Tree) : Tree := t.kids.getD i (Tree.nd 0 [])

def countSym (s : Nat) (l : List Tree) : Nat :=
  (l.filter (fun t => t.symb == s)).length

mutual

def hasSym (s : Nat) : Tree → Bool
  | Tree.tok s2 _ => s == s2
  | Tree.nd s2 kids => s == s2 || hasSymL s kids

def hasSymL (s : Nat) : List Tree → Bool
  | [] => false
  | t :: ts => hasSym s t || hasSymL s ts

end
def c1src : String := "building: Foo\nfloor: Bar\nbuilding: Baz\n"

def c1tree : Tree :=
  Tree.nd 87 [Tree.nd 137 [Tree.nd 137 [Tree.nd 137 [Tree.nd 137 [Tree.nd 137 [Tree.nd 93 [Tree.nd 94 [Tree.tok 16 (str "building:"), Tree.tok 1 (str "Foo")]], Tree.tok 86 (str "\n")], Tree.nd 93 [Tree.nd 95 [Tree.tok 17 (str "floor:"), Tree.tok 1 (str "Bar")]]], Tree.tok 86 (str "\n")], Tree.nd 93 [Tree.nd 94 [Tree.tok 16 (str "building:"), Tree.tok 1 (str "Baz")]]], Tree.tok 86 (str "\n")]]

def c1flat : Tree :=
  Tree.nd 87 [Tree.nd 93 [Tree.nd 94 [Tree.tok 16 (str "building:"), Tree.tok 1 (str "Foo")]], Tree.nd 93 [Tree.nd 95 [Tree.tok 17 (str "floor:"), Tree.tok 1 (str "Bar")]], Tree.nd 93 [Tree.nd 94 [Tree.tok 16 (str "building:"), Tree.tok 1 (str "Baz")]]]

def c2src : String := "display 2 + 3 * 4\n"

def c2tree : Tree :=
  Tree.nd 87 [Tree.nd 137 [Tree.nd 111 [Tree.tok 37 (str "display"), Tree.nd 130 [Tree.nd 130 [Tree.tok 55 (str "2"), Tree.nd 131 [Tree.tok 64 (str "+")], Tree.tok 55 (str "3")], Tree.nd 131 [Tree.tok 66 (str "*")], Tree.tok 55 (str "4")]], Tree.tok 86 (str "\n")]]

def c3src : String := "set x to 5\n"

def c3tree : Tree :=
  Tree.nd 87 [Tree.nd 137 [Tree.nd 106 [Tree.tok 32 (str "set"), Tree.tok 1 (str "x"), Tree.tok 33 (str "to"), Tree.tok 55 (str "5")], Tree.tok 86 (str "\n")]]

def c4src : String := "display not a is equal to b\n"

def c4tree : Tree :=
  Tree.nd 87 [Tree.nd 137 [Tree.nd 111 [Tree.tok 37 (str "display"), Tree.nd 130 [Tree.nd 132 [Tree.nd 133 [Tree.tok 82 (str "not")], Tree.tok 1 (str "a")], Tree.nd 131 [Tree.tok 68 (str "is equal to")], Tree.tok 1 (str "b")]], Tree.tok 86 (str "\n")]]

def c5src : String := "riser: Foo belongs to: Bar\n"

def c5tree : Tree :=
  Tree.nd 87 [Tree.nd 137 [Tree.nd 93 [Tree.nd 97 [Tree.tok 19 (str "riser:"), Tree.tok 1 (str "Foo"), Tree.nd 98 [Tree.nd 99 [Tree.tok 20 (str "belongs to:"), Tree.tok 1 (str "Bar")]]]], Tree.tok 86 (str "\n")]]

def c5flat : Tree :=
  Tree.nd 87 [Tree.nd 93 [Tree.nd 97 [Tree.tok 19 (str "riser:"), Tree.tok 1 (str "Foo"), Tree.nd 98 [Tree.nd 99 [Tree.tok 20 (str "belongs to:"), Tree.tok 1 (str "Bar")]]]]]

def c7src : String := "display \"a\\nb\"\n"

def c7tree : Tree :=
  Tree.nd 87 [Tree.nd 137 [Tree.nd 111 [Tree.tok 37 (str "display"), Tree.nd 126 [Tree.tok 56 (str "\""), Tree.nd 127 [Tree.nd 143 [Tree.nd 143 [Tree.tok 57 (str "a"), Tree.tok 58 (str "\\n")], Tree.tok 57 (str "b")]], Tree.tok 56 (str "\"")]], Tree.tok 86 (str "\n")]]

def c8src : String := "display -5\n"

def c8tree : Tree :=
  Tree.nd 87 [Tree.nd 137 [Tree.nd 111 [Tree.tok 37 (str "display"), Tree.tok 55 (str "-5")], Tree.tok 86 (str "\n")]]

def c8dsrc : String := "display 5.25\n"

def c8dtree : Tree :=
  Tree.nd 87 [Tree.nd 137 [Tree.nd 111 [Tree.tok 37 (str "display"), Tree.tok 55 (str "5.25")], Tree.tok 86 (str "\n")]]

def c10src : String := "do:\n"

def c10tree : Tree :=
  Tree.nd 87 [Tree.nd 137 [Tree.nd 89 [Tree.tok 2 (str "do:")], Tree.tok 86 (str "\n")]]

def c9asrc : String := "display a is less than or equal to b\n"

def c9atree : Tree :=
  Tree.nd 87 [Tree.nd 137 [Tree.nd 111 [Tree.tok 37 (str "display"), Tree.nd 130 [Tree.tok 1 (str "a"), Tree.nd 131 [Tree.tok 73 (str "is less than or equal to")], Tree.tok 1 (str "b")]], Tree.tok 86 (str "\n")]]

def c9bsrc : String := "display a is less than b\n"

def c9btree : Tree :=
  Tree.nd 87 [Tree.nd 137 [Tree.nd 111 [Tree.tok 37 (str "display"), Tree.nd 130 [Tree.tok 1 (str "a"), Tree.nd 131 [Tree.tok 71 (str "is less than")], Tree.tok 1 (str "b")]], Tree.tok 86 (str "\n")]]

def succTbl : List (List Nat) := [
  [],
  [26, 32, 45, 55, 58, 67, 77, 95, 98, 105, 107, 109, 112, 113, 127, 128, 129, 135, 136, 139, 140, 141, 143],
  [8, 96, 101, 115],
  [20, 89],
  [96, 101],
  [96, 101],
  [14, 96, 101, 111, 115],
  [7, 111],
  [7, 111],
  [96, 101, 115],
  [],
  [],
  [20, 88],
  [],
  [7, 111],
  [],
  [],
  [],
  [],
  [],
  [],
  [92, 101],
  [92, 101],
  [41, 75, 86, 92, 93, 101, 115],
  [44, 96, 101, 111, 115],
  [25, 32, 45, 55, 58, 67, 77, 95, 98, 105, 107, 109, 112, 113, 127, 128, 135, 136, 139, 140, 141, 143],
  [25, 32, 45, 55, 58, 67, 77, 95, 98, 105, 107, 109, 112, 113, 127, 128, 135, 136, 139, 140, 141, 143],
  [92, 101, 115],
  [92, 101, 115],
  [92, 101, 115],
  [92, 101, 115],
  [92, 101, 115],
  [10, 30, 70, 99, 102, 114, 122, 145],
  [92, 101, 115],
  [92, 101, 115],
  [92, 101, 115],
  [39, 68, 119, 125, 148],
  [39, 69, 119, 125, 148],
  [38, 119, 125, 148],
  [38, 119, 125, 148],
  [43, 126],
  [51, 66, 86, 93],
  [42, 126],
  [42, 126],
  [49, 111],
  [56, 61, 64, 80],
  [],
  [],
  [],
  [49, 111],
  [57, 74, 87, 130],
  [51, 93],
  [],
  [],
  [],
  [131, 132],
  [64, 82],
  [65, 130],
  [72],
  [103],
  [],
  [],
  [],
  [108],
  [],
  [],
  [],
  [],
  [],
  [],
  [10, 15, 24, 70, 97, 99, 114, 122, 137, 146],
  [],
  [],
  [],
  [],
  [],
  [],
  [],
  [],
  [],
  [],
  [],
  [],
  [],
  [],
  [],
  [],
  [10, 24, 62, 70, 97, 99, 114, 122, 146],
  [6, 10, 17, 70, 97, 99, 114, 122, 146],
  [2, 10, 17, 70, 97, 99, 114, 122, 146],
  [10, 29, 70, 99, 102, 114, 122, 145],
  [16, 92, 101, 115],
  [10, 21, 70, 99, 102, 114, 122, 145],
  [10, 27, 70, 99, 102, 114, 122, 145],
  [10, 31, 70, 99, 102, 114, 122, 145],
  [10, 70, 99, 102, 106, 114, 122, 145],
  [4, 10, 70, 97, 99, 114, 122, 146],
  [5, 10, 70, 97, 99, 114, 122, 146],
  [10, 70, 99, 102, 110, 114, 122, 145],
  [10, 70, 91, 99, 102, 114, 122, 145],
  [13, 92, 101, 115],
  [10, 70, 99, 100, 102, 114, 122, 145],
  [10, 22, 70, 99, 102, 114, 122, 145],
  [10, 33, 70, 99, 102, 114, 122, 145],
  [83, 92, 101, 115],
  [10, 35, 70, 99, 102, 114, 122, 145],
  [92, 101, 115, 138],
  [10, 23, 70, 99, 102, 114, 122, 145],
  [10, 28, 70, 99, 102, 114, 122, 145],
  [10, 70, 99, 102, 104, 114, 122, 145],
  [92, 101, 115, 149],
  [9, 10, 70, 97, 99, 114, 122, 146],
  [10, 34, 70, 99, 102, 114, 122, 145],
  [79, 117, 144],
  [],
  [],
  [116],
  [116],
  [59, 60],
  [46, 53],
  [60, 63],
  [46, 48],
  [11, 124, 133],
  [123],
  [123],
  [40, 52, 147],
  [47, 147],
  [134],
  [142],
  [],
  [76],
  [150],
  [118],
  [19],
  [94],
  [81],
  [50],
  [18],
  [73],
  [37],
  [36],
  [84],
  [90],
  [85],
  [71],
  [12],
  [3],
  [121],
  [54],
  [78],
  [120]
]

def hcTbl : List (List Nat) := [
  [38, 39],
  [38, 119, 125, 148],
  [38, 40, 46, 52, 53, 54, 119, 125, 147, 148],
  [38, 40, 43, 46, 52, 53, 54, 119, 121, 125, 126, 147, 148],
  [38, 40, 42, 43, 46, 47, 48, 52, 53, 54, 119, 121, 125, 126, 147, 148],
  [38, 40, 42, 43, 46, 47, 48, 52, 53, 54, 119, 121, 125, 126, 147, 148],
  [38, 40, 42, 43, 46, 47, 48, 52, 53, 54, 119, 121, 125, 126, 147, 148],
  [38, 40, 42, 43, 46, 47, 48, 52, 53, 54, 119, 121, 125, 126, 147, 148]
]

def h68Tbl : List (List Nat) := [
  [68, 69],
  [],
  [],
  [],
  [],
  [],
  [],
  []
]

/-- The expression subtree of the display statement in c2tree. -/
def c2expr : Tree :=
  Tree.nd 130 [Tree.nd 130 [Tree.tok 55 (str "2"), Tree.nd 131 [Tree.tok 64 (str "+")], Tree.tok 55 (str "3")], Tree.nd 131 [Tree.tok 66 (str "*")], Tree.tok 55 (str "4")]

def phraseLe : List Nat := str "is less than or equal to"

def phraseLt : List Nat := str "is less than"

def digitB (c : Nat) : Bool := decide (48 ≤ c) && decide (c ≤ 57)

/-- The next character (if any) cannot continue a digit run. -/
def headNotDigit (rest : List Nat) : Prop :=
  ∀ c r2, rest = c :: r2 → digitB c = false

/-- The next character (if any) cannot continue a number token
(neither a digit nor a dot). -/
def headNotNum (rest : List Nat) : Prop :=
  ∀ c r2, rest = c :: r2 → digitB c = false ∧ ¬ c = 46

/-- Successor relation on parse states: the shift, shift-repeat and
goto targets of each state row, together with the shift-repeat targets
of fused entries placed at every goto target of the fused reduce
symbol (the state a SHIFT_REPEAT lands on after its reduce). -/
def succsOf (st : Nat) : List Nat := succTbl.getD st []

def succsNth : Nat → List Nat → List Nat
  | 0, s => s
  | Nat.succ d, s => (succsNth d s).flatMap succsOf

/-- Adjacent stack cells respect the successor relation. -/
def adjOK : List (Nat × Tree) → Bool
  | [] => true
  | [_] => true
  | a :: b :: rest => (succsOf b.1).contains a.1 && adjOK (b :: rest)

/-- A cell whose tree is rooted at step_clauses sits at one of its
goto targets (68, 69); one rooted at a clause symbol or the clause
repetition wrapper sits at 38 or 39. -/
def rootClassOK (p : Nat × Tree) : Bool :=
  (!(p.2.symb == 98) || (p.1 == 68 || p.1 == 69)) &&
  (!(isClauseSym p.2.symb) || (p.1 == 38 || p.1 == 39))

def stkOK (l : List (Nat × Tree)) : Bool :=
  l.all (fun p => cOK p.2 && rootClassOK p) && adjOK l

def toknOK : Option (Nat × List Nat × List Nat) → Bool
  | none => true
  | some (sym, _, _) => decide (sym < 87)

def cfgOK (c : Cfg) : Bool := stkOK c.stk && toknOK c.tokn

/-- The action entry shapes the generated tables use. -/
def shapeOK : List PAct → Bool
  | [] => true
  | [PAct.sh _] => true
  | [PAct.re _ _] => true
  | [PAct.re _ _, PAct.shr _] => true
  | [PAct.acc] => true
  | [PAct.rcv] => true
  | _ => false

/-- The (reduce symbol, shift-repeat target) pairs of all fused
entries in the action table. -/
def fusedPairs : List (Nat × Nat) := [(137, 25), (137, 32), (137, 45), (137, 55), (137, 58), (137, 77), (137, 95), (137, 98), (137, 105), (137, 107), (137, 109), (137, 112), (137, 113), (137, 127), (137, 128), (137, 135), (137, 136), (137, 139), (137, 140), (137, 141), (137, 143), (138, 116), (139, 119), (139, 125), (139, 148), (140, 126), (141, 111), (142, 93), (143, 123)]

/-- Per-row table check: shift and goto targets are successors; the
nonterminals 98 (step_clauses), 99-101 (clauses) and 139 (their
wrapper) are keyed only to their class goto targets and never to
action cells; fused entries are registered in fusedPairs. -/
def rowCellOK (st : Nat) (p : Cell × List Nat) : Bool :=
  match p.1 with
  | Cell.S g =>
    (succsOf st).contains g &&
    (!(p.2.contains 98) || (g == 68 || g == 69)) &&
    (!(p.2.any isClauseSym) || (g == 38 || g == 39))
  | Cell.A i =>
    !(p.2.contains 98) && !(p.2.any isClauseSym) &&
    ((actsOf i).all (fun a => match a with
      | PAct.sh n => (succsOf st).contains n
      | PAct.shr n => (succsOf st).contains n
      | _ => true)) &&
    (match actsOf i with
     | [PAct.re sym _, PAct.shr x] => fusedPairs.contains (sym, x)
     | _ => true)

def rowsOKb : Bool := (List.range 151).all (fun st => (rowOf st).all (rowCellOK st))

/-- Every registered fused pair lands its shift-repeat target in the
successors of every goto target of its reduce symbol. -/
def fusedOKb : Bool := fusedPairs.all (fun pr =>
  (List.range 151).all (fun b => (rowOf b).all (fun p =>
    match p.1 with
    | Cell.S g => !(p.2.contains pr.1) || (succsOf g).contains pr.2
    | Cell.A _ => true)))

def hcChainb : Bool := (List.range 7).all (fun d =>
  (hcTbl.getD d []).all (fun t =>
    (succsOf t).all (fun u => (hcTbl.getD (d + 1) []).contains u)))

def h68Chainb : Bool := (List.range 7).all (fun d =>
  (h68Tbl.getD d []).all (fun t =>
    (succsOf t).all (fun u => (h68Tbl.getD (d + 1) []).contains u)))

/-- Reduces found at state t popping through depth d produce only the
allowed symbols. -/
def redsAtOK (allowed : List Nat) (d t : Nat) : Bool :=
  (rowOf t).all (fun p => match p.1 with
    | Cell.A i => (actsOf i).all (fun a => match a with
      | PAct.re sym n => !(decide (d + 1 ≤ n)) || allowed.contains sym
      | _ => true)
    | Cell.S _ => true)

def hcRedb : Bool :=
  (List.range 8).all (fun d => (hcTbl.getD d []).all (redsAtOK [98, 139] d))

def h68Redb : Bool :=
  (List.range 8).all (fun d => (h68Tbl.getD d []).all (redsAtOK [96, 97] d))

set_option maxRecDepth 1000000

/-- C1.  Counterexample to the claim as stated: on the input
`building: Foo` / `floor: Bar` / `building: Baz` the parse succeeds,
but the Floor node is a top-level sibling of the two Building nodes,
not a child of the first Building — the first building_def node has
zero floor_def children (the claim asserts exactly one).  Structure
headers open no scope in this grammar. -/
theorem c1_counterexample :
    parseTree c1src = some c1tree ∧
    flatten c1tree = c1flat ∧
    ¬ countSym symFloorDef (kid 0 (kid 0 c1flat)).kids = 1 :=
  ⟨rfl, rfl, by decide⟩

/-- C1 (amended).  The three definitions parse to three top-level
sibling structure_definition nodes — Building(Foo), Floor(Bar),
Building(Baz) in that order; the first Building contains only its
keyword and name tokens (no Floor child, no statements), because
structure definitions are flat headers and open no implicit scope. -/
theorem c1_flat_siblings :
    parseTree c1src = some c1tree ∧
    flatten c1tree = c1flat ∧
    countSym symBuildingDef (c1flat.kids.map (kid 0)) = 2 ∧
    countSym symFloorDef (c1flat.kids.map (kid 0)) = 1 ∧
    (kid 0 (kid 0 c1flat)).kids =
      [Tree.tok 16 (str "building:"), Tree.tok symIdentifier (str "Foo")] :=
  ⟨rfl, rfl, by decide, by decide, rfl⟩

/-- C2.  Counterexample to the claim as stated: `2 + 3 * 4` parses
with `*` at the top — Binary(*, Binary(+, 2, 3), 4), exactly the tree
the claim says can never occur; the top operator is `*`, not `+`. -/
theorem c2_counterexample :
    parseTree c2src = some c2tree ∧
    kid 1 (kid 0 (kid 0 c2tree)) = c2expr ∧
    (kid 0 (kid 1 c2expr)).symb = symStar ∧
    ¬ (kid 0 (kid 1 c2expr)).symb = symPlus :=
  ⟨rfl, rfl, rfl, by decide⟩

/-- C2 (amended).  All binary operators sit in a single flat
left-associative tier (the grammar has one binary_expression rule over
one binary_operator nonterminal, and the tables always prefer the
reduce): `2 + 3 * 4` parses to Binary(*, Binary(+, 2, 3), 4). -/
theorem c2_flat_left_assoc :
    parseTree c2src = some c2tree ∧
    kid 1 (kid 0 (kid 0 c2tree)) = c2expr :=
  ⟨rfl, rfl⟩

/-- C3.  Counterexample to the claim as stated: the spelling `x = 5`
is not accepted as a statement (an identifier token cannot even start
a statement, so the parse fails), while `set x to 5` is accepted. -/
theorem c3_counterexample :
    parseTree "x = 5\n" = none ∧ parseTree c3src = some c3tree :=
  ⟨rfl, rfl⟩

/-- C3 (amended).  Assignment has the single spelling
`set IDENT to EXPR`, producing a four-child assignment node
[set, identifier, to, expression]; the spelling `IDENT = EXPR` is not
accepted in statement position (e.g. `x = 5` fails to parse). -/
theorem c3_set_spelling_only :
    parseTree c3src = some c3tree ∧
    kid 0 (kid 0 c3tree) =
      Tree.nd symAssignment
        [Tree.tok 32 (str "set"), Tree.tok symIdentifier (str "x"),
         Tree.tok 33 (str "to"), Tree.tok symNumberTok (str "5")] ∧
    parseTree "x = 5\n" = none :=
  ⟨rfl, rfl, rfl⟩

/-- C4.  Unary binds tighter than the binary tier: `not a is equal to b`
parses as Binary(is_equal_to, Unary(not, a), b) — the `not` applies to
`a` alone. -/
theorem c4_unary_binds_tighter :
    parseTree c4src = some c4tree ∧
    kid 1 (kid 0 (kid 0 c4tree)) =
      Tree.nd symBinaryExpression
        [Tree.nd symUnaryExpression
          [Tree.nd symUnaryOperator [Tree.tok symNot (str "not")],
           Tree.tok symIdentifier (str "a")],
         Tree.nd symBinaryOperator [Tree.tok symIsEqualTo (str "is equal to")],
         Tree.tok symIdentifier (str "b")] :=
  ⟨rfl, rfl⟩

/-- C5.  Counterexample to the claim as stated: a riser definition also
carries a clauses node — `riser: Foo belongs to: Bar` parses with a
step_clauses child inside the riser_def node, so clauses are not
exclusive to Step definitions. -/
theorem c5_counterexample :
    parseTree c5src = some c5tree ∧
    flatten c5tree = c5flat ∧
    (kid 0 (kid 0 c5flat)).symb = symRiserDef ∧
    countSym symStepClauses (kid 0 (kid 0 c5flat)).kids = 1 :=
  ⟨rfl, rfl, rfl, by decide⟩

/-- C10.  The grammar reserves the statement form `do:`: the line
parses cleanly (no diagnostics) to a top-level section_marker node,
and no identifier token occurs anywhere in the tree, so `do` followed
by `:` is never read as an identifier in statement position. -/
theorem c10_do_section_marker :
    parseStr c10src = Step.done c10tree ∧
    parseRecover c10src = (c10tree, []) ∧
    kid 0 (kid 0 c10tree) =
      Tree.nd symSectionMarker [Tree.tok symDoColon (str "do:")] ∧
    hasSym symIdentifier c10tree = false :=
  ⟨rfl, rfl, rfl, by decide⟩

theorem prunNotCont : ∀ fuel c c2, ¬ prun fuel c = Step.cont c2 := by
  intro fuel
  induction fuel with
  | zero => intro c c2 h; exact Step.noConfusion h
  | succ n ih =>
    intro c c2 h
    unfold prun at h
    cases hp : pstep c with
    | cont cx => rw [hp] at h; exact ih cx c2 h
    | done t => rw [hp] at h; exact Step.noConfusion h
    | fail r => rw [hp] at h; exact Step.noConfusion h

/-- C6.  The parse entry point (modelled from the spec, since the
recovery wrapper lives in the tree-sitter runtime, outside src/) is a
total function returning a Program tree and a diagnostics list; the
diagnostics list is empty exactly when the input is a well-formed
Steps program (the clean LR parse succeeds), and on a well-formed
input the returned Program is the clean parse tree.  Malformed input
therefore always yields a non-empty diagnostics list, never an absent
result. -/
theorem c6_total_parse_diagnostics (s : String) :
    ((parseRecover s).2 = [] ↔ wellFormed s) ∧
    (∀ t, parseTree s = some t → parseRecover s = (t, [])) := by
  constructor
  · cases h : parseCodes (str s) with
    | done t =>
      simp [parseRecover, wellFormed, parseTree, parseStr, h]
    | cont c => exact absurd h (prunNotCont _ _ c)
    | fail r =>
      simp [parseRecover, wellFormed, parseTree, parseStr, h]
  · intro t ht
    unfold parseTree parseStr at ht
    cases h : parseCodes (str s) with
    | done t2 =>
      rw [h] at ht
      cases ht
      simp [parseRecover, h]
    | cont c => exact absurd h (prunNotCont _ _ c)
    | fail r => rw [h] at ht; exact Option.noConfusion ht

theorem c6_witness :
    (parseRecover "do:\n").2 = [] ∧ parseRecover "do:\n" = (c10tree, []) :=
  ⟨(c6_total_parse_diagnostics "do:\n").1.mpr (by rfl),
   (c6_total_parse_diagnostics "do:\n").2 c10tree (by rfl)⟩

theorem lexGoDead (tbl : List (Option Nat × List LC)) (fuel st : Nat)
    (inp accRev : List Nat) (best : Option (Nat × List Nat × List Nat))
    (acc : Option Nat) (cs : List LC)
    (hrow : tbl.getD st (none, []) = (acc, cs))
    (hfc : firstCase cs inp.head? = none) :
    lexGo tbl (Nat.succ fuel) st inp accRev best =
      match acc with
      | some tok => some (tok, accRev, inp)
      | none => best := by
  simp only [List.getD_eq_getElem?_getD] at hrow
  unfold lexGo
  cases acc with
  | some tok => simp [hrow, hfc]
  | none => simp [hrow, hfc]

theorem row253 :
    lexTbl.getD 253 (none, []) =
      (none, [tE 34 444, tE 92 444, tE 110 444, tE 114 444, tE 116 444]) := by
  rfl

theorem row453 : lexTbl.getD 453 (none, []) = (some 71, [tE 32 168]) := by
  rfl

/-- C7.  String escapes: inside string content (lex state 20), a
backslash followed by one of the five characters double-quote,
backslash, n, r, t lexes as a single two-character escape_sequence
token (symbol 58), and a backslash followed by any other character is
a lexical error (the lexer produces no token, so the character is
never silently accepted as content).  At the parse level,
`display "a\nb"` parses and `display "a\qb"` is rejected. -/
theorem c7_escape_set :
    (∀ c rest, c ∈ [34, 92, 110, 114, 116] →
      lexTokT lexTbl 20 (92 :: c :: rest) = some (58, [92, c], rest)) ∧
    (∀ c rest, ¬ c ∈ [34, 92, 110, 114, 116] →
      lexTokT lexTbl 20 (92 :: c :: rest) = none) ∧
    parseTree c7src = some c7tree ∧
    parseTree "display \"a\\qb\"\n" = none := by
  refine ⟨?_, ?_, rfl, rfl⟩
  · intro c rest h
    fin_cases h <;> rfl
  · intro c rest h
    simp only [List.mem_cons, List.not_mem_nil, or_false, not_or] at h
    obtain ⟨h1, h2, h3, h4, h5⟩ := h
    have b1 : (34 == c) = false := beq_eq_false_iff_ne.mpr (Ne.symm h1)
    have b2 : (92 == c) = false := beq_eq_false_iff_ne.mpr (Ne.symm h2)
    have b3 : (110 == c) = false := beq_eq_false_iff_ne.mpr (Ne.symm h3)
    have b4 : (114 == c) = false := beq_eq_false_iff_ne.mpr (Ne.symm h4)
    have b5 : (116 == c) = false := beq_eq_false_iff_ne.mpr (Ne.symm h5)
    have fc : firstCase [tE 34 444, tE 92 444, tE 110 444, tE 114 444, tE 116 444]
        (some c) = none := by
      simp [firstCase, amatch, tE, b1, b2, b3, b4, b5]
    have e1 : lexTokT lexTbl 20 (92 :: c :: rest) =
        match lexGo lexTbl (rest.length + 9) 253 (c :: rest) [92] none with
        | some (t, a, r) => some (t, a.reverse, r)
        | none => none := rfl
    have e2 : lexGo lexTbl (rest.length + 9) 253 (c :: rest) [92] none = none :=
      lexGoDead lexTbl (rest.length + 8) 253 (c :: rest) [92] none none _ row253 fc
    rw [e1, e2]

theorem c7_escape_witness :
    lexTokT lexTbl 20 [92, 110] = some (58, [92, 110], []) ∧
    lexTokT lexTbl 20 [92, 113] = none :=
  ⟨c7_escape_set.1 110 [] (by decide), c7_escape_set.2.1 113 [] (by decide)⟩

/-- C9.  Longest-match multi-word keywords, at the operator position
lex state (261): the full phrase `is less than or equal to` always
lexes as the single long token (symbol 73) no matter what follows,
while `is less than` followed by anything that cannot extend the
phrase (any character other than a space, or end of input) lexes as
the short token (symbol 71); when a longer extension is started but
fails to complete (`is less than or bananas`), the lexer falls back to
the short token, leaving the rest unconsumed.  The two parse-level
examples show the tokens chosen inside full statements. -/
theorem c9_longest_match :
    (∀ rest, lexTokT lexTbl 261 (phraseLe ++ rest) = some (73, phraseLe, rest)) ∧
    (∀ rest, (∀ c rest2, rest = c :: rest2 → ¬ c = 32) →
      lexTokT lexTbl 261 (phraseLt ++ rest) = some (71, phraseLt, rest)) ∧
    parseTree c9asrc = some c9atree ∧
    parseTree c9bsrc = some c9btree ∧
    lexTokT lexTbl 261 (str "is less than or bananas") =
      some (71, phraseLt, str " or bananas") := by
  refine ⟨?_, ?_, rfl, rfl, rfl⟩
  · intro rest
    rfl
  · intro rest h
    have e1 : lexTokT lexTbl 261 (phraseLt ++ rest) =
        match lexGo lexTbl (rest.length + 8) 453 rest phraseLt.reverse none with
        | some (t, a, r) => some (t, a.reverse, r)
        | none => none := rfl
    have fc : firstCase [tE 32 168] rest.head? = none := by
      cases rest with
      | nil => rfl
      | cons c rest2 =>
        have hc : ¬ c = 32 := h c rest2 rfl
        have b1 : (32 == c) = false := beq_eq_false_iff_ne.mpr (Ne.symm hc)
        simp [firstCase, amatch, tE, b1]
    have e2 : lexGo lexTbl (rest.length + 8) 453 rest phraseLt.reverse none =
        some (71, phraseLt.reverse, rest) :=
      lexGoDead lexTbl (rest.length + 7) 453 rest phraseLt.reverse none
        (some 71) _ row453 fc
    rw [e1, e2]
    rfl

theorem c9_witness :
    lexTokT lexTbl 261 (phraseLt ++ str "!") = some (71, phraseLt, str "!") :=
  c9_longest_match.2.1 (str "!") (by intro c rest2 hc; cases hc; decide)

theorem lexGoAdv (tbl : List (Option Nat × List LC)) (fuel st c : Nat)
    (inp2 accRev : List Nat) (best : Option (Nat × List Nat × List Nat))
    (acc : Option Nat) (cs : List LC) (tgt : Nat)
    (hrow : tbl.getD st (none, []) = (acc, cs))
    (hfc : firstCase cs (some c) = some (tgt, false)) :
    lexGo tbl (Nat.succ fuel) st (c :: inp2) accRev best =
      lexGo tbl fuel tgt inp2 (c :: accRev)
        (match acc with
         | some tok => some (tok, accRev, c :: inp2)
         | none => best) := by
  simp only [List.getD_eq_getElem?_getD] at hrow
  conv_lhs => unfold lexGo
  cases acc <;> simp [hrow, hfc]

theorem row19 :
    lexTbl.getD 19 (none, []) =
      (none, [tE 34 441, tE 40 462, tE 45 254, tE 91 445, tE 93 446,
              tE 99 485, tE 108 505, tK 9 19, tK 32 19, tR 48 57 439,
              tR 65 90 610, tE 95 610, tR 97 122 610]) := by
  rfl

theorem row254 : lexTbl.getD 254 (none, []) = (none, [tR 48 57 439]) := by
  rfl

theorem row255 : lexTbl.getD 255 (none, []) = (none, [tR 48 57 440]) := by
  rfl

theorem row439 :
    lexTbl.getD 439 (none, []) = (some 55, [tE 46 255, tR 48 57 439]) := by
  rfl

theorem row440 : lexTbl.getD 440 (none, []) = (some 55, [tR 48 57 440]) := by
  rfl

theorem fcDigit439 (d : Nat) (hd : digitB d = true) :
    firstCase [tE 46 255, tR 48 57 439] (some d) = some (439, false) := by
  simp only [digitB, Bool.and_eq_true, decide_eq_true_eq] at hd
  have b1 : (46 == d) = false := beq_eq_false_iff_ne.mpr (by omega)
  simp [firstCase, amatch, tE, tR, b1, hd]

theorem fcDigit440 (d : Nat) (hd : digitB d = true) :
    firstCase [tR 48 57 440] (some d) = some (440, false) := by
  simp only [digitB, Bool.and_eq_true, decide_eq_true_eq] at hd
  simp [firstCase, amatch, tR, hd]

theorem fcNoDigit (tgt : Nat) (rest : List Nat) (h : headNotDigit rest) :
    firstCase [tR 48 57 tgt] rest.head? = none := by
  cases rest with
  | nil => rfl
  | cons c r2 =>
    have hc := h c r2 rfl
    simp only [digitB, Bool.and_eq_false_iff, decide_eq_false_iff_not] at hc
    simp only [List.head?_cons, firstCase, amatch, tR]
    rcases hc with hc | hc
    · rw [if_neg]
      simp [decide_eq_false_iff_not.mpr hc]
    · rw [if_neg]
      intro hx
      simp only [Bool.and_eq_true, decide_eq_true_eq] at hx
      exact hc hx.2

/-- Digit loop at state 440 (fraction digits): consumes a digit run and
ends the number token at its last digit. -/
theorem go440 : ∀ ds rest accRev best fuel,
    ds.all digitB = true → headNotDigit rest → ds.length + 1 ≤ fuel →
    lexGo lexTbl fuel 440 (ds ++ rest) accRev best =
      some (55, ds.reverse ++ accRev, rest) := by
  intro ds
  induction ds with
  | nil =>
    intro rest accRev best fuel _ hrest hF
    cases fuel with
    | zero => exact absurd hF (by omega)
    | succ f =>
      have := lexGoDead lexTbl f 440 rest accRev best (some 55) _ row440
        (fcNoDigit 440 rest hrest)
      simpa using this
  | cons d ds2 ih =>
    intro rest accRev best fuel hall hrest hF
    simp only [List.all_cons, Bool.and_eq_true] at hall
    cases fuel with
    | zero => exact absurd hF (by omega)
    | succ f =>
      have hstep := lexGoAdv lexTbl f 440 d (ds2 ++ rest) accRev best (some 55)
        _ 440 row440 (fcDigit440 d hall.1)
      rw [List.cons_append, hstep,
        ih rest (d :: accRev) _ f hall.2 hrest (by simp at hF; omega)]
      simp [List.reverse_cons, List.append_assoc]

theorem fcNoNum (rest : List Nat) (h : headNotNum rest) :
    firstCase [tE 46 255, tR 48 57 439] rest.head? = none := by
  cases rest with
  | nil => rfl
  | cons c r2 =>
    obtain ⟨hd, hdot⟩ := h c r2 rfl
    simp only [digitB, Bool.and_eq_false_iff, decide_eq_false_iff_not] at hd
    have b1 : (46 == c) = false := beq_eq_false_iff_ne.mpr (Ne.symm hdot)
    simp only [List.head?_cons, firstCase, amatch, tE, tR, b1]
    rw [if_neg (by simp), if_neg]
    intro hx
    simp only [Bool.and_eq_true, decide_eq_true_eq] at hx
    rcases hd with hc | hc
    · exact hc hx.1
    · exact hc hx.2

theorem fcDot439 : firstCase [tE 46 255, tR 48 57 439] (some 46) =
    some (255, false) := by
  simp [firstCase, amatch, tE]

theorem fcDigit19 (d : Nat) (hd : digitB d = true) :
    firstCase [tE 34 441, tE 40 462, tE 45 254, tE 91 445, tE 93 446,
               tE 99 485, tE 108 505, tK 9 19, tK 32 19, tR 48 57 439,
               tR 65 90 610, tE 95 610, tR 97 122 610] (some d) =
      some (439, false) := by
  simp only [digitB, Bool.and_eq_true, decide_eq_true_eq] at hd
  have b1 : (34 == d) = false := beq_eq_false_iff_ne.mpr (by omega)
  have b2 : (40 == d) = false := beq_eq_false_iff_ne.mpr (by omega)
  have b3 : (45 == d) = false := beq_eq_false_iff_ne.mpr (by omega)
  have b4 : (91 == d) = false := beq_eq_false_iff_ne.mpr (by omega)
  have b5 : (93 == d) = false := beq_eq_false_iff_ne.mpr (by omega)
  have b6 : (99 == d) = false := beq_eq_false_iff_ne.mpr (by omega)
  have b7 : (108 == d) = false := beq_eq_false_iff_ne.mpr (by omega)
  have b8 : (9 == d) = false := beq_eq_false_iff_ne.mpr (by omega)
  have b9 : (32 == d) = false := beq_eq_false_iff_ne.mpr (by omega)
  simp [firstCase, amatch, tE, tK, tR, b1, b2, b3, b4, b5, b6, b7, b8, b9, hd]

theorem fcMinus19 :
    firstCase [tE 34 441, tE 40 462, tE 45 254, tE 91 445, tE 93 446,
               tE 99 485, tE 108 505, tK 9 19, tK 32 19, tR 48 57 439,
               tR 65 90 610, tE 95 610, tR 97 122 610] (some 45) =
      some (254, false) := by
  simp [firstCase, amatch, tE]

theorem fcDigit254 (d : Nat) (hd : digitB d = true) :
    firstCase [tR 48 57 439] (some d) = some (439, false) := by
  simp only [digitB, Bool.and_eq_true, decide_eq_true_eq] at hd
  simp [firstCase, amatch, tR, hd]

/-- Digit loop at state 439 (integer digits): consumes a digit run and
ends the token at its last digit when the next character is neither a
digit nor a dot. -/
theorem go439 : ∀ ds rest accRev best fuel,
    ds.all digitB = true → headNotNum rest → ds.length + 1 ≤ fuel →
    lexGo lexTbl fuel 439 (ds ++ rest) accRev best =
      some (55, ds.reverse ++ accRev, rest) := by
  intro ds
  induction ds with
  | nil =>
    intro rest accRev best fuel _ hrest hF
    cases fuel with
    | zero => exact absurd hF (by omega)
    | succ f =>
      have := lexGoDead lexTbl f 439 rest accRev best (some 55) _ row439
        (fcNoNum rest hrest)
      simpa using this
  | cons d ds2 ih =>
    intro rest accRev best fuel hall hrest hF
    simp only [List.all_cons, Bool.and_eq_true] at hall
    cases fuel with
    | zero => exact absurd hF (by omega)
    | succ f =>
      have hstep := lexGoAdv lexTbl f 439 d (ds2 ++ rest) accRev best (some 55)
        _ 439 row439 (fcDigit439 d hall.1)
      rw [List.cons_append, hstep,
        ih rest (d :: accRev) _ f hall.2 hrest (by simp at hF; omega)]
      simp [List.reverse_cons, List.append_assoc]

/-- Dot not followed by a digit: the number token ends at the last
digit before the dot, which stays unconsumed. -/
theorem go439dot : ∀ ds rest2 accRev best fuel,
    ds.all digitB = true → headNotDigit rest2 → ds.length + 2 ≤ fuel →
    lexGo lexTbl fuel 439 (ds ++ 46 :: rest2) accRev best =
      some (55, ds.reverse ++ accRev, 46 :: rest2) := by
  intro ds
  induction ds with
  | nil =>
    intro rest2 accRev best fuel _ hrest hF
    cases fuel with
    | zero => exact absurd hF (by omega)
    | succ f =>
      cases f with
      | zero => exact absurd hF (by omega)
      | succ f2 =>
        have h1 := lexGoAdv lexTbl (Nat.succ f2) 439 46 rest2 accRev best
          (some 55) _ 255 row439 fcDot439
        have h2 := lexGoDead lexTbl f2 255 rest2 (46 :: accRev)
          (some (55, accRev, 46 :: rest2)) none _ row255
          (fcNoDigit 440 rest2 hrest)
        simp only [List.nil_append]
        rw [h1, h2]
        rfl
  | cons d ds2 ih =>
    intro rest2 accRev best fuel hall hrest hF
    simp only [List.all_cons, Bool.and_eq_true] at hall
    cases fuel with
    | zero => exact absurd hF (by omega)
    | succ f =>
      have hstep := lexGoAdv lexTbl f 439 d (ds2 ++ 46 :: rest2) accRev best
        (some 55) _ 439 row439 (fcDigit439 d hall.1)
      rw [List.cons_append, hstep,
        ih rest2 (d :: accRev) _ f hall.2 hrest (by simp at hF; omega)]
      simp [List.reverse_cons, List.append_assoc]

/-- Dot followed by digits: the number token continues through the
fraction digits and ends at the last one. -/
theorem go439full : ∀ ds1 d2 ds2 rest accRev best fuel,
    ds1.all digitB = true → digitB d2 = true → ds2.all digitB = true →
    headNotDigit rest → ds1.length + ds2.length + 3 ≤ fuel →
    lexGo lexTbl fuel 439 (ds1 ++ 46 :: d2 :: (ds2 ++ rest)) accRev best =
      some (55, ds2.reverse ++ d2 :: 46 :: ds1.reverse ++ accRev, rest) := by
  intro ds1
  induction ds1 with
  | nil =>
    intro d2 ds2 rest accRev best fuel _ hd2 hall2 hrest hF
    cases fuel with
    | zero => exact absurd hF (by omega)
    | succ f =>
      cases f with
      | zero => exact absurd hF (by omega)
      | succ f2 =>
        have h1 := lexGoAdv lexTbl (Nat.succ f2) 439 46 (d2 :: (ds2 ++ rest))
          accRev best (some 55) _ 255 row439 fcDot439
        have h2 := lexGoAdv lexTbl f2 255 d2 (ds2 ++ rest) (46 :: accRev)
          (some (55, accRev, 46 :: d2 :: (ds2 ++ rest))) none _ 440 row255
          (fcDigit440 d2 hd2)
        simp only [List.nil_append]
        rw [h1, h2, go440 ds2 rest (d2 :: 46 :: accRev) _ f2 hall2 hrest
          (by simp at hF; omega)]
        simp [List.append_assoc]
  | cons d ds1b ih =>
    intro d2 ds2 rest accRev best fuel hall hd2 hall2 hrest hF
    simp only [List.all_cons, Bool.and_eq_true] at hall
    cases fuel with
    | zero => exact absurd hF (by omega)
    | succ f =>
      have hstep := lexGoAdv lexTbl f 439 d (ds1b ++ 46 :: d2 :: (ds2 ++ rest))
        accRev best (some 55) _ 439 row439 (fcDigit439 d hall.1)
      rw [List.cons_append, hstep,
        ih d2 ds2 rest (d :: accRev) _ f hall.2 hd2 hall2 hrest
          (by simp at hF; omega)]
      simp [List.reverse_cons, List.append_assoc]

theorem lex19digits (d : Nat) (ds rest : List Nat)
    (hd : digitB d = true) (hall : ds.all digitB = true)
    (hrest : headNotNum rest) :
    lexTokT lexTbl 19 (d :: (ds ++ rest)) = some (55, d :: ds, rest) := by
  have e1 : lexTokT lexTbl 19 (d :: (ds ++ rest)) =
      match lexGo lexTbl (Nat.succ ((ds ++ rest).length + 8)) 19
          (d :: (ds ++ rest)) [] none with
      | some (t, a, r) => some (t, a.reverse, r)
      | none => none := rfl
  rw [e1, lexGoAdv lexTbl ((ds ++ rest).length + 8) 19 d (ds ++ rest) [] none
      none _ 439 row19 (fcDigit19 d hd),
    go439 ds rest [d] _ ((ds ++ rest).length + 8) hall hrest (by simp; omega)]
  simp

theorem lex19dot (d : Nat) (ds rest : List Nat)
    (hd : digitB d = true) (hall : ds.all digitB = true)
    (hrest : headNotDigit rest) :
    lexTokT lexTbl 19 (d :: (ds ++ 46 :: rest)) =
      some (55, d :: ds, 46 :: rest) := by
  have e1 : lexTokT lexTbl 19 (d :: (ds ++ 46 :: rest)) =
      match lexGo lexTbl (Nat.succ ((ds ++ 46 :: rest).length + 8)) 19
          (d :: (ds ++ 46 :: rest)) [] none with
      | some (t, a, r) => some (t, a.reverse, r)
      | none => none := rfl
  rw [e1, lexGoAdv lexTbl ((ds ++ 46 :: rest).length + 8) 19 d
      (ds ++ 46 :: rest) [] none none _ 439 row19 (fcDigit19 d hd),
    go439dot ds rest [d] _ ((ds ++ 46 :: rest).length + 8) hall hrest
      (by simp; omega)]
  simp

theorem lex19full (d1 : Nat) (ds1 : List Nat) (d2 : Nat) (ds2 rest : List Nat)
    (hd1 : digitB d1 = true) (hall1 : ds1.all digitB = true)
    (hd2 : digitB d2 = true) (hall2 : ds2.all digitB = true)
    (hrest : headNotDigit rest) :
    lexTokT lexTbl 19 (d1 :: (ds1 ++ 46 :: d2 :: (ds2 ++ rest))) =
      some (55, d1 :: ds1 ++ 46 :: d2 :: ds2, rest) := by
  have e1 : lexTokT lexTbl 19 (d1 :: (ds1 ++ 46 :: d2 :: (ds2 ++ rest))) =
      match lexGo lexTbl
          (Nat.succ ((ds1 ++ 46 :: d2 :: (ds2 ++ rest)).length + 8)) 19
          (d1 :: (ds1 ++ 46 :: d2 :: (ds2 ++ rest))) [] none with
      | some (t, a, r) => some (t, a.reverse, r)
      | none => none := rfl
  rw [e1, lexGoAdv lexTbl ((ds1 ++ 46 :: d2 :: (ds2 ++ rest)).length + 8) 19 d1
      (ds1 ++ 46 :: d2 :: (ds2 ++ rest)) [] none none _ 439 row19
      (fcDigit19 d1 hd1),
    go439full ds1 d2 ds2 rest [d1] _
      ((ds1 ++ 46 :: d2 :: (ds2 ++ rest)).length + 8) hall1 hd2 hall2 hrest
      (by simp; omega)]
  simp [List.append_assoc]

theorem lex19minus (d : Nat) (ds rest : List Nat)
    (hd : digitB d = true) (hall : ds.all digitB = true)
    (hrest : headNotNum rest) :
    lexTokT lexTbl 19 (45 :: d :: (ds ++ rest)) =
      some (55, 45 :: d :: ds, rest) := by
  have e1 : lexTokT lexTbl 19 (45 :: d :: (ds ++ rest)) =
      match lexGo lexTbl (Nat.succ (Nat.succ ((ds ++ rest).length + 8))) 19
          (45 :: d :: (ds ++ rest)) [] none with
      | some (t, a, r) => some (t, a.reverse, r)
      | none => none := rfl
  rw [e1, lexGoAdv lexTbl (Nat.succ ((ds ++ rest).length + 8)) 19 45
      (d :: (ds ++ rest)) [] none none _ 254 row19 fcMinus19,
    lexGoAdv lexTbl ((ds ++ rest).length + 8) 254 d (ds ++ rest) [45] _
      none _ 439 row254 (fcDigit254 d hd),
    go439 ds rest [d, 45] _ ((ds ++ rest).length + 8) hall hrest
      (by simp; omega)]
  simp

/-- C8.  Counterexample to the claim as stated: in expression position
(lex state 19) a leading minus sign is consumed into the number token —
the text `-5` lexes as a single number token whose text is not a
non-empty digit sequence, and `display -5` parses with that token. -/
theorem c8_counterexample :
    lexTokT lexTbl 19 (str "-5") = some (55, str "-5", []) ∧
    parseTree c8src = some c8tree ∧
    ¬ (str "-5").all digitB = true :=
  ⟨rfl, rfl, by decide⟩

/-- C8 (amended).  A number token in expression position is an
optional leading minus, then a non-empty digit sequence, optionally
followed by a dot and at least one more digit; there is no exponent
form (a following letter such as e ends the token, by the first
conjunct); and a dot not followed by a digit is left unconsumed, the
token ending at the last digit — concretely, `5.` lexes the number `5`
and leaves the dot, which the parser then rejects as a lexical
error. -/
theorem c8_number_shape :
    (∀ d ds rest, digitB d = true → ds.all digitB = true → headNotNum rest →
      lexTokT lexTbl 19 (d :: (ds ++ rest)) = some (55, d :: ds, rest)) ∧
    (∀ d ds rest, digitB d = true → ds.all digitB = true →
      headNotDigit rest →
      lexTokT lexTbl 19 (d :: (ds ++ 46 :: rest)) =
        some (55, d :: ds, 46 :: rest)) ∧
    (∀ d1 ds1 d2 ds2 rest, digitB d1 = true → ds1.all digitB = true →
      digitB d2 = true → ds2.all digitB = true → headNotDigit rest →
      lexTokT lexTbl 19 (d1 :: (ds1 ++ 46 :: d2 :: (ds2 ++ rest))) =
        some (55, d1 :: ds1 ++ 46 :: d2 :: ds2, rest)) ∧
    (∀ d ds rest, digitB d = true → ds.all digitB = true → headNotNum rest →
      lexTokT lexTbl 19 (45 :: d :: (ds ++ rest)) =
        some (55, 45 :: d :: ds, rest)) ∧
    lexTokT lexTbl 19 (str "5.") = some (55, str "5", str ".") ∧
    parseTree "display 5.\n" = none :=
  ⟨fun d ds rest hd hall hrest => lex19digits d ds rest hd hall hrest,
   fun d ds rest hd hall hrest => lex19dot d ds rest hd hall hrest,
   fun d1 ds1 d2 ds2 rest h1 h2 h3 h4 h5 =>
     lex19full d1 ds1 d2 ds2 rest h1 h2 h3 h4 h5,
   fun d ds rest hd hall hrest => lex19minus d ds rest hd hall hrest,
   rfl, rfl⟩

theorem c8_witness :
    lexTokT lexTbl 19 [53, 43] = some (55, [53], [43]) ∧
    lexTokT lexTbl 19 [53, 101, 51] = some (55, [53], [101, 51]) ∧
    lexTokT lexTbl 19 [53, 46, 41] = some (55, [53], [46, 41]) ∧
    lexTokT lexTbl 19 [49, 50, 46, 51, 52, 41] =
      some (55, [49, 50, 46, 51, 52], [41]) ∧
    lexTokT lexTbl 19 [45, 55, 43] = some (55, [45, 55], [43]) :=
  ⟨c8_number_shape.1 53 [] [43] (by decide) (by decide)
     (by intro c r2 h; cases h; exact ⟨by decide, by decide⟩),
   c8_number_shape.1 53 [] [101, 51] (by decide) (by decide)
     (by intro c r2 h; cases h; exact ⟨by decide, by decide⟩),
   c8_number_shape.2.1 53 [] [41] (by decide) (by decide)
     (by intro c r2 h; cases h; decide),
   c8_number_shape.2.2.1 49 [50] 51 [52] [41] (by decide) (by decide)
     (by decide) (by decide) (by intro c r2 h; cases h; decide),
   c8_number_shape.2.2.2.1 55 [] [43] (by decide) (by decide)
     (by intro c r2 h; cases h; exact ⟨by decide, by decide⟩)⟩

theorem actShapes : actTbl.all (fun pr => shapeOK pr.2) = true := by decide

theorem redMax : actTbl.all (fun pr => pr.2.all (fun a => match a with
    | PAct.re _ n => decide (n ≤ 7)
    | _ => true)) = true := by decide

theorem lexLt87 : lexTbl.all (fun r => match r.1 with
    | some t => decide (t < 87)
    | none => true) = true := by decide

theorem kwLt87 : kwTbl.all (fun r => match r.1 with
    | some t => decide (t < 87)
    | none => true) = true := by decide

theorem rowsLen : rows.length = 151 := by rfl

theorem rowsOK : rowsOKb = true := by decide

theorem fusedFact : fusedOKb = true := by decide

theorem hcChain : hcChainb = true := by decide

theorem h68Chain : h68Chainb = true := by decide

theorem hcRed : hcRedb = true := by decide

theorem h68Red : h68Redb = true := by decide

theorem hcBase : hcTbl.getD 0 [] = [38, 39] := by rfl

theorem h68Base : h68Tbl.getD 0 [] = [68, 69] := by rfl

theorem containsMem {l : List Nat} {a : Nat} (h : l.contains a = true) :
    a ∈ l := by
  simpa using h

theorem memContains {l : List Nat} {a : Nat} (h : a ∈ l) :
    l.contains a = true := by
  simpa using h

theorem lexGoSucc (tbl : List (Option Nat × List LC)) (fuel st : Nat)
    (inp accRev : List Nat) (best : Option (Nat × List Nat × List Nat)) :
    lexGo tbl (Nat.succ fuel) st inp accRev best =
      (match firstCase (tbl.getD st (none, [])).2 inp.head? with
       | none =>
         match (tbl.getD st (none, [])).1 with
         | some tok => some (tok, accRev, inp)
         | none => best
       | some (tgt, skip) =>
         match inp with
         | [] => lexGo tbl fuel tgt [] accRev
             (match (tbl.getD st (none, [])).1 with
              | some tok => some (tok, accRev, inp)
              | none => best)
         | c :: rest =>
           if skip then lexGo tbl fuel tgt rest []
               (match (tbl.getD st (none, [])).1 with
                | some tok => some (tok, accRev, inp)
                | none => best)
           else lexGo tbl fuel tgt rest (c :: accRev)
               (match (tbl.getD st (none, [])).1 with
                | some tok => some (tok, accRev, inp)
                | none => best)) := rfl

theorem lexGoBound (tbl : List (Option Nat × List LC))
    (hb : tbl.all (fun r => match r.1 with
      | some t => decide (t < 87)
      | none => true) = true) :
    ∀ fuel st inp accRev best,
      (∀ t a r, best = some (t, a, r) → t < 87) →
      ∀ t a r, lexGo tbl fuel st inp accRev best = some (t, a, r) → t < 87 := by
  intro fuel
  induction fuel with
  | zero =>
    intro st inp accRev best hbest t a r h
    simp [lexGo] at h
  | succ f ih =>
    intro st inp accRev best hbest t a r h
    have hacc : ∀ tok, (tbl.getD st (none, [])).1 = some tok → tok < 87 := by
      intro tok htok
      by_cases hlt : st < tbl.length
      · have hmem : tbl.getD st (none, []) ∈ tbl := by
          rw [List.getD_eq_getElem tbl (none, []) hlt]
          exact List.getElem_mem hlt
        have := List.all_eq_true.mp hb _ hmem
        rw [htok] at this
        simpa using this
      · rw [List.getD_eq_default tbl (none, []) (by omega)] at htok
        exact Option.noConfusion htok
    have hbest2 : ∀ t a r,
        (match (tbl.getD st (none, [])).1 with
         | some tok => some (tok, accRev, inp)
         | none => best) = some (t, a, r) → t < 87 := by
      cases hc : (tbl.getD st (none, [])).1 with
      | some tok =>
        intro t a r he
        simp only [Option.some.injEq, Prod.mk.injEq] at he
        exact he.1 ▸ hacc tok hc
      | none => intro t a r he; exact hbest t a r he
    rw [lexGoSucc] at h
    cases hfc : firstCase (tbl.getD st (none, [])).2 inp.head? with
    | none =>
      rw [hfc] at h
      exact hbest2 t a r h
    | some pr =>
      obtain ⟨tgt, skip⟩ := pr
      rw [hfc] at h
      cases inp with
      | nil => exact ih tgt [] accRev _ hbest2 t a r h
      | cons cc rest =>
        cases skip with
        | true => exact ih tgt rest [] _ hbest2 t a r h
        | false => exact ih tgt rest (cc :: accRev) _ hbest2 t a r h

theorem lexTokLt (st : Nat) (inp : List Nat) (t : Nat) (a r : List Nat)
    (h : lexTokT lexTbl st inp = some (t, a, r)) : t < 87 := by
  unfold lexTokT at h
  cases hg : lexGo lexTbl (inp.length + 8) st inp [] none with
  | none => rw [hg] at h; exact Option.noConfusion h
  | some v =>
    obtain ⟨tv, av, rv⟩ := v
    rw [hg] at h
    simp only [Option.some.injEq, Prod.mk.injEq] at h
    exact h.1 ▸ lexGoBound lexTbl lexLt87 _ st inp [] none
      (fun _ _ _ he => Option.noConfusion he) tv av rv hg

theorem kwTokLt (inp : List Nat) (t : Nat) (a r : List Nat)
    (h : lexTokT kwTbl 0 inp = some (t, a, r)) : t < 87 := by
  unfold lexTokT at h
  cases hg : lexGo kwTbl (inp.length + 8) 0 inp [] none with
  | none => rw [hg] at h; exact Option.noConfusion h
  | some v =>
    obtain ⟨tv, av, rv⟩ := v
    rw [hg] at h
    simp only [Option.some.injEq, Prod.mk.injEq] at h
    exact h.1 ▸ lexGoBound kwTbl kwLt87 _ 0 inp [] none
      (fun _ _ _ he => Option.noConfusion he) tv av rv hg

theorem kwSubstLt (st sym : Nat) (text : List Nat) (h : sym < 87) :
    kwSubst st sym text < 87 := by
  unfold kwSubst
  cases hg : lexTokT kwTbl 0 text with
  | none => exact h
  | some v =>
    obtain ⟨k, a, r⟩ := v
    by_cases hc : r.isEmpty && (rowFind (rowOf st) k).isSome
    · simp only [hc, if_true]
      exact kwTokLt text k a r hg
    · simp only [hc, if_false]
      exact h

theorem actFindMem : ∀ (l : List (Nat × List PAct)) (i : Nat),
    actFind l i = [] ∨ ∃ pr, pr ∈ l ∧ actFind l i = pr.2 := by
  intro l
  induction l with
  | nil => intro i; exact Or.inl rfl
  | cons pr rest ih =>
    intro i
    by_cases hc : pr.1 == i
    · refine Or.inr ⟨pr, List.mem_cons_self pr rest, ?_⟩
      simp [actFind, hc]
    · rcases ih i with h | ⟨pr2, hm, he⟩
      · left
        simpa [actFind, hc] using h
      · refine Or.inr ⟨pr2, List.mem_cons_of_mem pr hm, ?_⟩
        simpa [actFind, hc] using he

theorem actsShape (i : Nat) : shapeOK (actsOf i) = true := by
  rcases actFindMem actTbl i with h | ⟨pr, hm, he⟩
  · unfold actsOf
    rw [h]
    rfl
  · unfold actsOf
    rw [he]
    exact List.all_eq_true.mp actShapes pr hm

theorem actsRedMax (i sym n : Nat) (h : PAct.re sym n ∈ actsOf i) : n ≤ 7 := by
  rcases actFindMem actTbl i with he | ⟨pr, hm, he⟩
  · unfold actsOf at h
    rw [he] at h
    exact absurd h (List.not_mem_nil _)
  · unfold actsOf at h
    rw [he] at h
    have := List.all_eq_true.mp (List.all_eq_true.mp redMax pr hm) _ h
    simpa using this

theorem rowOfBig (st : Nat) (h : 151 ≤ st) : rowOf st = [] := by
  unfold rowOf
  exact List.getD_eq_default rows [] (by rw [rowsLen]; omega)

theorem rowCellFact (st : Nat) (p : Cell × List Nat) (hp : p ∈ rowOf st) :
    rowCellOK st p = true := by
  by_cases h : st < 151
  · have h1 := List.all_eq_true.mp rowsOK st (List.mem_range.mpr h)
    exact List.all_eq_true.mp h1 p hp
  · rw [rowOfBig st (by omega)] at hp
    exact absurd hp (List.not_mem_nil _)

theorem rowFindMem : ∀ (row : List (Cell × List Nat)) (sym : Nat) (c : Cell),
    rowFind row sym = some c → ∃ syms, (c, syms) ∈ row ∧ sym ∈ syms := by
  intro row
  induction row with
  | nil => intro sym c h; exact Option.noConfusion h
  | cons p rest ih =>
    intro sym c h
    obtain ⟨pc, psyms⟩ := p
    by_cases hc : psyms.contains sym
    · unfold rowFind at h
      rw [if_pos hc] at h
      cases h
      exact ⟨psyms, List.mem_cons_self _ _, containsMem hc⟩
    · unfold rowFind at h
      rw [if_neg hc] at h
      obtain ⟨syms, hm, hs⟩ := ih sym c h
      exact ⟨syms, List.mem_cons_of_mem _ hm, hs⟩

theorem adjTail : ∀ (l : List (Nat × Tree)), adjOK l = true →
    adjOK l.tail = true := by
  intro l h
  match l with
  | [] => exact rfl
  | [a] => exact rfl
  | a :: b :: rest =>
    unfold adjOK at h
    simp only [Bool.and_eq_true] at h
    exact h.2

theorem adjDrop : ∀ (n : Nat) (l : List (Nat × Tree)), adjOK l = true →
    adjOK (l.drop n) = true := by
  intro n
  induction n with
  | zero => intro l h; exact h
  | succ m ih =>
    intro l h
    cases l with
    | nil => exact rfl
    | cons a rest =>
      show adjOK (rest.drop m) = true
      exact ih rest (adjTail (a :: rest) h)

theorem stkCell (l : List (Nat × Tree)) (h : stkOK l = true) :
    ∀ p ∈ l, cOK p.2 = true ∧ rootClassOK p = true := by
  unfold stkOK at h
  simp only [Bool.and_eq_true] at h
  intro p hp
  have := List.all_eq_true.mp h.1 p hp
  simpa [Bool.and_eq_true] using this

theorem stkAdj (l : List (Nat × Tree)) (h : stkOK l = true) :
    adjOK l = true := by
  unfold stkOK at h
  simp only [Bool.and_eq_true] at h
  exact h.2

theorem stkDrop (n : Nat) (l : List (Nat × Tree)) (h : stkOK l = true) :
    stkOK (l.drop n) = true := by
  unfold stkOK at h ⊢
  simp only [Bool.and_eq_true] at h ⊢
  refine ⟨List.all_eq_true.mpr ?_, adjDrop n l h.2⟩
  intro p hp
  exact List.all_eq_true.mp h.1 p (List.mem_of_mem_drop hp)

theorem adjReach : ∀ (d : Nat) (l : List (Nat × Tree)) (p : Nat × Tree)
    (s : List Nat), adjOK l = true → l[d]? = some p → p.1 ∈ s →
    (l.headD baseCell).1 ∈ succsNth d s := by
  intro d
  induction d with
  | zero =>
    intro l p s _ hget hmem
    cases l with
    | nil => exact Option.noConfusion hget
    | cons a rest =>
      rw [List.getElem?_cons_zero] at hget
      cases hget
      exact hmem
  | succ dd ih =>
    intro l p s hadj hget hmem
    cases l with
    | nil => exact Option.noConfusion hget
    | cons a rest =>
      rw [List.getElem?_cons_succ] at hget
      cases rest with
      | nil => simp at hget
      | cons b rest2 =>
        unfold adjOK at hadj
        simp only [Bool.and_eq_true] at hadj
        have hb := ih (b :: rest2) p s hadj.2 hget hmem
        show a.1 ∈ succsNth (dd + 1) s
        unfold succsNth
        refine List.mem_flatMap.mpr ⟨b.1, ?_, containsMem hadj.1⟩
        simpa using hb

theorem succsNthSub (tb : List (List Nat))
    (hchain : ((List.range 7).all (fun d => (tb.getD d []).all (fun t =>
      (succsOf t).all (fun u => (tb.getD (d + 1) []).contains u)))) = true) :
    ∀ d, d ≤ 7 → ∀ t, t ∈ succsNth d (tb.getD 0 []) → t ∈ tb.getD d [] := by
  intro d
  induction d with
  | zero => intro _ t ht; exact ht
  | succ dd ih =>
    intro hle t ht
    unfold succsNth at ht
    obtain ⟨m, hm, htm⟩ := List.mem_flatMap.mp ht
    have hm2 := ih (by omega) m hm
    have h1 := List.all_eq_true.mp hchain dd (List.mem_range.mpr (by omega))
    have h2 := List.all_eq_true.mp h1 m hm2
    have h3 := List.all_eq_true.mp h2 t htm
    exact containsMem h3

theorem redsAtApply (allowed : List Nat) (d t i sym n : Nat)
    (h : redsAtOK allowed d t = true)
    (p : Cell × List Nat) (hp : p ∈ rowOf t) (hcell : p.1 = Cell.A i)
    (ha : PAct.re sym n ∈ actsOf i) (hn : d + 1 ≤ n) : sym ∈ allowed := by
  unfold redsAtOK at h
  have h1 := List.all_eq_true.mp h p hp
  rw [hcell] at h1
  have h2 := List.all_eq_true.mp h1 _ ha
  have h3 : (!(decide (d + 1 ≤ n)) || allowed.contains sym) = true := h2
  rw [decide_eq_true hn] at h3
  simp only [Bool.not_true, Bool.false_or] at h3
  exact containsMem h3

theorem hcRedAt (d t : Nat) (hd : d < 8) (ht : t ∈ hcTbl.getD d []) :
    redsAtOK [98, 139] d t = true := by
  have h0 := hcRed
  unfold hcRedb at h0
  exact List.all_eq_true.mp
    (List.all_eq_true.mp h0 d (List.mem_range.mpr hd)) t ht

theorem h68RedAt (d t : Nat) (hd : d < 8) (ht : t ∈ h68Tbl.getD d []) :
    redsAtOK [96, 97] d t = true := by
  have h0 := h68Red
  unfold h68Redb at h0
  exact List.all_eq_true.mp
    (List.all_eq_true.mp h0 d (List.mem_range.mpr hd)) t ht

theorem cOKLAll : ∀ (l : List Tree), (∀ t ∈ l, cOK t = true) →
    cOKL l = true := by
  intro l
  induction l with
  | nil => intro _; rfl
  | cons t ts ih =>
    intro h
    show (cOK t && cOKL ts) = true
    simp only [Bool.and_eq_true]
    exact ⟨h t (List.mem_cons_self t ts),
      ih (fun u hu => h u (List.mem_cons_of_mem t hu))⟩

theorem cOKNode (s : Nat) (kids : List Tree)
    (hk : ∀ t ∈ kids, cOK t = true)
    (h98 : (kids.any (fun k => k.symb == 98)) = true → (s == 96 || s == 97) = true)
    (hcl : (kids.any (fun k => isClauseSym k.symb)) = true →
      (s == 98 || s == 139) = true) :
    cOK (Tree.nd s kids) = true := by
  show (cOKL kids &&
    (!(kids.any (fun k => k.symb == 98)) || (s == 96 || s == 97)) &&
    (!(kids.any (fun k => isClauseSym k.symb)) || (s == 98 || s == 139))) = true
  simp only [Bool.and_eq_true]
  refine ⟨⟨cOKLAll kids hk, ?_⟩, ?_⟩
  · cases hany : kids.any (fun k => k.symb == 98) with
    | false => rfl
    | true => simp [h98 hany]
  · cases hany : kids.any (fun k => isClauseSym k.symb) with
    | false => rfl
    | true => simp [hcl hany]

theorem memTakeIdx : ∀ (l : List (Nat × Tree)) (n : Nat) (p : Nat × Tree),
    p ∈ l.take n → ∃ d, d < n ∧ l[d]? = some p := by
  intro l
  induction l with
  | nil => intro n p h; simp at h
  | cons a rest ih =>
    intro n p h
    cases n with
    | zero => simp at h
    | succ m =>
      rw [List.take_succ_cons] at h
      rcases List.mem_cons.mp h with he | hm
      · exact ⟨0, by omega, by simp [he]⟩
      · obtain ⟨d, hd, hg⟩ := ih m p hm
        exact ⟨d + 1, by omega, by simpa using hg⟩

theorem beqFalseNe {a b : Nat} (h : ¬ a = b) : (a == b) = false :=
  beq_eq_false_iff_ne.mpr h

theorem symNotClause {sym : Nat} (h : sym < 87) : isClauseSym sym = false := by
  unfold isClauseSym
  rw [beqFalseNe (by omega : ¬ sym = 99), beqFalseNe (by omega : ¬ sym = 100),
    beqFalseNe (by omega : ¬ sym = 101), beqFalseNe (by omega : ¬ sym = 139)]
  rfl

theorem rootClass98 (p : Nat × Tree) (h : rootClassOK p = true)
    (h2 : p.2.symb = 98) : p.1 ∈ [68, 69] := by
  unfold rootClassOK at h
  simp only [Bool.and_eq_true] at h
  have h1 := h.1
  rw [h2] at h1
  simp only [show (98 == 98) = true from rfl,
    Bool.not_true, Bool.false_or, Bool.or_eq_true, beq_iff_eq] at h1
  rcases h1 with h1 | h1 <;> simp [h1]

theorem rootClassClause (p : Nat × Tree) (h : rootClassOK p = true)
    (h2 : isClauseSym p.2.symb = true) : p.1 ∈ [38, 39] := by
  unfold rootClassOK at h
  simp only [Bool.and_eq_true] at h
  have h1 := h.2
  rw [h2] at h1
  simp only [Bool.not_true, Bool.false_or, Bool.or_eq_true, beq_iff_eq] at h1
  rcases h1 with h1 | h1 <;> simp [h1]

theorem gotoSucc (b g sym2 : Nat)
    (hgoto : rowFind (rowOf b) sym2 = some (Cell.S g)) :
    (succsOf b).contains g = true := by
  obtain ⟨syms, hcellmem, _⟩ := rowFindMem _ sym2 _ hgoto
  have hck := rowCellFact b _ hcellmem
  have hck2 : ((succsOf b).contains g &&
      ((!(syms.contains 98)) || (g == 68 || g == 69)) &&
      ((!(syms.any isClauseSym)) || (g == 38 || g == 39))) = true := hck
  simp only [Bool.and_eq_true] at hck2
  exact hck2.1.1

theorem rootClassNew (b g sym2 : Nat)
    (hgoto : rowFind (rowOf b) sym2 = some (Cell.S g)) (kids : List Tree) :
    rootClassOK (g, Tree.nd sym2 kids) = true := by
  obtain ⟨syms, hcellmem, hsymmem⟩ := rowFindMem _ sym2 _ hgoto
  have hck := rowCellFact b _ hcellmem
  have hck2 : ((succsOf b).contains g &&
      ((!(syms.contains 98)) || (g == 68 || g == 69)) &&
      ((!(syms.any isClauseSym)) || (g == 38 || g == 39))) = true := hck
  simp only [Bool.and_eq_true] at hck2
  unfold rootClassOK
  simp only [Bool.and_eq_true]
  constructor
  · show (!((Tree.nd sym2 kids).symb == 98) || (g == 68 || g == 69)) = true
    by_cases h98 : sym2 = 98
    · have hcont : syms.contains 98 = true := memContains (h98 ▸ hsymmem)
      have h2 := hck2.1.2
      rw [hcont] at h2
      simp only [Bool.not_true, Bool.false_or] at h2
      simp [h2]
    · have hf : ((Tree.nd sym2 kids).symb == 98) = false := beqFalseNe h98
      simp [hf]
  · show (!(isClauseSym (Tree.nd sym2 kids).symb) || (g == 38 || g == 39)) = true
    by_cases hcl : isClauseSym sym2 = true
    · have hany : syms.any isClauseSym = true :=
        List.any_eq_true.mpr ⟨sym2, hsymmem, hcl⟩
      have h2 := hck2.2
      rw [hany] at h2
      simp only [Bool.not_true, Bool.false_or] at h2
      simp [Tree.symb, hcl, h2]
    · have hf : isClauseSym sym2 = false := by
        cases hb : isClauseSym sym2 with
        | true => exact absurd hb hcl
        | false => rfl
      simp [Tree.symb, hf]

theorem reduceInv (stk : List (Nat × Tree)) (sym2 n g : Nat)
    (hst : stkOK stk = true)
    (hredAt : ∃ pr ∈ rowOf ((stk.headD baseCell).1), ∃ i, pr.1 = Cell.A i ∧
      PAct.re sym2 n ∈ actsOf i)
    (hgoto : rowFind (rowOf ((stk.drop n).headD baseCell).1) sym2 =
      some (Cell.S g)) :
    stkOK ((g, Tree.nd sym2 (((stk.take n).map Prod.snd).reverse)) ::
      stk.drop n) = true := by
  obtain ⟨pr, hpr, i, hpc, hre⟩ := hredAt
  have hn7 : n ≤ 7 := actsRedMax i sym2 n hre
  have hkidsrc : ∀ t ∈ ((stk.take n).map Prod.snd).reverse,
      ∃ p, p ∈ stk.take n ∧ p.2 = t := by
    intro t ht
    rw [List.mem_reverse] at ht
    obtain ⟨p, hp, he⟩ := List.mem_map.mp ht
    exact ⟨p, hp, he⟩
  have hkcOK : ∀ t ∈ ((stk.take n).map Prod.snd).reverse, cOK t = true := by
    intro t ht
    obtain ⟨p, hp, he⟩ := hkidsrc t ht
    exact he ▸ (stkCell stk hst p (List.mem_of_mem_take hp)).1
  have hguard98 : (((stk.take n).map Prod.snd).reverse.any
      (fun k => k.symb == 98)) = true →
      (sym2 == 96 || sym2 == 97) = true := by
    intro hany
    obtain ⟨k, hk, hk98⟩ := List.any_eq_true.mp hany
    obtain ⟨p, hp, he⟩ := hkidsrc k hk
    have h98 : p.2.symb = 98 := by rw [he]; exact beq_iff_eq.mp hk98
    obtain ⟨d, hd, hget⟩ := memTakeIdx stk n p hp
    have hcls := (stkCell stk hst p (List.mem_of_mem_take hp)).2
    have hmem68 := rootClass98 p hcls h98
    have hreach := adjReach d stk p [68, 69] (stkAdj stk hst) hget hmem68
    rw [← h68Base] at hreach
    have hchain : ((List.range 7).all (fun dd => (h68Tbl.getD dd []).all
        (fun t2 => (succsOf t2).all
          (fun u => (h68Tbl.getD (dd + 1) []).contains u)))) = true := by
      have h0 := h68Chain
      unfold h68Chainb at h0
      exact h0
    have htop := succsNthSub h68Tbl hchain d (by omega) _ hreach
    have hredOK := h68RedAt d _ (by omega) htop
    have hsymMem := redsAtApply [96, 97] d _ i sym2 n hredOK pr hpr hpc hre
      (by omega)
    rcases (by simpa using hsymMem : sym2 = 96 ∨ sym2 = 97) with he2 | he2 <;>
      simp [he2]
  have hguardCl : (((stk.take n).map Prod.snd).reverse.any
      (fun k => isClauseSym k.symb)) = true →
      (sym2 == 98 || sym2 == 139) = true := by
    intro hany
    obtain ⟨k, hk, hkcl⟩ := List.any_eq_true.mp hany
    obtain ⟨p, hp, he⟩ := hkidsrc k hk
    have hclp : isClauseSym p.2.symb = true := by rw [he]; exact hkcl
    obtain ⟨d, hd, hget⟩ := memTakeIdx stk n p hp
    have hcls := (stkCell stk hst p (List.mem_of_mem_take hp)).2
    have hmem38 := rootClassClause p hcls hclp
    have hreach := adjReach d stk p [38, 39] (stkAdj stk hst) hget hmem38
    rw [← hcBase] at hreach
    have hchain : ((List.range 7).all (fun dd => (hcTbl.getD dd []).all
        (fun t2 => (succsOf t2).all
          (fun u => (hcTbl.getD (dd + 1) []).contains u)))) = true := by
      have h0 := hcChain
      unfold hcChainb at h0
      exact h0
    have htop := succsNthSub hcTbl hchain d (by omega) _ hreach
    have hredOK := hcRedAt d _ (by omega) htop
    have hsymMem := redsAtApply [98, 139] d _ i sym2 n hredOK pr hpr hpc hre
      (by omega)
    rcases (by simpa using hsymMem : sym2 = 98 ∨ sym2 = 139) with he2 | he2 <;>
      simp [he2]
  unfold stkOK
  simp only [Bool.and_eq_true]
  constructor
  · apply List.all_eq_true.mpr
    intro p hp
    rcases List.mem_cons.mp hp with he | hm
    · subst he
      simp only [Bool.and_eq_true]
      exact ⟨cOKNode sym2 _ hkcOK hguard98 hguardCl,
        rootClassNew _ g sym2 hgoto _⟩
    · have hds := stkDrop n stk hst
      unfold stkOK at hds
      simp only [Bool.and_eq_true] at hds
      exact List.all_eq_true.mp hds.1 p hm
  · cases hdrop : stk.drop n with
    | nil =>
      show adjOK [(g, Tree.nd sym2 (((stk.take n).map Prod.snd).reverse))] = true
      rfl
    | cons q rest =>
      show ((succsOf q.1).contains g &&
        adjOK (q :: rest)) = true
      simp only [Bool.and_eq_true]
      constructor
      · have := gotoSucc ((stk.drop n).headD baseCell).1 g sym2 hgoto
        rw [hdrop] at this
        exact this
      · have hds := stkDrop n stk hst
        rw [hdrop] at hds
        exact stkAdj _ hds

theorem shiftInv (stk : List (Nat × Tree)) (sym x : Nat) (text : List Nat)
    (hst : stkOK stk = true) (hsym : sym < 87)
    (hsucc : ∀ q rest, stk = q :: rest → (succsOf q.1).contains x = true) :
    stkOK ((x, Tree.tok sym text) :: stk) = true := by
  unfold stkOK
  simp only [Bool.and_eq_true]
  constructor
  · apply List.all_eq_true.mpr
    intro p hp
    rcases List.mem_cons.mp hp with he | hm
    · subst he
      simp only [Bool.and_eq_true]
      refine ⟨rfl, ?_⟩
      unfold rootClassOK
      have h1 : ((Tree.tok sym text).symb == 98) = false := beqFalseNe (by
        show ¬ sym = 98
        omega)
      have h2 : isClauseSym (Tree.tok sym text).symb = false :=
        symNotClause hsym
      rw [h1, h2]
      rfl
    · have hall := stkCell stk hst p hm
      simp only [Bool.and_eq_true]
      exact hall
  · cases stk with
    | nil => rfl
    | cons q rest =>
      show ((succsOf q.1).contains x && adjOK (q :: rest)) = true
      simp only [Bool.and_eq_true]
      exact ⟨hsucc q rest rfl, stkAdj _ hst⟩

theorem actShiftSucc (st i : Nat) (syms : List Nat)
    (hmem : (Cell.A i, syms) ∈ rowOf st) (n : Nat)
    (h : PAct.sh n ∈ actsOf i ∨ PAct.shr n ∈ actsOf i) :
    (succsOf st).contains n = true := by
  have hck := rowCellFact st _ hmem
  have hck2 : ((!(syms.contains 98)) && (!(syms.any isClauseSym)) &&
      ((actsOf i).all fun a => match a with
        | PAct.sh m => (succsOf st).contains m
        | PAct.shr m => (succsOf st).contains m
        | _ => true) &&
      (match actsOf i with
       | [PAct.re sym _, PAct.shr x] => fusedPairs.contains (sym, x)
       | _ => true)) = true := hck
  simp only [Bool.and_eq_true] at hck2
  rcases h with h | h
  · exact List.all_eq_true.mp hck2.1.2 _ h
  · exact List.all_eq_true.mp hck2.1.2 _ h

theorem actFusedPair (st i : Nat) (syms : List Nat)
    (hmem : (Cell.A i, syms) ∈ rowOf st) (sym2 n x : Nat)
    (hacts : actsOf i = [PAct.re sym2 n, PAct.shr x]) :
    fusedPairs.contains (sym2, x) = true := by
  have hck := rowCellFact st _ hmem
  have hck2 : ((!(syms.contains 98)) && (!(syms.any isClauseSym)) &&
      ((actsOf i).all fun a => match a with
        | PAct.sh m => (succsOf st).contains m
        | PAct.shr m => (succsOf st).contains m
        | _ => true) &&
      (match actsOf i with
       | [PAct.re sym _, PAct.shr x] => fusedPairs.contains (sym, x)
       | _ => true)) = true := hck
  simp only [Bool.and_eq_true] at hck2
  have h2 := hck2.2
  rw [hacts] at h2
  exact h2

theorem fusedSucc (sym2 x g b : Nat)
    (hpair : fusedPairs.contains (sym2, x) = true)
    (hgoto : rowFind (rowOf b) sym2 = some (Cell.S g)) :
    (succsOf g).contains x = true := by
  have h0 := fusedFact
  unfold fusedOKb at h0
  have hmemP : (sym2, x) ∈ fusedPairs := by simpa using hpair
  have h1 := List.all_eq_true.mp h0 _ hmemP
  obtain ⟨syms, hcellmem, hsymmem⟩ := rowFindMem _ sym2 _ hgoto
  by_cases hb : b < 151
  · have h2 := List.all_eq_true.mp h1 b (List.mem_range.mpr hb)
    have h3 := List.all_eq_true.mp h2 _ hcellmem
    have h4 : ((!(syms.contains sym2)) || (succsOf g).contains x) = true := h3
    rw [memContains hsymmem] at h4
    simpa using h4
  · rw [rowOfBig b (by omega)] at hcellmem
    exact absurd hcellmem (List.not_mem_nil _)

theorem reResS (c : Cfg) (sym2 n g : Nat)
    (h : rowFind (rowOf ((c.stk.drop n).headD baseCell).1) sym2 =
      some (Cell.S g)) :
    reRes c sym2 n =
      some ⟨(g, Tree.nd sym2 (((c.stk.take n).map Prod.snd).reverse)) ::
        c.stk.drop n, c.tokn, c.inp⟩ := by
  unfold reRes
  rw [h]

theorem reResA (c : Cfg) (sym2 n j : Nat)
    (h : rowFind (rowOf ((c.stk.drop n).headD baseCell).1) sym2 =
      some (Cell.A j)) :
    reRes c sym2 n = none := by
  unfold reRes
  rw [h]

theorem reResN (c : Cfg) (sym2 n : Nat)
    (h : rowFind (rowOf ((c.stk.drop n).headD baseCell).1) sym2 = none) :
    reRes c sym2 n = none := by
  unfold reRes
  rw [h]

theorem applyNilEq (c : Cfg) (sym : Nat) (text after : List Nat) :
    applyActs [] c sym text after = Step.cont c := rfl

theorem applyShEq (rest : List PAct) (c : Cfg) (x sym : Nat)
    (text after : List Nat) :
    applyActs (PAct.sh x :: rest) c sym text after =
      applyActs rest ⟨(x, Tree.tok sym text) :: c.stk, none, after⟩
        sym text after := rfl

theorem applyShrEq (rest : List PAct) (c : Cfg) (x sym : Nat)
    (text after : List Nat) :
    applyActs (PAct.shr x :: rest) c sym text after =
      applyActs rest ⟨(x, Tree.tok sym text) :: c.stk, none, after⟩
        sym text after := rfl

theorem applyAccEq (rest : List PAct) (c : Cfg) (sym : Nat)
    (text after : List Nat) :
    applyActs (PAct.acc :: rest) c sym text after =
      Step.done (c.stk.headD baseCell).2 := rfl

theorem applyRcvEq (rest : List PAct) (c : Cfg) (sym : Nat)
    (text after : List Nat) :
    applyActs (PAct.rcv :: rest) c sym text after = Step.fail c.inp := rfl

theorem applyReS (rest : List PAct) (c c2 : Cfg) (sym2 n sym : Nat)
    (text after : List Nat) (h : reRes c sym2 n = some c2) :
    applyActs (PAct.re sym2 n :: rest) c sym text after =
      applyActs rest c2 sym text after := by
  conv_lhs => unfold applyActs
  rw [h]

theorem applyReN (rest : List PAct) (c : Cfg) (sym2 n sym : Nat)
    (text after : List Nat) (h : reRes c sym2 n = none) :
    applyActs (PAct.re sym2 n :: rest) c sym text after =
      Step.fail c.inp := by
  conv_lhs => unfold applyActs
  rw [h]

theorem pstepNoneEq (stk : List (Nat × Tree)) (inp : List Nat) :
    pstep ⟨stk, none, inp⟩ = pstepLex ⟨stk, none, inp⟩ := rfl

theorem pstepSomeEq (stk : List (Nat × Tree)) (sym : Nat)
    (text after inp : List Nat) :
    pstep ⟨stk, some (sym, text, after), inp⟩ =
      pstepTok ⟨stk, some (sym, text, after), inp⟩ sym text after := rfl

theorem pstepLexN (c : Cfg)
    (h : lexTokT lexTbl (modes.getD (topState c) 0) c.inp = none) :
    pstepLex c = Step.fail c.inp := by
  unfold pstepLex
  rw [h]

theorem pstepLexS (c : Cfg) (sym : Nat) (text after : List Nat)
    (h : lexTokT lexTbl (modes.getD (topState c) 0) c.inp =
      some (sym, text, after)) :
    pstepLex c = Step.cont ⟨c.stk,
      some (if sym == 1 then kwSubst (topState c) sym text else sym,
        text, after), c.inp⟩ := by
  unfold pstepLex
  rw [h]

theorem pstepTokA (c : Cfg) (sym i : Nat) (text after : List Nat)
    (h : rowFind (rowOf (topState c)) sym = some (Cell.A i)) :
    pstepTok c sym text after = applyActs (actsOf i) c sym text after := by
  unfold pstepTok
  rw [h]

theorem pstepTokS (c : Cfg) (sym g : Nat) (text after : List Nat)
    (h : rowFind (rowOf (topState c)) sym = some (Cell.S g)) :
    pstepTok c sym text after = Step.fail c.inp := by
  unfold pstepTok
  rw [h]

theorem pstepTokN (c : Cfg) (sym : Nat) (text after : List Nat)
    (h : rowFind (rowOf (topState c)) sym = none) :
    pstepTok c sym text after = Step.fail c.inp := by
  unfold pstepTok
  rw [h]

theorem pstepInv (c : Cfg) (h : cfgOK c = true) :
    (∃ r, pstep c = Step.fail r) ∨
    (∃ c2, pstep c = Step.cont c2 ∧ cfgOK c2 = true) ∨
    (∃ t, pstep c = Step.done t ∧ cOK t = true) := by
  obtain ⟨stk0, tokn0, inp0⟩ := c
  have h2 : (stkOK stk0 && toknOK tokn0) = true := h
  simp only [Bool.and_eq_true] at h2
  obtain ⟨hstk, htokn⟩ := h2
  cases tokn0 with
  | none =>
    cases hl : lexTokT lexTbl
        (modes.getD (topState ⟨stk0, none, inp0⟩) 0) inp0 with
    | none =>
      refine Or.inl ⟨inp0, ?_⟩
      rw [pstepNoneEq, pstepLexN _ hl]
    | some v =>
      obtain ⟨sym, text, after⟩ := v
      have hlt : sym < 87 := lexTokLt _ _ _ _ _ hl
      refine Or.inr (Or.inl ⟨⟨stk0,
        some (if sym == 1 then
          kwSubst (topState ⟨stk0, none, inp0⟩) sym text else sym,
          text, after), inp0⟩, ?_, ?_⟩)
      · rw [pstepNoneEq]
        exact pstepLexS _ sym text after hl
      · simp only [cfgOK, Bool.and_eq_true]
        refine ⟨hstk, ?_⟩
        have hlt2 : (if sym == 1 then
            kwSubst (topState ⟨stk0, none, inp0⟩) sym text else sym) < 87 := by
          by_cases h1 : (sym == 1) = true
          · rw [if_pos h1]
            exact kwSubstLt _ _ _ hlt
          · rw [if_neg h1]
            exact hlt
        exact decide_eq_true hlt2
  | some v =>
    obtain ⟨sym, text, after⟩ := v
    have hsym : sym < 87 :=
      of_decide_eq_true (show decide (sym < 87) = true from htokn)
    cases hf : rowFind
        (rowOf (topState ⟨stk0, some (sym, text, after), inp0⟩)) sym with
    | none =>
      refine Or.inl ⟨inp0, ?_⟩
      rw [pstepSomeEq, pstepTokN _ _ _ _ hf]
    | some cell =>
      cases cell with
      | S g =>
        refine Or.inl ⟨inp0, ?_⟩
        rw [pstepSomeEq, pstepTokS _ _ _ _ _ hf]
      | A i =>
        obtain ⟨syms, hcellmem, hsymmem⟩ := rowFindMem _ sym _ hf
        have hshape := actsShape i
        have hps : pstep ⟨stk0, some (sym, text, after), inp0⟩ =
            applyActs (actsOf i) ⟨stk0, some (sym, text, after), inp0⟩
              sym text after := by
          rw [pstepSomeEq, pstepTokA _ _ _ _ _ hf]
        cases hacts : actsOf i with
        | nil =>
          rw [hacts, applyNilEq] at hps
          exact Or.inr (Or.inl ⟨_, hps, h⟩)
        | cons a1 rest1 =>
          rw [hacts] at hshape
          cases a1 with
          | sh x =>
            cases rest1 with
            | nil =>
              rw [hacts, applyShEq, applyNilEq] at hps
              refine Or.inr (Or.inl ⟨_, hps, ?_⟩)
              have hsucc : ∀ q rest, stk0 = q :: rest →
                  (succsOf q.1).contains x = true := by
                intro q rest hqe
                have hss := actShiftSucc
                  (topState ⟨stk0, some (sym, text, after), inp0⟩) i syms
                  hcellmem x
                  (Or.inl (by rw [hacts]; exact List.mem_cons_self _ _))
                rw [hqe] at hss
                exact hss
              have hstk2 := shiftInv stk0 sym x text hstk hsym hsucc
              simp only [cfgOK, Bool.and_eq_true]
              exact ⟨hstk2, rfl⟩
            | cons a2 rest2 =>
              have hfalse : shapeOK (PAct.sh x :: a2 :: rest2) = false := rfl
              rw [hfalse] at hshape
              exact Bool.noConfusion hshape
          | shr x =>
            cases rest1 with
            | nil =>
              have hfalse : shapeOK [PAct.shr x] = false := rfl
              rw [hfalse] at hshape
              exact Bool.noConfusion hshape
            | cons a2 rest2 =>
              have hfalse : shapeOK (PAct.shr x :: a2 :: rest2) = false := rfl
              rw [hfalse] at hshape
              exact Bool.noConfusion hshape
          | re s2 n =>
            cases rest1 with
            | nil =>
              cases hgoto : rowFind
                  (rowOf ((stk0.drop n).headD baseCell).1) s2 with
              | none =>
                rw [hacts, applyReN _ _ _ _ _ _ _ (reResN _ _ _ hgoto)] at hps
                exact Or.inl ⟨_, hps⟩
              | some cell2 =>
                cases cell2 with
                | A j =>
                  rw [hacts,
                    applyReN _ _ _ _ _ _ _ (reResA _ _ _ _ hgoto)] at hps
                  exact Or.inl ⟨_, hps⟩
                | S g =>
                  rw [hacts, applyReS _ _ _ _ _ _ _ _ (reResS _ _ _ _ hgoto),
                    applyNilEq] at hps
                  refine Or.inr (Or.inl ⟨_, hps, ?_⟩)
                  have hstk2 := reduceInv stk0 s2 n g hstk
                    ⟨(Cell.A i, syms), hcellmem, i, rfl,
                      (by rw [hacts]; exact List.mem_cons_self _ _)⟩ hgoto
                  simp only [cfgOK, Bool.and_eq_true]
                  exact ⟨hstk2, htokn⟩
            | cons a2 rest2 =>
              cases a2 with
              | shr x =>
                cases rest2 with
                | nil =>
                  cases hgoto : rowFind
                      (rowOf ((stk0.drop n).headD baseCell).1) s2 with
                  | none =>
                    rw [hacts,
                      applyReN _ _ _ _ _ _ _ (reResN _ _ _ hgoto)] at hps
                    exact Or.inl ⟨_, hps⟩
                  | some cell2 =>
                    cases cell2 with
                    | A j =>
                      rw [hacts,
                        applyReN _ _ _ _ _ _ _ (reResA _ _ _ _ hgoto)] at hps
                      exact Or.inl ⟨_, hps⟩
                    | S g =>
                      rw [hacts,
                        applyReS _ _ _ _ _ _ _ _ (reResS _ _ _ _ hgoto),
                        applyShrEq, applyNilEq] at hps
                      refine Or.inr (Or.inl ⟨_, hps, ?_⟩)
                      have hstk2 := reduceInv stk0 s2 n g hstk
                        ⟨(Cell.A i, syms), hcellmem, i, rfl,
                          (by rw [hacts]; exact List.mem_cons_self _ _)⟩ hgoto
                      have hpair := actFusedPair
                        (topState ⟨stk0, some (sym, text, after), inp0⟩) i
                        syms hcellmem s2 n x hacts
                      have hx : (succsOf g).contains x = true :=
                        fusedSucc s2 x g _ hpair hgoto
                      have hstk3 := shiftInv _ sym x text hstk2 hsym
                        (by
                          intro q rest hqe
                          injection hqe with h1 h3
                          rw [← h1]
                          exact hx)
                      simp only [cfgOK, Bool.and_eq_true]
                      exact ⟨hstk3, rfl⟩
                | cons a3 rest3 =>
                  have hfalse : shapeOK
                      (PAct.re s2 n :: PAct.shr x :: a3 :: rest3) =
                        false := rfl
                  rw [hfalse] at hshape
                  exact Bool.noConfusion hshape
              | sh x =>
                have hfalse : shapeOK
                    (PAct.re s2 n :: PAct.sh x :: rest2) = false := rfl
                rw [hfalse] at hshape
                exact Bool.noConfusion hshape
              | re s3 m =>
                have hfalse : shapeOK
                    (PAct.re s2 n :: PAct.re s3 m :: rest2) = false := rfl
                rw [hfalse] at hshape
                exact Bool.noConfusion hshape
              | acc =>
                have hfalse : shapeOK
                    (PAct.re s2 n :: PAct.acc :: rest2) = false := rfl
                rw [hfalse] at hshape
                exact Bool.noConfusion hshape
              | rcv =>
                have hfalse : shapeOK
                    (PAct.re s2 n :: PAct.rcv :: rest2) = false := rfl
                rw [hfalse] at hshape
                exact Bool.noConfusion hshape
          | acc =>
            rw [hacts, applyAccEq] at hps
            refine Or.inr (Or.inr ⟨_, hps, ?_⟩)
            cases stk0 with
            | nil => rfl
            | cons q rest =>
              exact (stkCell (q :: rest) hstk q (List.mem_cons_self _ _)).1
          | rcv =>
            rw [hacts, applyRcvEq] at hps
            exact Or.inl ⟨_, hps⟩

theorem prunContEq (fuel : Nat) (c c2 : Cfg) (h : pstep c = Step.cont c2) :
    prun (Nat.succ fuel) c = prun fuel c2 := by
  conv_lhs => unfold prun
  rw [h]

theorem prunDoneEq (fuel : Nat) (c : Cfg) (t : Tree)
    (h : pstep c = Step.done t) :
    prun (Nat.succ fuel) c = Step.done t := by
  conv_lhs => unfold prun
  rw [h]

theorem prunFailEq (fuel : Nat) (c : Cfg) (r : List Nat)
    (h : pstep c = Step.fail r) :
    prun (Nat.succ fuel) c = Step.fail r := by
  conv_lhs => unfold prun
  rw [h]

theorem prunInv : ∀ (fuel : Nat) (c : Cfg), cfgOK c = true →
    ∀ t, prun fuel c = Step.done t → cOK t = true := by
  intro fuel
  induction fuel with
  | zero =>
    intro c hc t hp
    rw [show prun 0 c = Step.fail c.inp from rfl] at hp
    exact Step.noConfusion hp
  | succ fuel ih =>
    intro c hc t hp
    rcases pstepInv c hc with ⟨r, he⟩ | ⟨c2, he, hc2⟩ | ⟨t2, he, ht2⟩
    · rw [prunFailEq fuel c r he] at hp
      exact Step.noConfusion hp
    · rw [prunContEq fuel c c2 he] at hp
      exact ih c2 hc2 t hp
    · rw [prunDoneEq fuel c t2 he] at hp
      injection hp with he2
      rw [← he2]
      exact ht2

theorem parse_cOK (inp : List Nat) (t : Tree)
    (h : parseCodes inp = Step.done t) : cOK t = true := by
  have hc : cfgOK (initCfg inp) = true := rfl
  exact prunInv _ _ hc t h

/-- C5 (amended).  Clause attachment discipline: in every tree the
parser returns, a step_clauses node occurs only as a child of a
step_def or a riser_def node (risers carry clauses too, contrary to
the claim), and clause nodes (`belongs to:` / `expects:` /
`returns:`) together with the clause repetition wrapper occur only
as children of step_clauses or of the wrapper itself; Building and
Floor definitions never carry clauses. -/
theorem c5_clauses_step_or_riser (s : String) (t : Tree)
    (h : parseTree s = some t) : cOK t = true := by
  unfold parseTree at h
  cases hp : parseStr s with
  | cont c2 =>
    rw [hp] at h
    exact Option.noConfusion h
  | done t2 =>
    rw [hp] at h
    have h3 : some t2 = some t := h
    injection h3 with he
    rw [← he]
    exact parse_cOK (str s) t2 hp
  | fail r =>
    rw [hp] at h
    exact Option.noConfusion h

/-- Witness for C5 at a concrete input: the riser example of the
counterexample parses, and its tree satisfies the clause attachment
discipline. -/
theorem c5_clauses_witness :
    parseTree c5src = some c5tree ∧ cOK c5tree = true :=
  ⟨rfl, c5_clauses_step_or_riser c5src c5tree rfl⟩
